import Mathlib

/-! # Exynos 9810 audio proxy: route manager and stream proxies

A shallow embedding of the routing state machine of `audio/proxy/audio_proxy.c`
(`proxy_set_route` and the functions it calls), of `adjust_mmap_period_count`,
of the buffer provider `get_next_buffer`, and of the stream proxy functions:
creation and reconfiguration with `check_conversion`, open, start, stop and
close, `proxy_write_playback_buffer`, `proxy_get_presen_position` and
`proxy_read_capture_buffer` with its read loop, and of `proxy_init_route`.

Conventions of the embedding:

* C strings are lists of characters (the bytes before the terminating NUL);
  `strlcpy`, `strlcat` and `strstr` are written out with their bounds.
* The enum values, path tables and MMAP macros come from headers that are not
  part of the sources at hand (`audio_definition.h`, `audio_tables.h`,
  `audio_proxy.h`); they are the fields of `Defs`, a parameter of every
  function that uses them.  Enum values are natural numbers.
* Calls that leave the proxy (audio_route, mixer, tinyalsa PCM, the mixer
  lock) are recorded in order in the `trace` field of the proxy state.
* What the hardware answers (does a PCM node come up ready, does a mixer
  control exist) is read from `Hw`.
* A stream is a value of `audio_proxy_stream`; the stream functions take it
  and return it. Their calls to the PCM, compress and resampler libraries are
  recorded in its `calls` field, and what those libraries answer is read from
  `stream_hw` (one record per call of a stream function) and `capture_hw` (by
  pass of the read loop). The stream functions are the build without
  `SUPPORT_STHAL_INTERFACE`.
* Inline functions of the platform headers are the fields of `Platform`.
-/

namespace AudioProxy

/-! ## C strings -/

/-- A C string: the characters before the terminating NUL. -/
abbrev CStr := List Char

/-- Value of `strlcpy(dst, src, size)` left in `dst`: at most `size - 1` characters. -/
def strlcpy (src : CStr) (size : Nat) : CStr :=
  src.take (size - 1)

/-- Value of `strlcat(dst, src, size)` left in `dst`: `src` is appended as far as
`size - 1` characters in total allow; a `dst` already that long is kept. -/
def strlcat (dst src : CStr) (size : Nat) : CStr :=
  if size ≤ dst.length then dst else dst ++ src.take (size - 1 - dst.length)

/-- Result of `strstr(hay, needle)`: offset of the first occurrence, if any. -/
def strstr : (hay needle : CStr) → Option Nat
  | [], needle => if needle.isEmpty then some 0 else none
  | c :: hay, needle =>
    if needle.isPrefixOf (c :: hay) then some 0
    else (strstr hay needle).map (· + 1)

/-- Macro `MAX_PATH_NAME_LEN` of `audio_mixer.h`. -/
def MAX_PATH_NAME_LEN : Nat := 50

/-- Macro `MAX_GAIN_PATH_NAME_LEN` of `audio_mixer.h`. -/
def MAX_GAIN_PATH_NAME_LEN : Nat := 55

/-- Macro `ABOX_MUTE_CONTROL_NAME` of `audio_mixer.h`. -/
def ABOX_MUTE_CONTROL_NAME : CStr := "ABOX ERAP info Mute Primary".toList

/-- Macro `ABOX_TICKLE_CONTROL_NAME` of `audio_mixer.h`. -/
def ABOX_TICKLE_CONTROL_NAME : CStr := "ABOX Tickle".toList

/-- Macro `ABOX_MUTE_CNT_FOR_PATH_CHANGE` of `audio_mixer.h`. -/
def ABOX_MUTE_CNT_FOR_PATH_CHANGE : Int := 15

/-- Macro `ABOX_TICKLE_ON` of `audio_mixer.h`. -/
def ABOX_TICKLE_ON : Int := 1

/-- Constant `AUDIO_MODE_IN_CALL` of the platform header `system/audio.h`. -/
def AUDIO_MODE_IN_CALL : Int := 2

/-- The `erap_trigger` enum of `audio_mixer.h`. -/
inductive erap_trigger where
  | MUTE_CONTROL
  | TICKLE_CONTROL
  deriving DecidableEq, Repr

/-! ## Definitions taken as parameters -/

/-- Enum values, tables and macros of the headers that are not among the
sources (`audio_definition.h`, `audio_tables.h`, `audio_proxy.h`). -/
structure Defs where
  -- device_type
  DEVICE_EARPIECE : Nat
  DEVICE_SPEAKER : Nat
  DEVICE_SPEAKER2 : Nat
  DEVICE_SPEAKER_DUAL : Nat
  DEVICE_SPEAKER_DEX : Nat
  DEVICE_HEADSET : Nat
  DEVICE_HEADPHONE : Nat
  DEVICE_SPEAKER_AND_HEADSET : Nat
  DEVICE_SPEAKER_AND_HEADPHONE : Nat
  DEVICE_BT_HEADSET : Nat
  DEVICE_SPEAKER_AND_BT_HEADSET : Nat
  DEVICE_CALL_FWD : Nat
  DEVICE_SPECTRO : Nat
  DEVICE_AUX_DIGITAL : Nat
  DEVICE_MAIN_MIC : Nat
  DEVICE_NONE : Nat
  -- audio_usage
  AUSAGE_CPCALL_MIN : Nat
  AUSAGE_CPCALL_MAX : Nat
  AUSAGE_APCALL_MIN : Nat
  AUSAGE_APCALL_MAX : Nat
  AUSAGE_LOOPBACK : Nat
  AUSAGE_LOOPBACK_CODEC : Nat
  AUSAGE_FM_RADIO : Nat
  AUSAGE_INCALL_UPLINK : Nat
  AUSAGE_INCALL_DOWNLINK : Nat
  AUSAGE_NONE : Nat
  -- modifier_type
  MODIFIER_BT_SCO_TX_NB : Nat
  MODIFIER_NONE : Nat
  -- audio_stream_type
  ASTREAM_CAPTURE_CALL : Nat
  -- audio_tables.h
  usage_path_table : Nat → CStr
  device_table : Nat → CStr
  modifier_table : Nat → CStr
  -- MMAP period count bounds
  MMAP_PERIOD_COUNT_MIN : Nat
  MMAP_PERIOD_COUNT_MAX : Nat
  -- audio_stream_type, the other values
  ASTREAM_PLAYBACK_NO_ATTRIBUTE : Nat
  ASTREAM_PLAYBACK_PRIMARY : Nat
  ASTREAM_PLAYBACK_FAST : Nat
  ASTREAM_PLAYBACK_LOW_LATENCY : Nat
  ASTREAM_PLAYBACK_DEEP_BUFFER : Nat
  ASTREAM_PLAYBACK_COMPR_OFFLOAD : Nat
  ASTREAM_PLAYBACK_MMAP : Nat
  ASTREAM_PLAYBACK_AUX_DIGITAL : Nat
  ASTREAM_CAPTURE_NO_ATTRIBUTE : Nat
  ASTREAM_CAPTURE_PRIMARY : Nat
  ASTREAM_CAPTURE_LOW_LATENCY : Nat
  ASTREAM_CAPTURE_MMAP : Nat
  ASTREAM_CAPTURE_FM : Nat
  -- capture tables and durations of audio_proxy.h
  supported_capture_samplingrate : List Nat
  supported_capture_channelmask : List Nat
  supported_capture_pcmformat : List Nat
  PREDEFINED_MEDIA_CAPTURE_DURATION : Nat
  PREDEFINED_LOW_CAPTURE_DURATION : Nat
  MMAP_PERIOD_SIZE : Nat

/-! ## Proxy state -/

/-- The internal PCM nodes whose handles `struct audio_proxy` keeps. -/
inductive pcm_node where
  | out_loopback
  | erap_in
  | spkamp_reference
  | spkamp_playback
  | btsco_playback
  | call_rx
  | call_tx
  | fm_playback
  | fm_capture
  deriving DecidableEq, Repr

/-- What the hardware answers to the calls the proxy makes. -/
structure Hw where
  /-- Answer of `pcm_is_ready` on the handle `pcm_open` returned for the node. -/
  pcm_is_ready : pcm_node → Bool
  /-- Whether `pcm_start` on the node returns 0. -/
  pcm_start_ok : pcm_node → Bool
  /-- Whether `mixer_get_ctl_by_name` finds the control. -/
  mixer_has_ctl : CStr → Bool

/-- Calls that leave the proxy, in the order they are made.
`pthread_create_mixer_update_loop` is the `pthread_create` call that starts
`mixer_update_loop`. -/
inductive Event where
  | rdlock
  | unlock
  | audio_route_apply_and_update_path (name : CStr)
  | audio_route_apply_path (name : CStr)
  | audio_route_reset_path (name : CStr)
  | audio_route_reset_and_update_path (name : CStr)
  | audio_route_update_mixer
  | mixer_ctl_set_value (ctl : CStr) (value : Int)
  | pcm_open (n : pcm_node)
  | pcm_start (n : pcm_node)
  | pcm_stop (n : pcm_node)
  | pcm_close (n : pcm_node)
  | mixer_open
  | mixer_close
  | mixer_subscribe_events (subscribe : Int)
  | audio_route_init (path : CStr)
  | pthread_rwlock_init
  | pthread_create_mixer_update_loop
  deriving DecidableEq, Repr

/-- The fields of `struct audio_proxy` the route manager reads and writes, and
`spk_ampL_powerOn`, which `proxy_open_playback_stream` reads.
`handle n` is true when the handle of node `n` is not NULL; `mixer` and
`aroute` are true when the pointer is not NULL; `xml_path` is `none` when it is
NULL. -/
structure audio_proxy where
  active_playback_ausage : Nat
  active_playback_device : Nat
  active_playback_modifier : Nat
  active_capture_ausage : Nat
  active_capture_device : Nat
  active_capture_modifier : Nat
  audio_mode : Int
  support_out_loopback : Bool
  support_spkamp : Bool
  support_btsco : Bool
  support_dualspk : Bool
  handle : pcm_node → Bool
  trace : List Event
  spk_ampL_powerOn : Bool := false
  mixer : Bool := false
  aroute : Bool := false
  xml_path : Option CStr := none

/-- Append one outgoing call to the trace. -/
def audio_proxy.emit (s : audio_proxy) (e : Event) : audio_proxy :=
  { s with trace := s.trace ++ [e] }

/-- Store an open (`true`) or NULL (`false`) handle for a node. -/
def audio_proxy.set_handle (s : audio_proxy) (n : pcm_node) (b : Bool) : audio_proxy :=
  { s with handle := fun m => if m = n then b else s.handle m }

/-! ## Usage classes -/

/-- Source: `is_active_usage_CPCall`. -/
def is_active_usage_CPCall (K : Defs) (aproxy : audio_proxy) : Bool :=
  decide (aproxy.active_playback_ausage ≥ K.AUSAGE_CPCALL_MIN) &&
    decide (aproxy.active_playback_ausage ≤ K.AUSAGE_CPCALL_MAX)

/-- Source: `is_active_usage_APCall`. -/
def is_active_usage_APCall (K : Defs) (aproxy : audio_proxy) : Bool :=
  decide (aproxy.active_playback_ausage ≥ K.AUSAGE_APCALL_MIN) &&
    decide (aproxy.active_playback_ausage ≤ K.AUSAGE_APCALL_MAX)

/-- Source: `is_usage_APCall`. -/
def is_usage_APCall (K : Defs) (ausage : Nat) : Bool :=
  decide (ausage ≥ K.AUSAGE_APCALL_MIN) && decide (ausage ≤ K.AUSAGE_APCALL_MAX)

/-- Source: `is_usage_Loopback`. -/
def is_usage_Loopback (K : Defs) (ausage : Nat) : Bool :=
  decide (ausage ≥ K.AUSAGE_LOOPBACK) && decide (ausage ≤ K.AUSAGE_LOOPBACK_CODEC)

/-! ## Internal PCM nodes -/

/-- The body the `disable_*` and `*_stop` functions share: an open handle is
stopped, closed and set to NULL. -/
def pcm_stop_close (n : pcm_node) (aproxy : audio_proxy) : audio_proxy :=
  if aproxy.handle n then
    ((aproxy.emit (.pcm_stop n)).emit (.pcm_close n)).set_handle n false
  else aproxy

/-- The body the `enable_*` and `*_start` functions share: a NULL handle is
opened (`pcm_open` always returns a handle) and started; when the handle is not
ready or does not start, control goes to `err_open`. -/
def pcm_open_start (hw : Hw) (n : pcm_node) (err_open : audio_proxy → audio_proxy)
    (aproxy : audio_proxy) : audio_proxy :=
  if aproxy.handle n then aproxy
  else
    let opened := (aproxy.emit (.pcm_open n)).set_handle n true
    if !hw.pcm_is_ready n then err_open opened
    else
      let started := opened.emit (.pcm_start n)
      if hw.pcm_start_ok n then started else err_open started

/-- Source: `disable_erap_in`. -/
def disable_erap_in (aproxy : audio_proxy) : audio_proxy :=
  if aproxy.support_out_loopback then pcm_stop_close .erap_in aproxy else aproxy

/-- Source: `enable_erap_in`. -/
def enable_erap_in (hw : Hw) (aproxy : audio_proxy) : audio_proxy :=
  if aproxy.support_out_loopback then pcm_open_start hw .erap_in disable_erap_in aproxy
  else aproxy

/-- Source: `disable_spkamp_reference`. -/
def disable_spkamp_reference (aproxy : audio_proxy) : audio_proxy :=
  if aproxy.support_spkamp then pcm_stop_close .spkamp_reference aproxy else aproxy

/-- Source: `enable_spkamp_reference`. -/
def enable_spkamp_reference (hw : Hw) (aproxy : audio_proxy) : audio_proxy :=
  if aproxy.support_spkamp then
    pcm_open_start hw .spkamp_reference disable_spkamp_reference aproxy
  else aproxy

/-- Source: `disable_spkamp_playback`. -/
def disable_spkamp_playback (aproxy : audio_proxy) : audio_proxy :=
  if aproxy.support_spkamp then pcm_stop_close .spkamp_playback aproxy else aproxy

/-- Source: `enable_spkamp_playback`. -/
def enable_spkamp_playback (hw : Hw) (aproxy : audio_proxy) : audio_proxy :=
  if aproxy.support_spkamp then
    pcm_open_start hw .spkamp_playback disable_spkamp_playback aproxy
  else aproxy

/-- Source: `disable_btsco_playback`. -/
def disable_btsco_playback (aproxy : audio_proxy) : audio_proxy :=
  if aproxy.support_btsco then pcm_stop_close .btsco_playback aproxy else aproxy

/-- Source: `enable_btsco_playback`. -/
def enable_btsco_playback (hw : Hw) (aproxy : audio_proxy) : audio_proxy :=
  if aproxy.support_btsco then
    pcm_open_start hw .btsco_playback disable_btsco_playback aproxy
  else aproxy

/-- Source: `fmradio_playback_stop`. -/
def fmradio_playback_stop (aproxy : audio_proxy) : audio_proxy :=
  pcm_stop_close .fm_playback aproxy

/-- Source: `fmradio_playback_start`. -/
def fmradio_playback_start (hw : Hw) (aproxy : audio_proxy) : audio_proxy :=
  pcm_open_start hw .fm_playback fmradio_playback_stop aproxy

/-- Source: `fmradio_capture_stop`. -/
def fmradio_capture_stop (aproxy : audio_proxy) : audio_proxy :=
  pcm_stop_close .fm_capture aproxy

/-- Source: `fmradio_capture_start`. -/
def fmradio_capture_start (hw : Hw) (aproxy : audio_proxy) : audio_proxy :=
  pcm_open_start hw .fm_capture fmradio_capture_stop aproxy

/-- Source: `proxy_start_fm_radio`. -/
def proxy_start_fm_radio (hw : Hw) (aproxy : audio_proxy) : audio_proxy :=
  fmradio_capture_start hw (fmradio_playback_start hw aproxy)

/-- Source: `proxy_set_mixercontrol`. -/
def proxy_set_mixercontrol (hw : Hw) (aproxy : audio_proxy) (type : erap_trigger)
    (value : Int) : audio_proxy :=
  let locked := aproxy.emit .rdlock
  let mixer_name :=
    match type with
    | .MUTE_CONTROL => ABOX_MUTE_CONTROL_NAME
    | .TICKLE_CONTROL => ABOX_TICKLE_CONTROL_NAME
  let done :=
    if hw.mixer_has_ctl mixer_name then locked.emit (.mixer_ctl_set_value mixer_name value)
    else locked
  done.emit .unlock

/-- Source: `enable_internal_path`. -/
def enable_internal_path (K : Defs) (hw : Hw) (aproxy : audio_proxy) (target_device : Nat) :
    audio_proxy :=
  if target_device = K.DEVICE_SPEAKER ∨ target_device = K.DEVICE_SPEAKER2 ∨
      target_device = K.DEVICE_SPEAKER_DUAL ∨ target_device = K.DEVICE_SPEAKER_DEX ∨
      target_device = K.DEVICE_SPEAKER_AND_HEADSET ∨
      target_device = K.DEVICE_SPEAKER_AND_HEADPHONE then
    enable_erap_in hw (enable_spkamp_reference hw (enable_spkamp_playback hw aproxy))
  else if target_device = K.DEVICE_BT_HEADSET ∨
      target_device = K.DEVICE_SPEAKER_AND_BT_HEADSET then
    let a1 :=
      if target_device = K.DEVICE_SPEAKER_AND_BT_HEADSET then
        enable_spkamp_reference hw (enable_spkamp_playback hw aproxy)
      else aproxy
    enable_erap_in hw (enable_btsco_playback hw a1)
  else if target_device = K.DEVICE_HEADSET ∨ target_device = K.DEVICE_HEADPHONE ∨
      target_device = K.DEVICE_EARPIECE ∨ target_device = K.DEVICE_CALL_FWD ∨
      target_device = K.DEVICE_SPECTRO then
    let a1 :=
      if aproxy.audio_mode ≠ AUDIO_MODE_IN_CALL ∧ target_device = K.DEVICE_EARPIECE then
        enable_spkamp_reference hw (enable_spkamp_playback hw aproxy)
      else aproxy
    if is_active_usage_CPCall K a1 || is_active_usage_APCall K a1 then
      enable_erap_in hw a1
    else if is_usage_Loopback K a1.active_playback_ausage &&
        decide (target_device = K.DEVICE_EARPIECE) then
      enable_erap_in hw a1
    else a1
  else aproxy

/-- Source: `disable_internal_path`. -/
def disable_internal_path (K : Defs) (aproxy : audio_proxy) (target_device : Nat) :
    audio_proxy :=
  if target_device = K.DEVICE_SPEAKER ∨
      target_device = K.DEVICE_SPEAKER2 ∨ target_device = K.DEVICE_SPEAKER_DUAL ∨
      target_device = K.DEVICE_EARPIECE ∨ target_device = K.DEVICE_SPEAKER_DEX ∨
      target_device = K.DEVICE_SPEAKER_AND_HEADSET ∨
      target_device = K.DEVICE_SPEAKER_AND_HEADPHONE then
    disable_spkamp_playback (disable_spkamp_reference (disable_erap_in aproxy))
  else if target_device = K.DEVICE_BT_HEADSET ∨
      target_device = K.DEVICE_SPEAKER_AND_BT_HEADSET then
    let a1 := disable_btsco_playback (disable_erap_in aproxy)
    if target_device = K.DEVICE_SPEAKER_AND_BT_HEADSET then
      disable_spkamp_playback (disable_spkamp_reference a1)
    else a1
  else if target_device = K.DEVICE_HEADSET ∨ target_device = K.DEVICE_HEADPHONE ∨
      target_device = K.DEVICE_EARPIECE ∨ target_device = K.DEVICE_CALL_FWD ∨
      target_device = K.DEVICE_SPECTRO then
    if is_active_usage_CPCall K aproxy || is_active_usage_APCall K aproxy then
      disable_erap_in aproxy
    else if is_usage_Loopback K aproxy.active_playback_ausage &&
        decide (target_device = K.DEVICE_EARPIECE) then
      disable_erap_in aproxy
    else aproxy
  else aproxy

/-! ## Path names -/

/-- Source: `make_path`. -/
def make_path (K : Defs) (ausage device : Nat) : CStr :=
  let path_name := strlcpy (K.usage_path_table ausage) MAX_PATH_NAME_LEN
  if (K.device_table device).length > 0 then
    strlcat (strlcat path_name "-".toList MAX_PATH_NAME_LEN) (K.device_table device)
      MAX_PATH_NAME_LEN
  else path_name

/-- Source: `make_gain`. Both calls are bounded by `MAX_PATH_NAME_LEN`. -/
def make_gain (path_name : CStr) : CStr :=
  strlcat (strlcpy "gain-".toList MAX_PATH_NAME_LEN) path_name MAX_PATH_NAME_LEN

/-- Source: `add_dual_path`. The value is the content of `path_name` on return.
`sprintf` writes the rewritten name and its NUL into the `MAX_PATH_NAME_LEN`
bytes of `tempRet`; `none` stands for a write past that buffer. -/
def add_dual_path (aproxy : audio_proxy) (path_name : CStr) : Option CStr :=
  if aproxy.support_dualspk then
    let szDump := strstr path_name "speaker".toList
    if (strstr path_name "loopback".toList).isSome then some path_name
    else
      match szDump with
      | none => some path_name
      | some off =>
        let tempStr := path_name.take off
        let tempRet := tempStr ++ "dual-".toList ++ path_name.drop off
        if tempRet.length < MAX_PATH_NAME_LEN then some tempRet else none
  else some path_name

/-! ## Route graph operations -/

/-- Source: `set_route`. -/
def set_route (K : Defs) (aproxy : audio_proxy) (ausage device : Nat) : Option audio_proxy :=
  if device = K.DEVICE_AUX_DIGITAL then some aproxy
  else do
    let a1 := aproxy.emit .rdlock
    let path_name ← add_dual_path a1 (make_path K ausage device)
    let a2 := a1.emit (.audio_route_apply_and_update_path path_name)
    let gain_name := make_gain path_name
    let a3 := a2.emit (.audio_route_apply_and_update_path gain_name)
    pure (a3.emit .unlock)

/-- Source: `set_reroute`. -/
def set_reroute (K : Defs) (aproxy : audio_proxy) (old_ausage old_device new_ausage
    new_device : Nat) : Option audio_proxy := do
  let a1 := aproxy.emit .rdlock
  -- 1. Unset Active Route
  let path_name ← add_dual_path a1 (make_path K old_ausage old_device)
  let a2 := a1.emit (.audio_route_reset_path path_name)
  let gain_name := make_gain path_name
  let a3 := a2.emit (.audio_route_reset_path gain_name)
  -- 2. Set New Route
  let a4 ←
    if new_device ≠ K.DEVICE_AUX_DIGITAL then do
      let path_name ← add_dual_path a3 (make_path K new_ausage new_device)
      let b1 := a3.emit (.audio_route_apply_and_update_path path_name)
      let gain_name := make_gain path_name
      pure (b1.emit (.audio_route_apply_and_update_path gain_name))
    else pure a3
  -- 3. Update Mixers
  let a5 := a4.emit .audio_route_update_mixer
  pure (a5.emit .unlock)

/-- Source: `reset_route`. -/
def reset_route (K : Defs) (aproxy : audio_proxy) (ausage device : Nat) : Option audio_proxy := do
  let a1 := aproxy.emit .rdlock
  let path_name ← add_dual_path a1 (make_path K ausage device)
  let a2 := a1.emit (.audio_route_reset_and_update_path path_name)
  let gain_name := make_gain path_name
  let a3 := a2.emit (.audio_route_reset_and_update_path gain_name)
  pure (a3.emit .unlock)

/-- Source: `set_modifier`. -/
def set_modifier (K : Defs) (aproxy : audio_proxy) (modifier : Nat) : audio_proxy :=
  ((aproxy.emit .rdlock).emit
    (.audio_route_apply_and_update_path (K.modifier_table modifier))).emit .unlock

/-- Source: `update_modifier`. -/
def update_modifier (K : Defs) (aproxy : audio_proxy) (old_modifier new_modifier : Nat) :
    audio_proxy :=
  let a1 := aproxy.emit .rdlock
  -- 1. Unset Active Modifier
  let a2 := a1.emit (.audio_route_reset_path (K.modifier_table old_modifier))
  -- 2. Set New Modifier
  let a3 := a2.emit (.audio_route_apply_path (K.modifier_table new_modifier))
  -- 3. Update Mixers
  let a4 := a3.emit .audio_route_update_mixer
  a4.emit .unlock

/-- Source: `reset_modifier`. -/
def reset_modifier (K : Defs) (aproxy : audio_proxy) (modifier : Nat) : audio_proxy :=
  ((aproxy.emit .rdlock).emit
    (.audio_route_reset_and_update_path (K.modifier_table modifier))).emit .unlock

/-- Source: `do_operations_by_playback_route_set`. -/
def do_operations_by_playback_route_set (K : Defs) (hw : Hw) (aproxy : audio_proxy)
    (routed_ausage routed_device : Nat) : audio_proxy :=
  let a1 :=
    if routed_ausage ≠ K.AUSAGE_FM_RADIO then
      fmradio_capture_stop (fmradio_playback_stop aproxy)
    else aproxy
  if a1.active_playback_device ≠ routed_device ∧
      (is_active_usage_APCall K a1 || is_usage_APCall K routed_ausage) = true then
    proxy_set_mixercontrol hw a1 .MUTE_CONTROL ABOX_MUTE_CNT_FOR_PATH_CHANGE
  else a1

/-- Source: `do_operations_by_playback_route_reset`. -/
def do_operations_by_playback_route_reset (aproxy : audio_proxy) : audio_proxy :=
  aproxy

/-! ## The route state machine -/

/-- Source: `proxy_set_route`. The C function always returns `true`; the value
here is the proxy state it leaves. -/
def proxy_set_route (K : Defs) (hw : Hw) (aproxy : audio_proxy)
    (ausage device modifier : Nat) (set : Bool) : Option audio_proxy :=
  let routed_ausage := ausage
  let routed_device := device
  let routed_modifier := modifier
  if set then
    if routed_device < K.DEVICE_MAIN_MIC then
      let a1 := do_operations_by_playback_route_set K hw aproxy routed_ausage routed_device
      (if a1.active_playback_ausage ≠ K.AUSAGE_NONE ∧
          a1.active_playback_device ≠ K.DEVICE_NONE then
        set_reroute K (disable_internal_path K a1 a1.active_playback_device)
          a1.active_playback_ausage a1.active_playback_device routed_ausage routed_device
      else set_route K a1 routed_ausage routed_device).map fun a2 =>
      let a3 := { a2 with active_playback_ausage := routed_ausage,
                          active_playback_device := routed_device }
      -- Audio Path Modifier for Playback Path
      let a4 :=
        if routed_modifier < K.MODIFIER_BT_SCO_TX_NB then
          if a3.active_playback_modifier = K.MODIFIER_NONE then
            set_modifier K a3 routed_modifier
          else update_modifier K a3 a3.active_playback_modifier routed_modifier
        else if routed_modifier = K.MODIFIER_NONE ∧
            a3.active_playback_modifier ≠ K.MODIFIER_NONE then
          reset_modifier K a3 a3.active_playback_modifier
        else a3
      let a5 := { a4 with active_playback_modifier := routed_modifier }
      -- Set Loopback for Playback Path
      let a6 := enable_internal_path K hw a5 routed_device
      if ausage = K.AUSAGE_FM_RADIO then proxy_start_fm_radio hw a6 else a6
    else
      -- Audio Path Routing for Capture Path
      (if aproxy.active_capture_ausage ≠ K.AUSAGE_NONE ∧
          aproxy.active_capture_device ≠ K.DEVICE_NONE then
        set_reroute K (disable_internal_path K aproxy aproxy.active_capture_device)
          aproxy.active_capture_ausage aproxy.active_capture_device routed_ausage
          routed_device
      else
        -- In case of capture routing setup, it needs A-Box early-wakeup
        set_route K (proxy_set_mixercontrol hw aproxy .TICKLE_CONTROL ABOX_TICKLE_ON)
          routed_ausage routed_device).map fun a2 =>
      let a3 := { a2 with active_capture_ausage := routed_ausage,
                          active_capture_device := routed_device }
      -- Audio Path Modifier for Capture Path
      let a4 :=
        if routed_modifier ≥ K.MODIFIER_BT_SCO_TX_NB ∧ routed_modifier < K.MODIFIER_NONE then
          if a3.active_capture_modifier = K.MODIFIER_NONE then
            set_modifier K a3 routed_modifier
          else update_modifier K a3 a3.active_capture_modifier routed_modifier
        else if routed_modifier = K.MODIFIER_NONE ∧
            a3.active_capture_modifier ≠ K.MODIFIER_NONE then
          reset_modifier K a3 a3.active_capture_modifier
        else a3
      let a5 := { a4 with active_capture_modifier := routed_modifier }
      -- Set Loopback for Capture Path
      enable_internal_path K hw a5 routed_device
  else
    let a1 :=
      if routed_device < K.DEVICE_MAIN_MIC then do_operations_by_playback_route_reset aproxy
      else aproxy
    -- Reset Loopback
    let a2 := disable_internal_path K a1 routed_device
    -- Audio Path Modifier
    let a3 :=
      if routed_modifier ≠ K.MODIFIER_NONE then
        let b := reset_modifier K a2 routed_modifier
        if routed_modifier < K.MODIFIER_BT_SCO_TX_NB then
          { b with active_playback_modifier := K.MODIFIER_NONE }
        else { b with active_capture_modifier := K.MODIFIER_NONE }
      else
        { a2 with active_playback_modifier := K.MODIFIER_NONE,
                  active_capture_modifier := K.MODIFIER_NONE }
    -- Audio Path Routing
    (reset_route K a3 routed_ausage routed_device).map fun a4 =>
    if routed_device < K.DEVICE_MAIN_MIC then
      { a4 with active_playback_ausage := K.AUSAGE_NONE,
                active_playback_device := K.DEVICE_NONE }
    else
      { a4 with active_capture_ausage := K.AUSAGE_NONE,
                active_capture_device := K.DEVICE_NONE }

/-! ## A sample instantiation

The theorems below hold for every `Defs`; the concrete evaluations use this
one.  Its numbering keeps the order the code relies on (playback devices below
`DEVICE_MAIN_MIC`, playback modifiers below `MODIFIER_BT_SCO_TX_NB`, the `NONE`
values last) and its path names are those of the routing scenarios
(`media-speaker`, `media-bt_headset`). -/

/-- Usage base names of the sample tables; usage 0 is the media usage. -/
def sample_usage_path_table : Nat → CStr
  | 0 => "media".toList
  | 1 => "incall_nb".toList
  | 2 => "incall_wb".toList
  | 4 => "communication".toList
  | 7 => "fm_radio".toList
  | 8 => "loopback".toList
  | 11 => "incall_uplink".toList
  | 12 => "incall_downlink".toList
  | 13 => "recording".toList
  | _ => []

/-- Device suffixes of the sample tables. -/
def sample_device_table : Nat → CStr
  | 0 => "handset".toList
  | 1 => "speaker".toList
  | 2 => "headset".toList
  | 3 => "headphone".toList
  | 4 => "speaker-headset".toList
  | 5 => "speaker-headphone".toList
  | 6 => "bt_headset".toList
  | 7 => "speaker-bt_headset".toList
  | 13 => "aux_digital".toList
  | 14 => "mic".toList
  | 15 => "headset_mic".toList
  | _ => []

/-- Modifier path names of the sample tables. -/
def sample_modifier_table : Nat → CStr
  | 0 => "bt_sco_rx_nb".toList
  | 1 => "bt_sco_rx_wb".toList
  | 2 => "bt_sco_tx_nb".toList
  | 3 => "bt_sco_tx_wb".toList
  | _ => []

/-- A sample numbering of the enums with sample tables. -/
def sampleDefs : Defs where
  DEVICE_EARPIECE := 0
  DEVICE_SPEAKER := 1
  DEVICE_HEADSET := 2
  DEVICE_HEADPHONE := 3
  DEVICE_SPEAKER_AND_HEADSET := 4
  DEVICE_SPEAKER_AND_HEADPHONE := 5
  DEVICE_BT_HEADSET := 6
  DEVICE_SPEAKER_AND_BT_HEADSET := 7
  DEVICE_SPEAKER2 := 8
  DEVICE_SPEAKER_DUAL := 9
  DEVICE_SPEAKER_DEX := 10
  DEVICE_CALL_FWD := 11
  DEVICE_SPECTRO := 12
  DEVICE_AUX_DIGITAL := 13
  DEVICE_MAIN_MIC := 14
  DEVICE_NONE := 20
  AUSAGE_CPCALL_MIN := 1
  AUSAGE_CPCALL_MAX := 3
  AUSAGE_APCALL_MIN := 4
  AUSAGE_APCALL_MAX := 6
  AUSAGE_FM_RADIO := 7
  AUSAGE_LOOPBACK := 8
  AUSAGE_LOOPBACK_CODEC := 10
  AUSAGE_INCALL_UPLINK := 11
  AUSAGE_INCALL_DOWNLINK := 12
  AUSAGE_NONE := 14
  MODIFIER_BT_SCO_TX_NB := 2
  MODIFIER_NONE := 4
  ASTREAM_CAPTURE_CALL := 8
  usage_path_table := sample_usage_path_table
  device_table := sample_device_table
  modifier_table := sample_modifier_table
  MMAP_PERIOD_COUNT_MIN := 32
  MMAP_PERIOD_COUNT_MAX := 512
  ASTREAM_PLAYBACK_NO_ATTRIBUTE := 0
  ASTREAM_PLAYBACK_PRIMARY := 1
  ASTREAM_PLAYBACK_FAST := 2
  ASTREAM_PLAYBACK_LOW_LATENCY := 3
  ASTREAM_PLAYBACK_DEEP_BUFFER := 4
  ASTREAM_PLAYBACK_COMPR_OFFLOAD := 5
  ASTREAM_PLAYBACK_MMAP := 6
  ASTREAM_PLAYBACK_AUX_DIGITAL := 7
  ASTREAM_CAPTURE_NO_ATTRIBUTE := 9
  ASTREAM_CAPTURE_PRIMARY := 10
  ASTREAM_CAPTURE_LOW_LATENCY := 11
  ASTREAM_CAPTURE_MMAP := 12
  ASTREAM_CAPTURE_FM := 13
  supported_capture_samplingrate := [8000, 16000, 32000, 44100, 48000]
  supported_capture_channelmask := [16, 12]
  supported_capture_pcmformat := [1]
  PREDEFINED_MEDIA_CAPTURE_DURATION := 20
  PREDEFINED_LOW_CAPTURE_DURATION := 4
  MMAP_PERIOD_SIZE := 96

/-- Hardware on which every PCM node comes up and every control exists. -/
def sampleHw : Hw where
  pcm_is_ready := fun _ => true
  pcm_start_ok := fun _ => true
  mixer_has_ctl := fun _ => true

/-- The proxy state `proxy_init` and `proxy_init_route` leave: nothing routed,
every internal node closed, audio mode normal (0). -/
def initial_proxy (K : Defs) : audio_proxy where
  active_playback_ausage := K.AUSAGE_NONE
  active_playback_device := K.DEVICE_NONE
  active_playback_modifier := K.MODIFIER_NONE
  active_capture_ausage := K.AUSAGE_NONE
  active_capture_device := K.DEVICE_NONE
  active_capture_modifier := K.MODIFIER_NONE
  audio_mode := 0
  support_out_loopback := true
  support_spkamp := true
  support_btsco := true
  support_dualspk := false
  handle := fun _ => false
  trace := []

/-- A sample state with a narrowband BT-SCO call active on the playback side:
usage 1 on the BT headset with the playback modifier 0. -/
def sample_sco_proxy : audio_proxy :=
  { initial_proxy sampleDefs with
    active_playback_ausage := 1,
    active_playback_device := sampleDefs.DEVICE_BT_HEADSET,
    active_playback_modifier := 0 }

/-! ## Route graph view of the trace -/

/-- Whether the event is a call on the route graph (`aproxy->aroute`). -/
def Event.is_route_op : Event → Bool
  | .audio_route_apply_and_update_path _ => true
  | .audio_route_apply_path _ => true
  | .audio_route_reset_path _ => true
  | .audio_route_reset_and_update_path _ => true
  | .audio_route_update_mixer => true
  | _ => false

/-- The calls the route graph sees, in order. -/
def route_ops (t : List Event) : List Event :=
  t.filter Event.is_route_op

/-- Two states agree on everything but the PCM handles and the calls that are
not route graph calls. -/
structure SameRouting (s t : audio_proxy) : Prop where
  playback_ausage : t.active_playback_ausage = s.active_playback_ausage
  playback_device : t.active_playback_device = s.active_playback_device
  playback_modifier : t.active_playback_modifier = s.active_playback_modifier
  capture_ausage : t.active_capture_ausage = s.active_capture_ausage
  capture_device : t.active_capture_device = s.active_capture_device
  capture_modifier : t.active_capture_modifier = s.active_capture_modifier
  mode : t.audio_mode = s.audio_mode
  out_loopback : t.support_out_loopback = s.support_out_loopback
  spkamp : t.support_spkamp = s.support_spkamp
  btsco : t.support_btsco = s.support_btsco
  dualspk : t.support_dualspk = s.support_dualspk
  route : route_ops t.trace = route_ops s.trace

/-- Whether the event applies or resets the path `name` on the route graph. -/
def Event.touches (name : CStr) : Event → Bool
  | .audio_route_apply_and_update_path n => n == name
  | .audio_route_apply_path n => n == name
  | .audio_route_reset_path n => n == name
  | .audio_route_reset_and_update_path n => n == name
  | _ => false

/-- The path `name` is applied on the route graph after the calls `ops`: the
last call that names it is an apply. -/
def path_applied (name : CStr) (ops : List Event) : Bool :=
  match ops.reverse.find? (Event.touches name) with
  | some (.audio_route_apply_and_update_path _) => true
  | some (.audio_route_apply_path _) => true
  | _ => false

/-! ## Side channels an internal-path call acts on

The set a call enables is read off a proxy that supports every node, has them
all closed and whose hardware brings every node up; the set a call disables is
read off the same proxy with every node open. -/

/-- A proxy with every capability, the given audio mode and active playback
usage, and every internal node in the given handle state. -/
def probe_proxy (K : Defs) (mode : Int) (ausage : Nat) (opened : Bool) : audio_proxy where
  active_playback_ausage := ausage
  active_playback_device := K.DEVICE_NONE
  active_playback_modifier := K.MODIFIER_NONE
  active_capture_ausage := K.AUSAGE_NONE
  active_capture_device := K.DEVICE_NONE
  active_capture_modifier := K.MODIFIER_NONE
  audio_mode := mode
  support_out_loopback := true
  support_spkamp := true
  support_btsco := true
  support_dualspk := false
  handle := fun _ => opened
  trace := []

/-- The nodes `enable_internal_path` opens for a device. -/
def enabled_nodes (K : Defs) (mode : Int) (ausage device : Nat) (n : pcm_node) : Bool :=
  (enable_internal_path K sampleHw (probe_proxy K mode ausage false) device).handle n

/-- The nodes `disable_internal_path` closes for a device. -/
def disabled_nodes (K : Defs) (mode : Int) (ausage device : Nat) (n : pcm_node) : Bool :=
  !(disable_internal_path K (probe_proxy K mode ausage true) device).handle n

/-! ### The rule table of the specification -/

/-- Device class "speaker (any variant)". -/
def is_speaker_class (K : Defs) (d : Nat) : Prop :=
  d = K.DEVICE_SPEAKER ∨ d = K.DEVICE_SPEAKER2 ∨ d = K.DEVICE_SPEAKER_DUAL ∨
    d = K.DEVICE_SPEAKER_DEX ∨ d = K.DEVICE_SPEAKER_AND_HEADSET ∨
    d = K.DEVICE_SPEAKER_AND_HEADPHONE

/-- Device class "BT headset", alone or combined with the speaker. -/
def is_bt_class (K : Defs) (d : Nat) : Prop :=
  d = K.DEVICE_BT_HEADSET ∨ d = K.DEVICE_SPEAKER_AND_BT_HEADSET

/-- Device class "headset/headphone/earpiece/call-fwd/spectro". -/
def is_wired_class (K : Defs) (d : Nat) : Prop :=
  d = K.DEVICE_HEADSET ∨ d = K.DEVICE_HEADPHONE ∨ d = K.DEVICE_EARPIECE ∨
    d = K.DEVICE_CALL_FWD ∨ d = K.DEVICE_SPECTRO

instance (K : Defs) (d : Nat) : Decidable (is_speaker_class K d) := by
  unfold is_speaker_class; infer_instance

instance (K : Defs) (d : Nat) : Decidable (is_bt_class K d) := by
  unfold is_bt_class; infer_instance

instance (K : Defs) (d : Nat) : Decidable (is_wired_class K d) := by
  unfold is_wired_class; infer_instance

/-- The three device classes of the rule table do not overlap. -/
def classes_disjoint (K : Defs) : Prop :=
  (∀ d, is_speaker_class K d → ¬ is_bt_class K d) ∧
  (∀ d, is_speaker_class K d → ¬ is_wired_class K d) ∧
  (∀ d, is_bt_class K d → ¬ is_wired_class K d)

/-- Whether the active usage is a cellular (CP) or application (AP) call. -/
def is_call_usage (K : Defs) (ausage : Nat) : Prop :=
  (K.AUSAGE_CPCALL_MIN ≤ ausage ∧ ausage ≤ K.AUSAGE_CPCALL_MAX) ∨
    (K.AUSAGE_APCALL_MIN ≤ ausage ∧ ausage ≤ K.AUSAGE_APCALL_MAX)

/-- Whether the usage is one of the loopback usages. -/
def is_loopback_usage (K : Defs) (ausage : Nat) : Prop :=
  K.AUSAGE_LOOPBACK ≤ ausage ∧ ausage ≤ K.AUSAGE_LOOPBACK_CODEC

instance (K : Defs) (u : Nat) : Decidable (is_call_usage K u) := by
  unfold is_call_usage; infer_instance

instance (K : Defs) (u : Nat) : Decidable (is_loopback_usage K u) := by
  unfold is_loopback_usage; infer_instance

/-- Column "spkamp playback+reference" of the enable rules. -/
def rule_spkamp (K : Defs) (mode : Int) (d : Nat) : Prop :=
  is_speaker_class K d ∨ d = K.DEVICE_SPEAKER_AND_BT_HEADSET ∨
    (d = K.DEVICE_EARPIECE ∧ mode ≠ AUDIO_MODE_IN_CALL)

/-- Column "erap-in" of the enable rules. -/
def rule_erap_in (K : Defs) (ausage d : Nat) : Prop :=
  is_speaker_class K d ∨ is_bt_class K d ∨
    (is_wired_class K d ∧
      (is_call_usage K ausage ∨ (is_loopback_usage K ausage ∧ d = K.DEVICE_EARPIECE)))

/-- Column "btsco playback" of the enable rules. -/
def rule_btsco (K : Defs) (d : Nat) : Prop :=
  is_bt_class K d

instance (K : Defs) (mode : Int) (d : Nat) : Decidable (rule_spkamp K mode d) := by
  unfold rule_spkamp; infer_instance

instance (K : Defs) (u d : Nat) : Decidable (rule_erap_in K u d) := by
  unfold rule_erap_in; infer_instance

instance (K : Defs) (d : Nat) : Decidable (rule_btsco K d) := by
  unfold rule_btsco; infer_instance

/-- The enable function of one side channel; the other nodes have none here. -/
def enable_node (hw : Hw) : pcm_node → audio_proxy → audio_proxy
  | .spkamp_playback => enable_spkamp_playback hw
  | .spkamp_reference => enable_spkamp_reference hw
  | .btsco_playback => enable_btsco_playback hw
  | .erap_in => enable_erap_in hw
  | _ => id

/-- The side channels the rule table asks for, in the order spkamp playback,
spkamp reference, btsco playback, erap-in. -/
def rule_nodes (K : Defs) (mode : Int) (ausage d : Nat) : List pcm_node :=
  (if rule_spkamp K mode d then [.spkamp_playback, .spkamp_reference] else []) ++
  (if rule_btsco K d then [.btsco_playback] else []) ++
  (if rule_erap_in K ausage d then [.erap_in] else [])

/-! ## MMAP period count -/

/-- The value of a C `int32_t` converted to `unsigned int`. -/
def to_uint32 (x : Int) : Nat :=
  (x % 4294967296).toNat

/-- The value of an `unsigned int` converted to `int`. -/
def to_int32 (n : Nat) : Int :=
  if n % 4294967296 < 2147483648 then (n % 4294967296 : Nat) else (n % 4294967296 : Nat) - 4294967296

/-- The `while` loop of `adjust_mmap_period_count`. The fuel bounds the number
of iterations (`none` when it runs out); `periodCount * 2` is an `int`
product, `none` when it leaves the `int` range. -/
def adjust_mmap_period_count_loop (K : Defs) (periodCountRequested : Int) :
    Nat → Int → Option Int
  | 0, _ => none
  | fuel + 1, periodCount =>
    if periodCount < periodCountRequested then
      if periodCount * 2 > 2147483647 then none
      else if periodCount * 2 < (K.MMAP_PERIOD_COUNT_MAX : Int) then
        adjust_mmap_period_count_loop K periodCountRequested fuel (periodCount * 2)
      else some periodCount
    else some periodCount

/-- Source: `adjust_mmap_period_count`; the value is the `period_count` it
stores. `min_size_frames` is an `int32_t` and `period_size` an `unsigned int`,
so the quotient is computed on `unsigned int`; a zero `period_size` has no
value (`none`). -/
def adjust_mmap_period_count (K : Defs) (fuel : Nat) (period_size : Nat)
    (min_size_frames : Int) : Option Int :=
  if period_size % 4294967296 = 0 then none
  else
    let periodCountRequested : Int :=
      to_int32 (((to_uint32 min_size_frames + period_size % 4294967296 + 4294967295)
        % 4294967296) / (period_size % 4294967296))
    adjust_mmap_period_count_loop K periodCountRequested fuel (K.MMAP_PERIOD_COUNT_MIN : Int)

/-! ## Capture buffer provider -/

/-- The `enum pcm_format` of tinyalsa. -/
inductive pcm_format where
  | PCM_FORMAT_S16_LE
  | PCM_FORMAT_S32_LE
  | PCM_FORMAT_S8
  | PCM_FORMAT_S24_LE
  | PCM_FORMAT_S24_3LE
  deriving DecidableEq, Repr

/-- Function `pcm_format_to_bits` of tinyalsa. -/
def pcm_format_to_bits : pcm_format → Nat
  | .PCM_FORMAT_S16_LE => 16
  | .PCM_FORMAT_S32_LE => 32
  | .PCM_FORMAT_S8 => 8
  | .PCM_FORMAT_S24_LE => 32
  | .PCM_FORMAT_S24_3LE => 24

/-- The fields of `struct pcm_config` the proxy uses. -/
structure pcm_config where
  channels : Nat
  rate : Nat
  period_size : Nat
  period_count : Nat
  format : pcm_format
  deriving DecidableEq, Repr

/-- Configuration `pcm_config_call_record` of `audio_pcm.h`. -/
def pcm_config_call_record : pcm_config where
  channels := 2
  rate := 32000
  period_size := 2048
  period_count := 2
  format := .PCM_FORMAT_S16_LE

/-- Function `pcm_frames_to_bytes` of tinyalsa for a handle opened with `config`. -/
def pcm_frames_to_bytes (config : pcm_config) (frames : Nat) : Nat :=
  frames * config.channels * (pcm_format_to_bits config.format / 8)

/-- Function `clamp16` of the platform library `audio_utils/primitives.h`: saturation to
the `int16_t` range. -/
def clamp16 (sample : Int) : Int :=
  if sample > 32767 then 32767 else if sample < -32768 then -32768 else sample

/-- The error numbers `get_next_buffer` returns negated. -/
def ENOMEM : Int := 12

/-- Error number "no such device". -/
def ENODEV : Int := 19

/-- What `create_resampler` was asked for: the rates and the channel count of
the resampler a stream holds. -/
structure resampler_itfe where
  in_rate : Nat
  out_rate : Nat
  channels : Nat
  deriving DecidableEq, Repr

/-- Calls that leave the proxy on behalf of a stream, as the stream functions
issue them. `memset` is a zero fill of the given number of bytes (the value of
its `size_t` argument). -/
inductive stream_call where
  | pcm_open (mmap : Bool) (config : pcm_config)
  | pcm_close
  | pcm_start
  | pcm_stop
  | pcm_write (bytes : Int)
  | pcm_read (bytes : Nat)
  | pcm_mmap_begin
  | pcm_mmap_commit (frames : Nat)
  | compress_open
  | compress_close
  | compress_nonblock (nonblock : Int)
  | compress_start
  | compress_stop
  | compress_set_gapless_metadata
  | compress_write (bytes : Int)
  | create_resampler (in_rate out_rate channels : Nat)
  | release_resampler
  | resampler_reset
  | usleep (usec : Nat)
  | memset (bytes : Nat)
  | proxy_set_mixer_value_int (name : CStr) (value : Bool)
  deriving DecidableEq, Repr

/-- The fields of `struct audio_proxy_stream` the embedded functions use.
`pcm` and `compress` are true when the handle is not NULL;
`pcm_handle_config` is the configuration inside the tinyalsa handle `pcm`, the
copy of `pcmconfig` that `pcm_open` took when the handle was opened (it is what
`pcm_frames_to_bytes(apstream->pcm, ...)` computes with, and has a meaning only
while `pcm` is true); `actual_read_buf`
is the read buffer as `int16_t` cells (`none` is NULL); `resampler` is `none`
when the pointer is NULL; `codec_sample_rate` and `codec_ch_in` are the
fields of `comprconfig.codec` that are read. `frames` is the cumulative frame
counter, a `uint64_t`. `calls` is not a field of the C structure: it lists, in
order, the calls the stream functions made to the PCM, compress and resampler
libraries. The fields after `actual_read_status` are zero unless set, as in a
structure that comes from `calloc`. -/
structure audio_proxy_stream where
  stream_type : Nat
  stream_usage : Nat
  pcm : Bool
  pcmconfig : pcm_config
  read_buf_frames : Nat
  actual_read_buf_size : Nat
  actual_read_buf : Option (List Int)
  actual_read_status : Int
  compress : Bool := false
  pcm_handle_config : pcm_config :=
    { channels := 0, rate := 0, period_size := 0, period_count := 0,
      format := .PCM_FORMAT_S16_LE }
  sound_card : Nat := 0
  requested_sample_rate : Nat := 0
  requested_channel_mask : Nat := 0
  requested_format : Nat := 0
  need_update_pcm_config : Bool := false
  need_monoconversion : Bool := false
  need_resampling : Bool := false
  skip_ch_convert : Bool := false
  resampler : Option resampler_itfe := none
  proc_buf_size : Int := 0
  frames : Nat := 0
  cpcall_rec_skipcnt : Int := 0
  nonblock_flag : Int := 0
  ready_new_metadata : Int := 0
  codec_sample_rate : Nat := 0
  codec_ch_in : Nat := 0
  calls : List stream_call := []

/-- The `struct resampler_buffer` handed to the provider: `raw` is the offset
of the frames inside `actual_read_buf` in `int16_t` cells (`none` is NULL). -/
structure resampler_buffer where
  raw : Option Nat
  frame_count : Nat
  deriving DecidableEq, Repr

/-- What one hardware read answers: the status of `pcm_read` and the
`int16_t` cell it stores at each index of the buffer. -/
structure pcm_read_result where
  status : Int
  data : Nat → Int

/-- One iteration of the channel selection loop of `get_next_buffer`, on the
`int16_t` cells of `vc_buf`. -/
def call_record_select (K : Defs) (stream_usage : Nat) (vc_buf : List Int) (i : Nat) :
    List Int :=
  let data_mono :=
    if stream_usage = K.AUSAGE_INCALL_UPLINK then vc_buf.getD (2 * i + 1) 0
    else if stream_usage = K.AUSAGE_INCALL_DOWNLINK then vc_buf.getD (2 * i) 0
    else clamp16 (vc_buf.getD (2 * i) 0 + vc_buf.getD (2 * i + 1) 0)
  (vc_buf.set (2 * i) data_mono).set (2 * i + 1) data_mono

/-- The channel selection loop of `get_next_buffer`: frames `0` to
`period_size - 1` in order. -/
def call_record_loop (K : Defs) (stream_usage period_size : Nat) (vc_buf : List Int) :
    List Int :=
  (List.range period_size).foldl (call_record_select K stream_usage) vc_buf

/-- Source: `get_next_buffer`. `realloc_ok` tells whether a `realloc` of the
read buffer succeeds and `rd` is the answer of the hardware read, if one is
made. The value is the status returned, the stream and the buffer descriptor.
`size_in_bytes` is an `unsigned int` computed by `pcm_frames_to_bytes` from the
configuration of the handle; the descriptor is placed with the channel count
of `pcmconfig`. In the offset of the descriptor `period_size - read_buf_frames`
is the subtraction of natural numbers: it is the C value whenever
`read_buf_frames` does not exceed the period size, and the C expression wraps
otherwise. -/
def get_next_buffer (K : Defs) (realloc_ok : Bool) (rd : pcm_read_result)
    (apstream : audio_proxy_stream) (buffer : resampler_buffer) :
    Int × audio_proxy_stream × resampler_buffer :=
  let hand_out (a : audio_proxy_stream) : Int × audio_proxy_stream × resampler_buffer :=
    (a.actual_read_status, a,
      { raw := a.actual_read_buf.map
          (fun _ => (a.pcmconfig.period_size - a.read_buf_frames) * a.pcmconfig.channels),
        frame_count :=
          if buffer.frame_count > a.read_buf_frames then a.read_buf_frames
          else buffer.frame_count })
  if apstream.pcm then
    if apstream.read_buf_frames = 0 then
      let size_in_bytes :=
        pcm_frames_to_bytes apstream.pcm_handle_config apstream.pcmconfig.period_size
          % 4294967296
      let a1 :=
        if apstream.actual_read_buf_size < size_in_bytes then
          { apstream with
            actual_read_buf_size := size_in_bytes,
            actual_read_buf :=
              if realloc_ok then
                some (((apstream.actual_read_buf.getD []) ++
                  List.replicate (size_in_bytes / 2) 0).take (size_in_bytes / 2))
              else none }
        else apstream
      match a1.actual_read_buf with
      | some old =>
        let a2 := { a1 with actual_read_status := rd.status,
                            calls := a1.calls ++ [.pcm_read size_in_bytes] }
        if rd.status ≠ 0 then (rd.status, a2, { raw := none, frame_count := 0 })
        else
          let filled := (List.range (size_in_bytes / 2)).map rd.data ++ old.drop (size_in_bytes / 2)
          let vc_buf :=
            if a2.stream_type = K.ASTREAM_CAPTURE_CALL then
              call_record_loop K a2.stream_usage a2.pcmconfig.period_size filled
            else filled
          hand_out { a2 with actual_read_buf := some vc_buf,
                             read_buf_frames := a2.pcmconfig.period_size }
      | none =>
        (-ENOMEM, { a1 with actual_read_status := -ENOMEM }, { raw := none, frame_count := 0 })
    else hand_out apstream
  else
    (-ENODEV, { apstream with actual_read_status := -ENODEV }, { raw := none, frame_count := 0 })

/-! ## Route graph calls of the modifier step -/

/-- The route graph calls the playback modifier step of `proxy_set_route` makes
for the routed modifier `m` when the active playback modifier is `a`. -/
def playback_modifier_ops (K : Defs) (m a : Nat) : List Event :=
  if m < K.MODIFIER_BT_SCO_TX_NB then
    if a = K.MODIFIER_NONE then
      [.audio_route_apply_and_update_path (K.modifier_table m)]
    else
      [.audio_route_reset_path (K.modifier_table a),
        .audio_route_apply_path (K.modifier_table m), .audio_route_update_mixer]
  else if m = K.MODIFIER_NONE ∧ a ≠ K.MODIFIER_NONE then
    [.audio_route_reset_and_update_path (K.modifier_table a)]
  else []

/-- The route graph calls the capture modifier step of `proxy_set_route` makes
for the routed modifier `m` when the active capture modifier is `a`. -/
def capture_modifier_ops (K : Defs) (m a : Nat) : List Event :=
  if m ≥ K.MODIFIER_BT_SCO_TX_NB ∧ m < K.MODIFIER_NONE then
    if a = K.MODIFIER_NONE then
      [.audio_route_apply_and_update_path (K.modifier_table m)]
    else
      [.audio_route_reset_path (K.modifier_table a),
        .audio_route_apply_path (K.modifier_table m), .audio_route_update_mixer]
  else if m = K.MODIFIER_NONE ∧ a ≠ K.MODIFIER_NONE then
    [.audio_route_reset_and_update_path (K.modifier_table a)]
  else []

/-! ## The blocks of `proxy_set_route`, named for the proofs -/

/-- The block "Audio Path Modifier for Playback Path" of `proxy_set_route`. -/
def playback_modifier_step (K : Defs) (a3 : audio_proxy) (routed_modifier : Nat) :
    audio_proxy :=
  if routed_modifier < K.MODIFIER_BT_SCO_TX_NB then
    if a3.active_playback_modifier = K.MODIFIER_NONE then
      set_modifier K a3 routed_modifier
    else update_modifier K a3 a3.active_playback_modifier routed_modifier
  else if routed_modifier = K.MODIFIER_NONE ∧
      a3.active_playback_modifier ≠ K.MODIFIER_NONE then
    reset_modifier K a3 a3.active_playback_modifier
  else a3

/-- The block "Audio Path Modifier for Capture Path" of `proxy_set_route`. -/
def capture_modifier_step (K : Defs) (a3 : audio_proxy) (routed_modifier : Nat) :
    audio_proxy :=
  if routed_modifier ≥ K.MODIFIER_BT_SCO_TX_NB ∧ routed_modifier < K.MODIFIER_NONE then
    if a3.active_capture_modifier = K.MODIFIER_NONE then
      set_modifier K a3 routed_modifier
    else update_modifier K a3 a3.active_capture_modifier routed_modifier
  else if routed_modifier = K.MODIFIER_NONE ∧
      a3.active_capture_modifier ≠ K.MODIFIER_NONE then
    reset_modifier K a3 a3.active_capture_modifier
  else a3

/-- The path step of the playback branch of `proxy_set_route`: reroute when a
pair is active, plain `set_route` otherwise. -/
def playback_route_step (K : Defs) (a1 : audio_proxy) (routed_ausage routed_device : Nat) :
    Option audio_proxy :=
  if a1.active_playback_ausage ≠ K.AUSAGE_NONE ∧
      a1.active_playback_device ≠ K.DEVICE_NONE then
    set_reroute K (disable_internal_path K a1 a1.active_playback_device)
      a1.active_playback_ausage a1.active_playback_device routed_ausage routed_device
  else set_route K a1 routed_ausage routed_device

/-- The path step of the capture branch of `proxy_set_route`. -/
def capture_route_step (K : Defs) (hw : Hw) (aproxy : audio_proxy)
    (routed_ausage routed_device : Nat) : Option audio_proxy :=
  if aproxy.active_capture_ausage ≠ K.AUSAGE_NONE ∧
      aproxy.active_capture_device ≠ K.DEVICE_NONE then
    set_reroute K (disable_internal_path K aproxy aproxy.active_capture_device)
      aproxy.active_capture_ausage aproxy.active_capture_device routed_ausage routed_device
  else
    set_route K (proxy_set_mixercontrol hw aproxy .TICKLE_CONTROL ABOX_TICKLE_ON)
      routed_ausage routed_device

/-- What the playback branch of `proxy_set_route` does after the path step. -/
def playback_finish (K : Defs) (hw : Hw) (a2 : audio_proxy) (u d m : Nat) : audio_proxy :=
  let a5 := { playback_modifier_step K
      { a2 with active_playback_ausage := u, active_playback_device := d } m with
    active_playback_modifier := m }
  let a6 := enable_internal_path K hw a5 d
  if u = K.AUSAGE_FM_RADIO then proxy_start_fm_radio hw a6 else a6

/-- What the capture branch of `proxy_set_route` does after the path step. -/
def capture_finish (K : Defs) (hw : Hw) (a2 : audio_proxy) (u d m : Nat) : audio_proxy :=
  let a5 := { capture_modifier_step K
      { a2 with active_capture_ausage := u, active_capture_device := d } m with
    active_capture_modifier := m }
  enable_internal_path K hw a5 d

/-- The block "Audio Path Modifier" of the disable branch of `proxy_set_route`. -/
def disable_modifier_step (K : Defs) (a2 : audio_proxy) (routed_modifier : Nat) :
    audio_proxy :=
  if routed_modifier ≠ K.MODIFIER_NONE then
    let b := reset_modifier K a2 routed_modifier
    if routed_modifier < K.MODIFIER_BT_SCO_TX_NB then
      { b with active_playback_modifier := K.MODIFIER_NONE }
    else { b with active_capture_modifier := K.MODIFIER_NONE }
  else
    { a2 with active_playback_modifier := K.MODIFIER_NONE,
              active_capture_modifier := K.MODIFIER_NONE }

/-- The last block of the disable branch: the side of the device is cleared. -/
def disable_finish (K : Defs) (a4 : audio_proxy) (routed_device : Nat) : audio_proxy :=
  if routed_device < K.DEVICE_MAIN_MIC then
    { a4 with active_playback_ausage := K.AUSAGE_NONE,
              active_playback_device := K.DEVICE_NONE }
  else
    { a4 with active_capture_ausage := K.AUSAGE_NONE,
              active_capture_device := K.DEVICE_NONE }

/-- A sample call-recording stream with a period of two frames, opened and
with nothing buffered; its usage 13 is neither uplink nor downlink. -/
def sample_call_stream : audio_proxy_stream where
  stream_type := sampleDefs.ASTREAM_CAPTURE_CALL
  stream_usage := 13
  pcm := true
  pcmconfig := { pcm_config_call_record with period_size := 2 }
  pcm_handle_config := { pcm_config_call_record with period_size := 2 }
  read_buf_frames := 0
  actual_read_buf_size := 0
  actual_read_buf := none
  actual_read_status := 0

/-- A sample hardware read: it succeeds and stores the frames
`(30000, 30000)` and `(-5, 7)`. -/
def sample_read : pcm_read_result where
  status := 0
  data := fun i => [30000, 30000, -5, 7].getD i 0

/-! ## Stream proxies: constants and parameters -/

/-- Error number "function not implemented" of `errno.h`. -/
def ENOSYS : Int := 38

/-- Error number "no data available" of `errno.h`. -/
def ENODATA : Int := 61

/-- Error number "invalid argument" of `errno.h`. -/
def EINVAL : Int := 22

/-- Macro `SPK_AMPL_POWER_NAME` of `audio_mixer.h`. -/
def SPK_AMPL_POWER_NAME : CStr := "Spk AmpL Power".toList

/-- Macro `SOUND_CARD0` of `audio_pcm.h`. -/
def SOUND_CARD0 : Nat := 0

/-- Macro `SOUND_CARD1` of `audio_pcm.h`. -/
def SOUND_CARD1 : Nat := 1

/-- Macro `SOUND_CARD2` of `audio_pcm.h`. -/
def SOUND_CARD2 : Nat := 2

/-- Macro `PRIMARY_PLAYBACK_CARD` of `audio_pcm.h`. -/
def PRIMARY_PLAYBACK_CARD : Nat := SOUND_CARD0

/-- Macro `DEEP_PLAYBACK_CARD` of `audio_pcm.h`. -/
def DEEP_PLAYBACK_CARD : Nat := SOUND_CARD0

/-- Macro `FAST_PLAYBACK_CARD` of `audio_pcm.h`. -/
def FAST_PLAYBACK_CARD : Nat := SOUND_CARD0

/-- Macro `LOW_PLAYBACK_CARD` of `audio_pcm.h`. -/
def LOW_PLAYBACK_CARD : Nat := SOUND_CARD0

/-- Macro `OFFLOAD_PLAYBACK_CARD` of `audio_pcm.h`. -/
def OFFLOAD_PLAYBACK_CARD : Nat := SOUND_CARD0

/-- Macro `MMAP_PLAYBACK_CARD` of `audio_pcm.h`. -/
def MMAP_PLAYBACK_CARD : Nat := SOUND_CARD0

/-- Macro `AUX_PLAYBACK_CARD` of `audio_pcm.h`. -/
def AUX_PLAYBACK_CARD : Nat := SOUND_CARD0

/-- Macro `PRIMARY_CAPTURE_CARD` of `audio_pcm.h`. -/
def PRIMARY_CAPTURE_CARD : Nat := SOUND_CARD0

/-- Macro `LOW_CAPTURE_CARD` of `audio_pcm.h`. -/
def LOW_CAPTURE_CARD : Nat := SOUND_CARD0

/-- Macro `MMAP_CAPTURE_CARD` of `audio_pcm.h`. -/
def MMAP_CAPTURE_CARD : Nat := SOUND_CARD0

/-- Macro `CALL_RECORD_CARD` of `audio_pcm.h`. -/
def CALL_RECORD_CARD : Nat := SOUND_CARD2

/-- Macro `CALLMIC_CAPTURE_CARD` of `audio_pcm.h`. -/
def CALLMIC_CAPTURE_CARD : Nat := SOUND_CARD2

/-- Macro `FM_RECORD_CARD` of `audio_pcm.h`. -/
def FM_RECORD_CARD : Nat := SOUND_CARD2

/-- Macro `DEFAULT_MEDIA_SAMPLING_RATE` of `audio_pcm.h`. -/
def DEFAULT_MEDIA_SAMPLING_RATE : Nat := 48000

/-- Macro `PREDEFINED_DP_PLAYBACK_DURATION` of `audio_pcm.h`, in milliseconds. -/
def PREDEFINED_DP_PLAYBACK_DURATION : Nat := 20

/-- Macro `PREDEFINED_MMAP_CAPTURE_DURATION` of `audio_pcm.h`, in milliseconds. -/
def PREDEFINED_MMAP_CAPTURE_DURATION : Nat := 2

/-- Configuration `pcm_config_primary_playback` of `audio_pcm.h`. -/
def pcm_config_primary_playback : pcm_config where
  channels := 2
  rate := 48000
  period_size := 960
  period_count := 4
  format := .PCM_FORMAT_S16_LE

/-- Configuration `pcm_config_fast_playback` of `audio_pcm.h`. -/
def pcm_config_fast_playback : pcm_config where
  channels := 2
  rate := 48000
  period_size := 192
  period_count := 2
  format := .PCM_FORMAT_S16_LE

/-- Configuration `pcm_config_deep_playback` of `audio_pcm.h`. -/
def pcm_config_deep_playback : pcm_config where
  channels := 2
  rate := 48000
  period_size := 960
  period_count := 4
  format := .PCM_FORMAT_S16_LE

/-- Configuration `pcm_config_low_playback` of `audio_pcm.h`. -/
def pcm_config_low_playback : pcm_config where
  channels := 2
  rate := 48000
  period_size := 96
  period_count := 4
  format := .PCM_FORMAT_S16_LE

/-- Configuration `pcm_config_mmap_playback` of `audio_pcm.h`. -/
def pcm_config_mmap_playback : pcm_config where
  channels := 2
  rate := 48000
  period_size := 96
  period_count := 4
  format := .PCM_FORMAT_S16_LE

/-- Configuration `pcm_config_aux_playback` of `audio_pcm.h`. -/
def pcm_config_aux_playback : pcm_config where
  channels := 2
  rate := 48000
  period_size := 960
  period_count := 2
  format := .PCM_FORMAT_S16_LE

/-- Configuration `pcm_config_primary_capture` of `audio_pcm.h`. -/
def pcm_config_primary_capture : pcm_config where
  channels := 2
  rate := 48000
  period_size := 960
  period_count := 4
  format := .PCM_FORMAT_S16_LE

/-- Configuration `pcm_config_low_capture` of `audio_pcm.h`; its period geometry
is the one of the fast playback stream. -/
def pcm_config_low_capture : pcm_config where
  channels := 2
  rate := 48000
  period_size := 192
  period_count := 2
  format := .PCM_FORMAT_S16_LE

/-- Configuration `pcm_config_mmap_capture` of `audio_pcm.h`. -/
def pcm_config_mmap_capture : pcm_config where
  channels := 2
  rate := 48000
  period_size := 96
  period_count := 4
  format := .PCM_FORMAT_S16_LE

/-- Configuration `pcm_config_callmic_capture` of `audio_pcm.h`. -/
def pcm_config_callmic_capture : pcm_config where
  channels := 2
  rate := 32000
  period_size := 2048
  period_count := 2
  format := .PCM_FORMAT_S16_LE

/-- Configuration `pcm_config_fm_record` of `audio_pcm.h`. -/
def pcm_config_fm_record : pcm_config where
  channels := 2
  rate := 48000
  period_size := 960
  period_count := 4
  format := .PCM_FORMAT_S16_LE

/-- Inline functions of the platform headers (`system/audio.h` and the ALSA
glue of the audio HAL interface) the stream functions call; they are not part
of the sources and are taken as parameters. Audio formats and channel masks
are natural numbers. -/
structure Platform where
  audio_channel_count_from_in_mask : Nat → Nat
  audio_channel_count_from_out_mask : Nat → Nat
  audio_bytes_per_sample : Nat → Nat
  audio_format_from_pcm_format : pcm_format → Nat
  pcm_format_from_audio_format : Nat → pcm_format
  /-- Whether `format & AUDIO_FORMAT_MAIN_MASK` is `AUDIO_FORMAT_MP3`. -/
  is_main_format_mp3 : Nat → Bool
  /-- Whether `format & AUDIO_FORMAT_MAIN_MASK` is `AUDIO_FORMAT_AAC`. -/
  is_main_format_aac : Nat → Bool

/-- Constant `AUDIO_CHANNEL_NONE` of `system/audio.h`. -/
def AUDIO_CHANNEL_NONE : Nat := 0

/-- Constant `AUDIO_FORMAT_DEFAULT` of `system/audio.h`. -/
def AUDIO_FORMAT_DEFAULT : Nat := 0

/-- What the libraries and the hardware answer during one call of a stream
function: each field is the value the function of that name returns (for
`calloc_ok`, whether the allocation succeeds; `avail`, `mmap_size` and
`hw_frames` are the values stored through the pointer arguments). -/
structure stream_hw where
  calloc_ok : Bool
  create_resampler : Int
  pcm_is_ready : Bool
  is_compress_ready : Bool
  pcm_close : Int
  pcm_start : Int
  pcm_stop : Int
  pcm_write : Int
  compress_start : Int
  compress_stop : Int
  compress_write : Int
  pcm_mmap_begin : Int
  pcm_get_buffer_size : Nat
  get_mmap_data_fd : Int
  mmap_size : Nat
  pcm_mmap_commit : Int
  pcm_get_htimestamp : Int
  avail : Nat
  compress_get_tstamp : Int
  hw_frames : Nat

/-- The fields of `struct audio_config` (and of its `offload_info`) that
stream creation reads. -/
structure audio_config where
  sample_rate : Nat
  channel_mask : Nat
  format : Nat
  offload_format : Nat

/-- Append one outgoing call to the list of calls of a stream. -/
def audio_proxy_stream.emit (s : audio_proxy_stream) (c : stream_call) : audio_proxy_stream :=
  { s with calls := s.calls ++ [c] }

/-- The value of a C `int` converted to a 64-bit unsigned type. -/
def to_uint64 (x : Int) : Nat :=
  (x % 18446744073709551616).toNat

/-- The value of a 64-bit unsigned number converted to `int64_t`. -/
def to_int64 (n : Nat) : Int :=
  if n % 18446744073709551616 < 9223372036854775808 then (n % 18446744073709551616 : Nat)
  else (n % 18446744073709551616 : Nat) - 18446744073709551616

/-- Source: `is_audiomode_incall`. -/
def is_audiomode_incall (aproxy : audio_proxy) : Bool :=
  aproxy.audio_mode = AUDIO_MODE_IN_CALL

/-- Source: `is_supported_compressed_format`. -/
def is_supported_compressed_format (P : Platform) (format : Nat) : Bool :=
  P.is_main_format_mp3 format || P.is_main_format_aac format

/-- Source: `proxy_get_actual_channel_count` (for a stream that is not NULL). -/
def proxy_get_actual_channel_count (K : Defs) (P : Platform) (apstream : audio_proxy_stream) :
    Nat :=
  if apstream.stream_type = K.ASTREAM_PLAYBACK_COMPR_OFFLOAD then
    P.audio_channel_count_from_out_mask apstream.codec_ch_in % 4294967296
  else apstream.pcmconfig.channels % 4294967296

/-- Source: `proxy_get_actual_sampling_rate` (for a stream that is not NULL). -/
def proxy_get_actual_sampling_rate (K : Defs) (apstream : audio_proxy_stream) : Nat :=
  if apstream.stream_type = K.ASTREAM_PLAYBACK_COMPR_OFFLOAD then
    apstream.codec_sample_rate % 4294967296
  else apstream.pcmconfig.rate % 4294967296

/-- Source: `proxy_get_requested_frame_size`; the product is converted to `int`. -/
def proxy_get_requested_frame_size (P : Platform) (apstream : audio_proxy_stream) : Int :=
  to_int32 (P.audio_channel_count_from_in_mask apstream.requested_channel_mask *
    P.audio_bytes_per_sample apstream.requested_format)

/-! ## Conversion needs of a capture stream -/

/-- Source: `update_capture_pcmconfig`. Each loop stops at the first entry of
its table that equals the requested value, so it acts when the value is in the
table. -/
def update_capture_pcmconfig (K : Defs) (P : Platform) (apstream : audio_proxy_stream) :
    audio_proxy_stream :=
  -- Check Sampling Rate
  let a1 :=
    if apstream.requested_sample_rate ∈ K.supported_capture_samplingrate ∧
        apstream.requested_sample_rate ≠ apstream.pcmconfig.rate then
      let rate := apstream.requested_sample_rate
      let period_size :=
        if apstream.stream_type = K.ASTREAM_CAPTURE_PRIMARY then
          (rate * K.PREDEFINED_MEDIA_CAPTURE_DURATION) % 4294967296 / 1000
        else if apstream.stream_type = K.ASTREAM_CAPTURE_LOW_LATENCY then
          (rate * K.PREDEFINED_LOW_CAPTURE_DURATION) % 4294967296 / 1000
        else apstream.pcmconfig.period_size
      { apstream with
        pcmconfig := { apstream.pcmconfig with
          rate := rate, period_size := period_size &&& 0xFFFFFFFC } }
    else apstream
  -- Check Channel Mask
  let a2 :=
    if a1.requested_channel_mask ∈ K.supported_capture_channelmask ∧
        P.audio_channel_count_from_in_mask a1.requested_channel_mask ≠ a1.pcmconfig.channels then
      { a1 with
        pcmconfig := { a1.pcmconfig with
          channels := P.audio_channel_count_from_in_mask a1.requested_channel_mask } }
    else a1
  -- Check PCM Format
  if a2.requested_format ∈ K.supported_capture_pcmformat ∧
      P.pcm_format_from_audio_format a2.requested_format ≠ a2.pcmconfig.format then
    { a2 with
      pcmconfig := { a2.pcmconfig with
        format := P.pcm_format_from_audio_format a2.requested_format } }
  else a2

/-- Source: `check_conversion`. `create_resampler_ret` is the value the call
of `create_resampler` returns, if one is made. -/
def check_conversion (P : Platform) (create_resampler_ret : Int)
    (apstream : audio_proxy_stream) : audio_proxy_stream :=
  let request_cc := P.audio_channel_count_from_in_mask apstream.requested_channel_mask
  -- Check Mono Conversion is needed or not
  let a1 :=
    if request_cc = 1 ∧ apstream.pcmconfig.channels = 2 then
      { apstream with need_monoconversion := true }
    else apstream
  -- Check Re-Sampler is needed or not
  if a1.requested_sample_rate ≠ a1.pcmconfig.rate then
    let a2 :=
      if a1.resampler.isSome then { a1.emit .release_resampler with resampler := none }
      else a1
    let a3 := a2.emit (.create_resampler a2.pcmconfig.rate a2.requested_sample_rate
      a2.pcmconfig.channels)
    if create_resampler_ret ≠ 0 then a3
    else
      { a3 with
        resampler := some { in_rate := a3.pcmconfig.rate,
                            out_rate := a3.requested_sample_rate,
                            channels := a3.pcmconfig.channels },
        need_resampling := true,
        actual_read_buf := none,
        actual_read_buf_size := 0,
        read_buf_frames := 0 }.emit .resampler_reset
  else a1

/-! ## Creating and reconfiguring streams -/

/-- The structure `calloc` returns: every field zero. -/
def calloc_stream : audio_proxy_stream where
  stream_type := 0
  stream_usage := 0
  pcm := false
  pcmconfig := { channels := 0, rate := 0, period_size := 0, period_count := 0,
                 format := .PCM_FORMAT_S16_LE }
  read_buf_frames := 0
  actual_read_buf_size := 0
  actual_read_buf := none
  actual_read_status := 0

/-- Source: `proxy_create_playback_stream`; `none` is the NULL it returns when
the allocation fails, the type is unknown or the offload format is not
supported. The registration of the primary stream in the proxy and the
`sound_device` and `comprconfig` fields are left out. -/
def proxy_create_playback_stream (K : Defs) (P : Platform) (hw : stream_hw)
    (type : Nat) (requested_config : audio_config) : Option audio_proxy_stream :=
  if ¬ hw.calloc_ok then none
  else
    /- Stores the requested configurations. -/
    let apstream : audio_proxy_stream :=
      { calloc_stream with
        requested_sample_rate := requested_config.sample_rate,
        requested_channel_mask := requested_config.channel_mask,
        requested_format := requested_config.format,
        stream_type := type,
        need_update_pcm_config := false }
    let opened (a : audio_proxy_stream) : Option audio_proxy_stream :=
      some { a with pcm := false, compress := false }
    /- Sets basic configuration from Stream Type. -/
    if type = K.ASTREAM_PLAYBACK_NO_ATTRIBUTE then
      opened { apstream with sound_card := PRIMARY_PLAYBACK_CARD,
                             pcmconfig := pcm_config_primary_playback }
    else if type = K.ASTREAM_PLAYBACK_PRIMARY then
      opened { apstream with sound_card := PRIMARY_PLAYBACK_CARD,
                             pcmconfig := pcm_config_primary_playback }
    else if type = K.ASTREAM_PLAYBACK_DEEP_BUFFER then
      opened { apstream with sound_card := DEEP_PLAYBACK_CARD,
                             pcmconfig := pcm_config_deep_playback }
    else if type = K.ASTREAM_PLAYBACK_FAST then
      opened { apstream with sound_card := FAST_PLAYBACK_CARD,
                             pcmconfig := pcm_config_fast_playback }
    else if type = K.ASTREAM_PLAYBACK_LOW_LATENCY then
      opened { apstream with sound_card := LOW_PLAYBACK_CARD,
                             pcmconfig := pcm_config_low_playback }
    else if type = K.ASTREAM_PLAYBACK_COMPR_OFFLOAD then
      if is_supported_compressed_format P requested_config.offload_format then
        opened { apstream with sound_card := OFFLOAD_PLAYBACK_CARD,
                               codec_ch_in := requested_config.channel_mask,
                               codec_sample_rate := requested_config.sample_rate,
                               ready_new_metadata := 1 }
      else none
    else if type = K.ASTREAM_PLAYBACK_MMAP then
      opened { apstream with sound_card := MMAP_PLAYBACK_CARD,
                             pcmconfig := pcm_config_mmap_playback }
    else if type = K.ASTREAM_PLAYBACK_AUX_DIGITAL then
      let a0 := { apstream with sound_card := AUX_PLAYBACK_CARD,
                                pcmconfig := pcm_config_aux_playback }
      let a1 :=
        if a0.requested_sample_rate ≠ 0 then
          let period_size :=
            if a0.requested_sample_rate > DEFAULT_MEDIA_SAMPLING_RATE then
              (a0.requested_sample_rate * PREDEFINED_DP_PLAYBACK_DURATION) % 4294967296 / 1000
            else a0.pcmconfig.period_size
          { a0 with pcmconfig := { a0.pcmconfig with rate := a0.requested_sample_rate,
                                                     period_size := period_size } }
        else a0
      let a2 :=
        if a1.requested_channel_mask ≠ AUDIO_CHANNEL_NONE then
          { a1 with pcmconfig := { a1.pcmconfig with
              channels := P.audio_channel_count_from_out_mask a1.requested_channel_mask } }
        else a1
      let a3 :=
        if a2.requested_format ≠ AUDIO_FORMAT_DEFAULT then
          { a2 with pcmconfig := { a2.pcmconfig with
              format := P.pcm_format_from_audio_format a2.requested_format } }
        else a2
      opened a3
    else none

/-- Source: `proxy_create_capture_stream`, built without
`SUPPORT_STHAL_INTERFACE`; `none` is the NULL it returns when the allocation
fails or the type is unknown. The `sound_device` and `proc_buf_out` fields are
left out. -/
def proxy_create_capture_stream (K : Defs) (P : Platform) (hw : stream_hw)
    (aproxy : audio_proxy) (type usage : Nat) (requested_config : audio_config) :
    Option audio_proxy_stream :=
  if ¬ hw.calloc_ok then none
  else
    /- Stores the requested configurations -/
    let apstream : audio_proxy_stream :=
      { calloc_stream with
        requested_sample_rate := requested_config.sample_rate,
        requested_channel_mask := requested_config.channel_mask,
        requested_format := requested_config.format,
        stream_type := type,
        stream_usage := usage,
        -- Initialize Post-Processing
        need_monoconversion := false,
        need_resampling := false,
        actual_read_buf := none,
        actual_read_buf_size := 0,
        proc_buf_size := 0,
        resampler := none,
        need_update_pcm_config := false,
        skip_ch_convert := false }
    let opened (a : audio_proxy_stream) : Option audio_proxy_stream :=
      some { a with pcm := false, compress := false }
    /- Sets basic configuration from Stream Type. -/
    if type = K.ASTREAM_CAPTURE_NO_ATTRIBUTE then
      opened { apstream with sound_card := PRIMARY_CAPTURE_CARD,
                             pcmconfig := pcm_config_primary_capture }
    else if type = K.ASTREAM_CAPTURE_PRIMARY then
      let a1 :=
        if is_audiomode_incall aproxy then
          { apstream with sound_card := CALLMIC_CAPTURE_CARD,
                          pcmconfig := pcm_config_callmic_capture }
        else
          update_capture_pcmconfig K P
            { apstream with sound_card := PRIMARY_CAPTURE_CARD,
                            pcmconfig := pcm_config_primary_capture }
      opened (check_conversion P hw.create_resampler a1)
    else if type = K.ASTREAM_CAPTURE_CALL then
      opened (check_conversion P hw.create_resampler
        { apstream with sound_card := CALL_RECORD_CARD,
                        pcmconfig := pcm_config_call_record })
    else if type = K.ASTREAM_CAPTURE_LOW_LATENCY then
      opened (check_conversion P hw.create_resampler
        (update_capture_pcmconfig K P
          { apstream with sound_card := LOW_CAPTURE_CARD,
                          pcmconfig := pcm_config_low_capture }))
    else if type = K.ASTREAM_CAPTURE_MMAP then
      let a0 := { apstream with sound_card := MMAP_CAPTURE_CARD,
                                pcmconfig := pcm_config_mmap_capture }
      /- update HW PCM configuration with requested config -/
      let a1 :=
        if a0.requested_sample_rate ≠ a0.pcmconfig.rate then
          let rate := a0.requested_sample_rate
          -- Adjust period_size according to sample rate
          let period_size := (rate * PREDEFINED_MMAP_CAPTURE_DURATION) % 4294967296 / 1000
          { a0 with pcmconfig := { a0.pcmconfig with
              rate := rate, period_size := period_size &&& 0xFFFFFFFC } }
        else a0
      opened a1
    else if type = K.ASTREAM_CAPTURE_FM then
      opened (check_conversion P hw.create_resampler
        { apstream with sound_card := FM_RECORD_CARD,
                        pcmconfig := pcm_config_fm_record })
    else none

/-- Source: `proxy_reconfig_capture_stream` (for a stream that is not NULL). -/
def proxy_reconfig_capture_stream (apstream : audio_proxy_stream) (type : Nat)
    (new_config : audio_config) : Int × audio_proxy_stream :=
  (0, { apstream with
        stream_type := type,
        requested_sample_rate := new_config.sample_rate,
        requested_channel_mask := new_config.channel_mask,
        requested_format := new_config.format })

/-- The step "release already running resampler" of
`proxy_reconfig_capture_usage`. -/
def release_running_resampler (apstream : audio_proxy_stream) : audio_proxy_stream :=
  if apstream.resampler.isSome then
    { apstream.emit .release_resampler with resampler := none }
  else apstream

/-- Source: `proxy_reconfig_capture_usage` (for a stream that is not NULL). -/
def proxy_reconfig_capture_usage (K : Defs) (P : Platform) (hw : stream_hw)
    (aproxy : audio_proxy) (apstream : audio_proxy_stream) (type usage : Nat) :
    Int × audio_proxy_stream :=
  let a0 := if usage ≠ K.AUSAGE_NONE then { apstream with stream_usage := usage } else apstream
  if type = K.ASTREAM_CAPTURE_PRIMARY then
    let a1 :=
      if is_audiomode_incall aproxy then
        { a0 with stream_type := type,
                  sound_card := CALLMIC_CAPTURE_CARD,
                  pcmconfig := pcm_config_callmic_capture }
      else
        update_capture_pcmconfig K P
          { a0 with stream_type := type,
                    sound_card := PRIMARY_CAPTURE_CARD,
                    pcmconfig := pcm_config_primary_capture }
    (0, check_conversion P hw.create_resampler (release_running_resampler a1))
  else if type = K.ASTREAM_CAPTURE_CALL then
    let a1 := { a0 with stream_type := type,
                        sound_card := CALL_RECORD_CARD,
                        pcmconfig := pcm_config_call_record }
    (0, check_conversion P hw.create_resampler (release_running_resampler a1))
  else (-1, a0)

/-- Source: `proxy_set_stream_channel`. -/
def proxy_set_stream_channel (apstream : audio_proxy_stream) (new_channel : Int)
    (skip : Bool) : audio_proxy_stream :=
  let a1 :=
    if new_channel > 0 then
      { apstream with pcmconfig := { apstream.pcmconfig with channels := new_channel.toNat } }
    else apstream
  { a1 with skip_ch_convert := skip, need_monoconversion := !skip }

/-! ## Sample platform and hardware answers -/

/-- A sample of the platform functions: input masks 16 (mono) and 12 (stereo),
output masks 1 and 3, audio formats 1 (16 bit), 2 (8 bit), 3 (32 bit),
4 (24 bit in 32) and 6 (packed 24 bit). -/
def samplePlatform : Platform where
  audio_channel_count_from_in_mask := fun m => if m = 16 then 1 else if m = 12 then 2 else 0
  audio_channel_count_from_out_mask := fun m => if m = 1 then 1 else if m = 3 then 2 else 0
  audio_bytes_per_sample := fun f =>
    if f = 1 then 2 else if f = 2 then 1 else if f = 3 then 4 else if f = 4 then 4
    else if f = 6 then 3 else 0
  audio_format_from_pcm_format := fun f =>
    match f with
    | .PCM_FORMAT_S16_LE => 1
    | .PCM_FORMAT_S32_LE => 3
    | .PCM_FORMAT_S8 => 2
    | .PCM_FORMAT_S24_LE => 4
    | .PCM_FORMAT_S24_3LE => 6
  pcm_format_from_audio_format := fun f =>
    if f = 3 then .PCM_FORMAT_S32_LE else if f = 2 then .PCM_FORMAT_S8
    else if f = 4 then .PCM_FORMAT_S24_LE else if f = 6 then .PCM_FORMAT_S24_3LE
    else .PCM_FORMAT_S16_LE
  is_main_format_mp3 := fun f => f / 16777216 % 256 = 1
  is_main_format_aac := fun f => f / 16777216 % 256 = 4

/-- Hardware and libraries that answer every call with success. -/
def sample_stream_hw : stream_hw where
  calloc_ok := true
  create_resampler := 0
  pcm_is_ready := true
  is_compress_ready := true
  pcm_close := 0
  pcm_start := 0
  pcm_stop := 0
  pcm_write := 0
  compress_start := 0
  compress_stop := 0
  compress_write := 0
  pcm_mmap_begin := 0
  pcm_get_buffer_size := 384
  get_mmap_data_fd := 0
  mmap_size := 4096
  pcm_mmap_commit := 0
  pcm_get_htimestamp := 0
  avail := 0
  compress_get_tstamp := 0
  hw_frames := 0

/-- A requested configuration: 48 kHz, stereo input mask, 16 bit. -/
def sample_config : audio_config where
  sample_rate := 48000
  channel_mask := 12
  format := 1
  offload_format := 0

/-! ## Stream life cycle -/

/-- Source: `proxy_close_playback_stream`: the status returned and the stream. -/
def proxy_close_playback_stream (K : Defs) (hw : stream_hw) (apstream : audio_proxy_stream) :
    Int × audio_proxy_stream :=
  if apstream.stream_type = K.ASTREAM_PLAYBACK_COMPR_OFFLOAD then
    if apstream.compress then
      (0, { apstream.emit .compress_close with compress := false })
    else (0, apstream)
  else
    if apstream.pcm then
      (hw.pcm_close, { apstream.emit .pcm_close with pcm := false })
    else (0, apstream)

/-- Source: `proxy_close_capture_stream`, built without `SUPPORT_STHAL_INTERFACE`. -/
def proxy_close_capture_stream (hw : stream_hw) (apstream : audio_proxy_stream) :
    Int × audio_proxy_stream :=
  if apstream.pcm then
    (hw.pcm_close, { apstream.emit .pcm_close with pcm := false, cpcall_rec_skipcnt := 0 })
  else (0, apstream)

/-- The value of `info->buffer_size_frames`, an `int32_t`, when the open
functions zero the shared memory: the buffer size of the PCM device in the
shared poll-fd mode (`get_mmap_data_fd` failed), that value times -1 in the
exclusive mode. -/
def mmap_buffer_size_frames (hw : stream_hw) : Int :=
  let buffer_size_frames := to_int32 hw.pcm_get_buffer_size
  if hw.get_mmap_data_fd < 0 then buffer_size_frames
  else to_int32 (to_uint32 (buffer_size_frames * -1))

/-- The MMAP negotiation both open functions run on a freshly opened PCM
handle: `pcm_mmap_begin`, the data descriptor query with its size check, the
zero fill of the shared memory and the initial commit. The second component is
false at each `goto err_open`. Of the fields of `info` only
`buffer_size_frames` is followed, as `mmap_buffer_size_frames`;
`pcm_frames_to_bytes` takes and returns an `unsigned int`. The handle has just
been opened with `pcmconfig`, so what `pcm_frames_to_bytes` computes on the
handle is computed here from `pcmconfig`. -/
def mmap_negotiation (K : Defs) (hw : stream_hw) (apstream : audio_proxy_stream) :
    audio_proxy_stream × Bool :=
  let a1 := apstream.emit .pcm_mmap_begin
  if hw.pcm_mmap_begin = 0 then
    let buf_size := pcm_frames_to_bytes a1.pcmconfig hw.pcm_get_buffer_size % 4294967296
    if ¬ hw.get_mmap_data_fd < 0 ∧ hw.mmap_size % 4294967296 < buf_size then (a1, false)
    else
      let a2 := a1.emit (.memset
        (pcm_frames_to_bytes a1.pcmconfig (to_uint32 (mmap_buffer_size_frames hw))
          % 4294967296))
      let a3 := a2.emit (.pcm_mmap_commit K.MMAP_PERIOD_SIZE)
      if hw.pcm_mmap_commit < 0 then (a3, false) else (a3, true)
  else (a1, false)

/-- The label `err_open` of `proxy_open_playback_stream`: close the stream
and return `-ENODEV`. -/
def playback_err_open (K : Defs) (hw : stream_hw) (a : audio_proxy_stream) :
    Int × audio_proxy_stream :=
  (-ENODEV, (proxy_close_playback_stream K hw a).2)

/-- The end of `proxy_open_playback_stream` on the paths that do not fail: the
amplifier control of the dual speaker, the configuration flag, `return ret`
with `ret` equal to 0. -/
def playback_open_done (K : Defs) (aproxy : audio_proxy) (a : audio_proxy_stream) :
    Int × audio_proxy_stream :=
  let a1 :=
    if aproxy.support_dualspk then
      if aproxy.active_playback_device = K.DEVICE_EARPIECE then
        a.emit (.proxy_set_mixer_value_int SPK_AMPL_POWER_NAME true)
      else a.emit (.proxy_set_mixer_value_int SPK_AMPL_POWER_NAME aproxy.spk_ampL_powerOn)
    else a
  (0, { a1 with need_update_pcm_config := false })

/-- Source: `proxy_open_playback_stream`: the status returned and the stream.
`fuel` bounds the loop of `adjust_mmap_period_count`; `none` is a call that
does not return (no fuel left, or a period size of zero in that function).
`pcm_open` always returns a handle, as the comment in the source says. -/
def proxy_open_playback_stream (K : Defs) (hw : stream_hw) (fuel : Nat) (aproxy : audio_proxy)
    (apstream : audio_proxy_stream) (min_size_frames : Int) :
    Option (Int × audio_proxy_stream) :=
  if apstream.stream_type = K.ASTREAM_PLAYBACK_COMPR_OFFLOAD then
    if ¬ apstream.compress then
      let a1 := { apstream.emit .compress_open with compress := true }
      if ¬ hw.is_compress_ready then some (playback_err_open K hw a1)
      else some (playback_open_done K aproxy { a1 with pcm := false })
    else some (playback_open_done K aproxy apstream)
  else
    if ¬ apstream.pcm then
      let adjusted : Option audio_proxy_stream :=
        if apstream.stream_type = K.ASTREAM_PLAYBACK_MMAP then
          (adjust_mmap_period_count K fuel apstream.pcmconfig.period_size min_size_frames).map
            fun c => { apstream with
              pcmconfig := { apstream.pcmconfig with period_count := to_uint32 c } }
        else some apstream
      adjusted.map fun a0 =>
        let a1 :=
          { a0.emit (.pcm_open (decide (a0.stream_type = K.ASTREAM_PLAYBACK_MMAP)) a0.pcmconfig)
            with pcm := true, pcm_handle_config := a0.pcmconfig }
        if ¬ hw.pcm_is_ready then playback_err_open K hw a1
        else
          let a2 := { a1 with compress := false }
          if a2.stream_type = K.ASTREAM_PLAYBACK_MMAP then
            let r := mmap_negotiation K hw a2
            if r.2 then playback_open_done K aproxy r.1 else playback_err_open K hw r.1
          else playback_open_done K aproxy a2
    else some (playback_open_done K aproxy apstream)

/-- The label `err_open` of `proxy_open_capture_stream`: close the stream and
return `-ENODEV`. -/
def capture_err_open (hw : stream_hw) (a : audio_proxy_stream) : Int × audio_proxy_stream :=
  (-ENODEV, (proxy_close_capture_stream hw a).2)

/-- The end of `proxy_open_capture_stream` on the paths that do not fail. -/
def capture_open_done (a : audio_proxy_stream) : Int × audio_proxy_stream :=
  (0, { a with need_update_pcm_config := false })

/-- The first step of `proxy_open_capture_stream`: during an AP call a stream
whose hardware rate is not 48000 is moved to the primary capture node and its
conversion needs are evaluated again. -/
def capture_open_apcall (K : Defs) (P : Platform) (hw : stream_hw) (aproxy : audio_proxy)
    (apstream : audio_proxy_stream) : audio_proxy_stream :=
  if is_active_usage_APCall K aproxy ∧ apstream.pcmconfig.rate ≠ 48000 then
    check_conversion P hw.create_resampler
      { apstream with sound_card := PRIMARY_CAPTURE_CARD,
                      pcmconfig := pcm_config_primary_capture }
  else apstream

/-- Source: `proxy_open_capture_stream`, built without
`SUPPORT_STHAL_INTERFACE`: the status returned and the stream. `fuel` and
`none` are as in `proxy_open_playback_stream`. -/
def proxy_open_capture_stream (K : Defs) (P : Platform) (hw : stream_hw) (fuel : Nat)
    (aproxy : audio_proxy) (apstream : audio_proxy_stream) (min_size_frames : Int) :
    Option (Int × audio_proxy_stream) :=
  let b0 := capture_open_apcall K P hw aproxy apstream
  if ¬ b0.pcm then
    let adjusted : Option audio_proxy_stream :=
      if b0.stream_type = K.ASTREAM_CAPTURE_MMAP then
        (adjust_mmap_period_count K fuel b0.pcmconfig.period_size min_size_frames).map
          fun c => { b0 with pcmconfig := { b0.pcmconfig with period_count := to_uint32 c } }
      else some b0
    adjusted.map fun a0 =>
      let a1 :=
        { a0.emit (.pcm_open (decide (a0.stream_type = K.ASTREAM_CAPTURE_MMAP)) a0.pcmconfig)
          with pcm := true, pcm_handle_config := a0.pcmconfig }
      if ¬ hw.pcm_is_ready then capture_err_open hw a1
      else
        let a2 := { a1 with compress := false }
        if a2.stream_type = K.ASTREAM_CAPTURE_MMAP then
          let r := mmap_negotiation K hw a2
          if r.2 then capture_open_done r.1 else capture_err_open hw r.1
        else capture_open_done a2
  else some (capture_open_done b0)

/-- Source: `proxy_start_playback_stream`: the status returned and the stream. -/
def proxy_start_playback_stream (K : Defs) (hw : stream_hw) (apstream : audio_proxy_stream) :
    Int × audio_proxy_stream :=
  if apstream.stream_type = K.ASTREAM_PLAYBACK_COMPR_OFFLOAD then
    if apstream.compress then
      let a1 :=
        if apstream.nonblock_flag ≠ 0 then
          apstream.emit (.compress_nonblock apstream.nonblock_flag)
        else apstream.emit (.compress_nonblock 0)
      (hw.compress_start, a1.emit .compress_start)
    else (-ENOSYS, apstream)
  else if apstream.stream_type = K.ASTREAM_PLAYBACK_MMAP then
    if apstream.pcm then (hw.pcm_start, apstream.emit .pcm_start)
    else (-ENOSYS, apstream)
  else (0, apstream)

/-- Source: `proxy_start_capture_stream`, built without `SUPPORT_STHAL_INTERFACE`. -/
def proxy_start_capture_stream (hw : stream_hw) (apstream : audio_proxy_stream) :
    Int × audio_proxy_stream :=
  if apstream.pcm then (hw.pcm_start, apstream.emit .pcm_start)
  else (0, apstream)

/-- Source: `proxy_stop_playback_stream`: the status returned and the stream. -/
def proxy_stop_playback_stream (K : Defs) (hw : stream_hw) (apstream : audio_proxy_stream) :
    Int × audio_proxy_stream :=
  if apstream.stream_type = K.ASTREAM_PLAYBACK_COMPR_OFFLOAD then
    if apstream.compress then
      (hw.compress_stop, { apstream.emit .compress_stop with ready_new_metadata := 1 })
    else (0, apstream)
  else if apstream.stream_type = K.ASTREAM_PLAYBACK_MMAP then
    if apstream.pcm then (hw.pcm_stop, apstream.emit .pcm_stop)
    else (0, apstream)
  else (0, apstream)

/-- Source: `proxy_stop_capture_stream`, built without `SUPPORT_STHAL_INTERFACE`. -/
def proxy_stop_capture_stream (hw : stream_hw) (apstream : audio_proxy_stream) :
    Int × audio_proxy_stream :=
  if apstream.pcm then (hw.pcm_stop, apstream.emit .pcm_stop)
  else (0, apstream)

/-! ## Writing and the presentation position -/

/-- Source: `save_written_frames`. The quotient is taken on a 64-bit unsigned
type (`audio_bytes_per_sample` returns a `size_t`); `none` is a division by
zero. -/
def save_written_frames (P : Platform) (apstream : audio_proxy_stream) (bytes : Int) :
    Option audio_proxy_stream :=
  let d := (apstream.pcmconfig.channels % 4294967296 *
    P.audio_bytes_per_sample (P.audio_format_from_pcm_format apstream.pcmconfig.format))
    % 18446744073709551616
  if d = 0 then none
  else some { apstream with
    frames := (apstream.frames + to_uint64 bytes / d) % 18446744073709551616 }

/-- Source: `skip_pcm_processing`: the stream after the `usleep`. The frame
count is an `unsigned int`; `none` is a division by zero. -/
def skip_pcm_processing (K : Defs) (P : Platform) (apstream : audio_proxy_stream)
    (bytes : Int) : Option audio_proxy_stream :=
  let d := (apstream.pcmconfig.channels % 4294967296 *
    P.audio_bytes_per_sample (P.audio_format_from_pcm_format apstream.pcmconfig.format))
    % 18446744073709551616
  if d = 0 then none
  else
    let frames := to_uint64 bytes / d % 4294967296
    if proxy_get_actual_sampling_rate K apstream = 0 then none
    else
      some (apstream.emit
        (.usleep (frames * 1000000 % 4294967296 / proxy_get_actual_sampling_rate K apstream)))

/-- Source: `proxy_write_playback_buffer`: the value returned and the stream;
`aproxy` is the proxy instance. `none` is a division by zero in one of the two
helpers. -/
def proxy_write_playback_buffer (K : Defs) (P : Platform) (hw : stream_hw)
    (aproxy : audio_proxy) (apstream : audio_proxy_stream) (bytes : Int) :
    Option (Int × audio_proxy_stream) :=
  let wrote : Int := 0
  /- Skip other sounds except AUX Digital Stream when AUX_DIGITAL is connected -/
  if apstream.stream_type ≠ K.ASTREAM_PLAYBACK_AUX_DIGITAL ∧
      aproxy.active_playback_device = K.DEVICE_AUX_DIGITAL then
    (skip_pcm_processing K P apstream wrote).bind fun a1 =>
      (save_written_frames P a1 bytes).map fun a2 => (bytes, a2)
  else if apstream.stream_type = K.ASTREAM_PLAYBACK_COMPR_OFFLOAD then
    if apstream.compress then
      let a1 :=
        if apstream.ready_new_metadata ≠ 0 then
          { apstream.emit .compress_set_gapless_metadata with ready_new_metadata := 0 }
        else apstream
      some (hw.compress_write, a1.emit (.compress_write bytes))
    else some (wrote, apstream)
  else
    if apstream.pcm then
      let a1 := apstream.emit (.pcm_write bytes)
      (if hw.pcm_write = 0 then some a1 else skip_pcm_processing K P a1 wrote).bind fun a2 =>
        (save_written_frames P a2 bytes).map fun a3 => (bytes, a3)
    else some (wrote, apstream)

/-- Source: `proxy_get_presen_position`: the status returned and the value
stored in `*frames` (`none` when nothing is stored). `frames_ptr` and
`timestamp_ptr` tell whether the two pointers are not NULL. The subtraction is
made on `uint64_t` and the result converted to `int64_t`. -/
def proxy_get_presen_position (K : Defs) (hw : stream_hw) (apstream : audio_proxy_stream)
    (frames_ptr timestamp_ptr : Bool) : Int × Option Nat :=
  if frames_ptr ∧ timestamp_ptr then
    if apstream.stream_type = K.ASTREAM_PLAYBACK_COMPR_OFFLOAD then
      if apstream.compress then
        if hw.compress_get_tstamp = 0 then (0, some (hw.hw_frames % 18446744073709551616))
        else (hw.compress_get_tstamp, some 0)
      else (-ENODATA, some 0)
    else
      if apstream.pcm then
        if hw.pcm_get_htimestamp = 0 then
          -- Total Frame Count in kernel Buffer
          let kernel_buffer_size :=
            (apstream.pcmconfig.period_size % 4294967296) *
              (apstream.pcmconfig.period_count % 4294967296) % 18446744073709551616
          -- Real frames which played out to device
          let signed_frames : Int :=
            to_int64 ((apstream.frames % 18446744073709551616 +
              (18446744073709551616 - kernel_buffer_size) + hw.avail % 4294967296)
              % 18446744073709551616)
          if signed_frames ≥ 0 then (0, some signed_frames.toNat)
          else (-ENODATA, some 0)
        else (-ENODATA, some 0)
      else (-ENODATA, some 0)
  else (-EINVAL, none)

/-- A sample MMAP playback stream as `proxy_create_playback_stream` leaves it,
with both handles NULL. -/
def sample_mmap_playback_stream : audio_proxy_stream :=
  { calloc_stream with
    stream_type := sampleDefs.ASTREAM_PLAYBACK_MMAP,
    requested_sample_rate := 48000,
    requested_channel_mask := 3,
    requested_format := 1,
    sound_card := MMAP_PLAYBACK_CARD,
    pcmconfig := pcm_config_mmap_playback }

/-- A sample primary playback stream with an open PCM handle that has written
1000 frames. -/
def sample_primary_playback_stream : audio_proxy_stream :=
  { calloc_stream with
    stream_type := sampleDefs.ASTREAM_PLAYBACK_PRIMARY,
    requested_sample_rate := 48000,
    requested_channel_mask := 3,
    requested_format := 1,
    sound_card := PRIMARY_PLAYBACK_CARD,
    pcmconfig := pcm_config_primary_playback,
    pcm := true,
    pcm_handle_config := pcm_config_primary_playback,
    frames := 1000 }

/-- A sample primary capture stream with an open PCM handle. -/
def sample_primary_capture_stream : audio_proxy_stream :=
  { calloc_stream with
    stream_type := sampleDefs.ASTREAM_CAPTURE_PRIMARY,
    requested_sample_rate := 48000,
    requested_channel_mask := 12,
    requested_format := 1,
    sound_card := PRIMARY_CAPTURE_CARD,
    pcmconfig := pcm_config_primary_capture,
    pcm := true,
    pcm_handle_config := pcm_config_primary_capture }

/-- The values of the stream type enum are pairwise different. -/
def stream_types_distinct (K : Defs) : Prop :=
  [K.ASTREAM_PLAYBACK_NO_ATTRIBUTE, K.ASTREAM_PLAYBACK_PRIMARY, K.ASTREAM_PLAYBACK_FAST,
   K.ASTREAM_PLAYBACK_LOW_LATENCY, K.ASTREAM_PLAYBACK_DEEP_BUFFER,
   K.ASTREAM_PLAYBACK_COMPR_OFFLOAD, K.ASTREAM_PLAYBACK_MMAP, K.ASTREAM_PLAYBACK_AUX_DIGITAL,
   K.ASTREAM_CAPTURE_NO_ATTRIBUTE, K.ASTREAM_CAPTURE_PRIMARY, K.ASTREAM_CAPTURE_CALL,
   K.ASTREAM_CAPTURE_LOW_LATENCY, K.ASTREAM_CAPTURE_MMAP, K.ASTREAM_CAPTURE_FM].Nodup

instance (K : Defs) : Decidable (stream_types_distinct K) := by
  unfold stream_types_distinct; infer_instance

/-- A sample proxy state during an AP call: usage 4 is active on the speaker. -/
def sample_apcall_proxy : audio_proxy :=
  { initial_proxy sampleDefs with
    active_playback_ausage := sampleDefs.AUSAGE_APCALL_MIN,
    active_playback_device := sampleDefs.DEVICE_SPEAKER }

/-! ## Reading a capture stream -/

/-- Macro `CALLMIC_MUTE_DATA_SLEEP_DURATION` of `audio_pcm.h`, in milliseconds. -/
def CALLMIC_MUTE_DATA_SLEEP_DURATION : Nat := 20

/-- What one call of `resample_from_provider` leaves. The function belongs to
the resampler library; it reaches the stream only through the provider
callbacks `get_next_buffer` and `release_buffer`, so it can change the four
fields they write, and it stores the number of frames it produced in
`frames_rd`. -/
structure resample_outcome where
  read_buf_frames : Nat
  actual_read_buf_size : Nat
  actual_read_buf : Option (List Int)
  actual_read_status : Int
  frames_rd : Nat

/-- What the libraries and the hardware answer in each pass of the loop of
`read_frames`, by the number of the pass: whether a `realloc` succeeds, what
`pcm_read` answers, and what `resample_from_provider` does when it is called
on a stream for a number of frames. -/
structure capture_hw where
  realloc_ok : Nat → Bool
  pcm_read : Nat → pcm_read_result
  resample_from_provider : Nat → audio_proxy_stream → Nat → resample_outcome

/-- Source: `release_buffer`. The frame count handed out never exceeds
`read_buf_frames`, so the subtraction does not wrap. -/
def release_buffer (apstream : audio_proxy_stream) (buffer : resampler_buffer) :
    audio_proxy_stream :=
  { apstream with read_buf_frames := apstream.read_buf_frames - buffer.frame_count }

/-- One pass of the loop of `read_frames`, up to the test of
`actual_read_status`: the stream, the value of `frames_rd`, and the status the
buffer provider returned in this pass (with a resampler, the status its
provider calls left in the stream). The sample data copied to the caller are
not kept. -/
def read_frames_pass (K : Defs) (env : capture_hw) (i : Nat) (apstream : audio_proxy_stream)
    (frames_rd : Nat) : audio_proxy_stream × Nat × Int :=
  match apstream.resampler with
  | some _ =>
    let o := env.resample_from_provider i apstream frames_rd
    ({ apstream with
        read_buf_frames := o.read_buf_frames,
        actual_read_buf_size := o.actual_read_buf_size,
        actual_read_buf := o.actual_read_buf,
        actual_read_status := o.actual_read_status },
      o.frames_rd, o.actual_read_status)
  | none =>
    let r := get_next_buffer K (env.realloc_ok i) (env.pcm_read i) apstream
      { raw := none, frame_count := frames_rd }
    let buf := r.2.2
    (release_buffer r.2.1 buf, if buf.raw.isSome then buf.frame_count else frames_rd, r.1)

/-- Source: `read_frames`, from pass `i` on with `frames_wr` frames written:
the value returned, the stream, and the statuses of the passes made, in order
(appended to `log`). The fuel bounds the number of passes; `none` when it
runs out. `frames_wr += frames_rd` is an `int` updated with a `size_t`. -/
def read_frames (K : Defs) (env : capture_hw) (frames : Int) :
    Nat → Nat → audio_proxy_stream → Int → List Int →
      Option (Int × audio_proxy_stream × List Int)
  | 0, _, _, _, _ => none
  | fuel + 1, i, apstream, frames_wr, log =>
    if frames_wr < frames then
      let p := read_frames_pass K env i apstream (frames - frames_wr).toNat
      /- apstream->actual_read_status is updated by getNextBuffer() also called by
         apstream->resampler->resample_from_provider() -/
      if p.1.actual_read_status ≠ 0 then
        some (p.1.actual_read_status, p.1, log ++ [p.2.2])
      else
        read_frames K env frames fuel (i + 1) p.1
          (to_int32 (to_uint32 (frames_wr + p.2.1))) (log ++ [p.2.2])
    else some (frames_wr, apstream, log)

/-- Source: `read_and_process_frames`: the value returned, the stream and the
statuses of the passes of the read loop. The channel conversion works on the
sample data, which are not kept; of the conversion buffer only its size is. -/
def read_and_process_frames (K : Defs) (P : Platform) (env : capture_hw) (fuel : Nat)
    (apstream : audio_proxy_stream) (frames_num : Int) :
    Option (Int × audio_proxy_stream × List Int) :=
  let bytes_per_sample := pcm_format_to_bits apstream.pcmconfig.format >>> 3
  let num_device_channels := to_int32 (proxy_get_actual_channel_count K P apstream)
  let num_req_channels :=
    to_int32 (P.audio_channel_count_from_in_mask apstream.requested_channel_mask)
  /- Prepare Channel Conversion Input Buffer -/
  let a1 :=
    if apstream.need_monoconversion ∧ num_device_channels ≠ num_req_channels then
      let src_buffer_size :=
        to_int32 (to_uint32 (frames_num * num_device_channels * bytes_per_sample))
      if apstream.proc_buf_size < src_buffer_size then
        { apstream with proc_buf_size := src_buffer_size }
      else apstream
    else apstream
  read_frames K env frames_num fuel 0 a1 0 []

/-- The frame count `proxy_read_capture_buffer` asks for: `bytes` divided by
the requested frame size, or by the frame size of the hardware channel count
when `skip_ch_convert` is set. `none` is a division by zero. -/
def capture_frames_request (K : Defs) (P : Platform) (apstream : audio_proxy_stream)
    (bytes : Int) : Option Int :=
  if proxy_get_requested_frame_size P apstream = 0 then none
  else
    if apstream.skip_ch_convert then
      let d := (proxy_get_actual_channel_count K P apstream *
        P.audio_bytes_per_sample apstream.requested_format) % 18446744073709551616
      if d = 0 then none else some (to_int32 (to_uint64 bytes / d))
    else some (Int.tdiv bytes (proxy_get_requested_frame_size P apstream))

/-- The test of `proxy_read_capture_buffer` under which it hands out muted
data instead of reading. -/
def capture_mute_data (aproxy : audio_proxy) (apstream : audio_proxy_stream) : Bool :=
  (decide (apstream.cpcall_rec_skipcnt < 10) && is_audiomode_incall aproxy &&
      decide (apstream.sound_card = SOUND_CARD1)) ||
    (!is_audiomode_incall aproxy && decide (apstream.sound_card = SOUND_CARD1))

/-- Source: `proxy_read_capture_buffer`, built without
`SUPPORT_STHAL_INTERFACE`: the value returned, the stream, and the statuses of
the passes of the read loop. `none` is a division by zero or a read loop that
does not end within the fuel. -/
def proxy_read_capture_buffer (K : Defs) (P : Platform) (env : capture_hw) (fuel : Nat)
    (aproxy : audio_proxy) (apstream : audio_proxy_stream) (bytes : Int) :
    Option (Int × audio_proxy_stream × List Int) :=
  (capture_frames_request K P apstream bytes).bind fun frames_request =>
    if capture_mute_data aproxy apstream then
      let frames_actual : Int := 0
      let a1 :=
        { (apstream.emit (.memset (to_uint64 bytes))).emit
            (.usleep (CALLMIC_MUTE_DATA_SLEEP_DURATION * 1000)) with
          cpcall_rec_skipcnt := to_int32 (to_uint32 (apstream.cpcall_rec_skipcnt + 1)) }
      some (bytes,
        { a1 with frames := (a1.frames + frames_actual.toNat) % 18446744073709551616 }, [])
    else
      (read_and_process_frames K P env fuel apstream frames_request).map fun r =>
        let frames_actual := r.1
        if frames_actual < 0 then (frames_actual, r.2.1, r.2.2)
        else
          /- Saves read frames to calcurate timestamp -/
          (bytes,
            { r.2.1 with frames := (r.2.1.frames + frames_actual.toNat) % 18446744073709551616 },
            r.2.2)

/-- Sample answers for the read loop: every `realloc` and every read succeeds
and stores zeros; the resampler produces every frame it is asked for. -/
def sample_capture_hw : capture_hw where
  realloc_ok := fun _ => true
  pcm_read := fun _ => { status := 0, data := fun _ => 0 }
  resample_from_provider := fun _ a n =>
    { read_buf_frames := a.read_buf_frames,
      actual_read_buf_size := a.actual_read_buf_size,
      actual_read_buf := a.actual_read_buf,
      actual_read_status := 0,
      frames_rd := n }

/-- Sample answers for the read loop in which the second read fails with -5. -/
def sample_capture_hw_failing : capture_hw :=
  { sample_capture_hw with
    pcm_read := fun i => { status := if i = 1 then -5 else 0, data := fun _ => 0 } }

/-- A sample FM capture stream with an open handle, a period of 4 frames and
100 frames read so far. -/
def sample_fm_capture_stream : audio_proxy_stream :=
  { calloc_stream with
    stream_type := sampleDefs.ASTREAM_CAPTURE_FM,
    requested_sample_rate := 48000,
    requested_channel_mask := 12,
    requested_format := 1,
    sound_card := FM_RECORD_CARD,
    pcmconfig := { pcm_config_fm_record with period_size := 4 },
    pcm := true,
    pcm_handle_config := { pcm_config_fm_record with period_size := 4 },
    frames := 100 }

/-! ## Critical sections of the mixer lock in a trace -/

/-- Splits a list of calls into the read-side critical sections of
`mixer_update_lock`: `cur` is the section that is open, if any. Each section
is the list of calls made between a `rdlock` and the `unlock` that follows it;
calls made while the lock is free are left out. -/
def critical_sections_from : List Event → Option (List Event) → List (List Event)
  | [], _ => []
  | .rdlock :: t, _ => critical_sections_from t (some [])
  | .unlock :: t, some cur => cur :: critical_sections_from t none
  | .unlock :: t, none => critical_sections_from t none
  | e :: t, some cur => critical_sections_from t (some (cur ++ [e]))
  | _ :: t, none => critical_sections_from t none

/-- The read-side critical sections of a list of calls that starts with the
lock free. -/
def critical_sections (t : List Event) : List (List Event) :=
  critical_sections_from t none

/-! ## Consecutive reads -/

/-- The stream after `n` consecutive calls of `proxy_read_capture_buffer` with
the same byte count, each call starting from the stream the previous one left;
`none` when one of the calls has no result. -/
def proxy_read_capture_buffer_times (K : Defs) (P : Platform) (env : capture_hw) (fuel : Nat)
    (aproxy : audio_proxy) (bytes : Int) : Nat → audio_proxy_stream → Option audio_proxy_stream
  | 0, s => some s
  | n + 1, s =>
    (proxy_read_capture_buffer K P env fuel aproxy s bytes).bind fun r =>
      proxy_read_capture_buffer_times K P env fuel aproxy bytes n r.2.1

/-! ## Sequences of calls on a capture stream -/

/-- One call of a capture stream function that opens, closes or reconfigures
the stream, with the arguments of the call and what the hardware and the
libraries answer during it. -/
inductive capture_call where
  | proxy_open_capture_stream (hw : stream_hw) (fuel : Nat) (aproxy : audio_proxy)
      (min_size_frames : Int)
  | proxy_close_capture_stream (hw : stream_hw)
  | proxy_reconfig_capture_stream (type : Nat) (new_config : audio_config)
  | proxy_reconfig_capture_usage (hw : stream_hw) (aproxy : audio_proxy) (type usage : Nat)

/-- The stream after one call; `none` when the function called has no result. -/
def capture_call.apply (K : Defs) (P : Platform) :
    capture_call → audio_proxy_stream → Option audio_proxy_stream
  | .proxy_open_capture_stream hw fuel aproxy m, s =>
    (AudioProxy.proxy_open_capture_stream K P hw fuel aproxy s m).map fun r => r.2
  | .proxy_close_capture_stream hw, s => some (AudioProxy.proxy_close_capture_stream hw s).2
  | .proxy_reconfig_capture_stream type cfg, s =>
    some (AudioProxy.proxy_reconfig_capture_stream s type cfg).2
  | .proxy_reconfig_capture_usage hw aproxy type usage, s =>
    some (AudioProxy.proxy_reconfig_capture_usage K P hw aproxy s type usage).2

/-- The stream after a sequence of calls, each made on the stream the previous
one left. -/
def capture_calls_apply (K : Defs) (P : Platform) :
    List capture_call → audio_proxy_stream → Option audio_proxy_stream
  | [], s => some s
  | c :: cs, s => (c.apply K P s).bind (capture_calls_apply K P cs)

/-! ## Route initialisation -/

/-- Source: `audio_route_missing_ctl`; `audio_route` is the type of the route
graph of the `audio_route` library. -/
def audio_route_missing_ctl {audio_route : Type} (_ar : audio_route) : Int :=
  0

/-- Source: `proxy_init_route` (for a proxy that is not NULL): the value
returned and the proxy. `mixer_open_ok` tells whether `mixer_open` returns a
mixer, `audio_route_init_ret` is what `audio_route_init` returns (`none` is
NULL). -/
def proxy_init_route {audio_route : Type} (K : Defs) (hw : Hw) (mixer_open_ok : Bool)
    (audio_route_init_ret : Option audio_route) (aproxy : audio_proxy) (path : CStr) :
    Bool × audio_proxy :=
  let a0 := { aproxy.emit .mixer_open with mixer := mixer_open_ok }
  let a1 := proxy_set_mixercontrol hw a0 .TICKLE_CONTROL ABOX_TICKLE_ON
  if a1.mixer then
    -- In order to get add event, subscription has to be here!
    let a2 := a1.emit (.mixer_subscribe_events 1)
    let a3 := a2.emit (.audio_route_init path)
    match audio_route_init_ret with
    | none =>
      (false, { (a3.emit (.mixer_subscribe_events 0)).emit .mixer_close with mixer := false })
    | some ar =>
      let a4 :=
        { a3 with
          aroute := true,
          xml_path := some path,
          active_playback_ausage := K.AUSAGE_NONE,
          active_playback_device := K.DEVICE_NONE,
          active_playback_modifier := K.MODIFIER_NONE,
          active_capture_ausage := K.AUSAGE_NONE,
          active_capture_device := K.DEVICE_NONE,
          active_capture_modifier := K.MODIFIER_NONE }
      /- Create Mixer Control Update Thread -/
      let a5 := a4.emit .pthread_rwlock_init
      if audio_route_missing_ctl ar ≠ 0 then
        (true, a5.emit .pthread_create_mixer_update_loop)
      else (true, a5.emit (.mixer_subscribe_events 0))
  else (false, a1)

/-! ## Sequences of buffer provider calls -/

/-- The state in which the buffer provider of an open stream continues a
period: a period size that is not zero, at most one period of unconsumed
frames, a read buffer and the status 0 whenever frames are unconsumed, and a
read buffer that exists or is smaller than a period (so that it is allocated
before the next read). -/
def provider_state_ok (s : audio_proxy_stream) : Prop :=
  s.pcm = true ∧ 0 < s.pcmconfig.period_size ∧
  s.read_buf_frames ≤ s.pcmconfig.period_size ∧
  (s.read_buf_frames ≠ 0 → s.actual_read_status = 0 ∧ s.actual_read_buf.isSome = true) ∧
  (s.actual_read_buf.isSome = true ∨
    s.actual_read_buf_size <
      pcm_frames_to_bytes s.pcm_handle_config s.pcmconfig.period_size % 4294967296)

instance (s : audio_proxy_stream) : Decidable (provider_state_ok s) := by
  unfold provider_state_ok; infer_instance

/-- A `get_next_buffer` call for `frame_count` frames followed by the
`release_buffer` call on the descriptor it filled, as `read_frames` and the
resampler make them: the status, the stream and the descriptor. -/
def provider_pair (K : Defs) (realloc_ok : Bool) (rd : pcm_read_result)
    (apstream : audio_proxy_stream) (frame_count : Nat) :
    Int × audio_proxy_stream × resampler_buffer :=
  let r := get_next_buffer K realloc_ok rd apstream { raw := none, frame_count := frame_count }
  (r.1, release_buffer r.2.1 r.2.2, r.2.2)

/-- What is observed of one provider pair: the frame count requested, the
unconsumed frames (`read_buf_frames`) before and after the pair, the number of
`pcm_read` calls the pair made, the status and the descriptor handed out. -/
structure provider_record where
  requested : Nat
  unconsumed_before : Nat
  unconsumed_after : Nat
  pcm_reads : Nat
  status : Int
  buffer : resampler_buffer
  deriving DecidableEq, Repr

/-- A sequence of provider pairs, one for each requested frame count, pair
number `i` first: the records of the pairs in order and the stream left. -/
def provider_pairs (K : Defs) (env : capture_hw) :
    Nat → List Nat → audio_proxy_stream → List provider_record × audio_proxy_stream
  | _, [], s => ([], s)
  | i, n :: ns, s =>
    let r := provider_pair K (env.realloc_ok i) (env.pcm_read i) s n
    let rest := provider_pairs K env (i + 1) ns r.2.1
    ({ requested := n,
       unconsumed_before := s.read_buf_frames,
       unconsumed_after := r.2.1.read_buf_frames,
       pcm_reads := r.2.1.calls.length - s.calls.length,
       status := r.1,
       buffer := r.2.2 } :: rest.1, rest.2)

/-! # Proofs -/

/-! ## Frame lemmas: what the PCM and mixer-control helpers leave alone -/

theorem SameRouting.refl (s : audio_proxy) : SameRouting s s := by
  constructor <;> rfl

theorem SameRouting.trans {s t u : audio_proxy} (h₁ : SameRouting s t) (h₂ : SameRouting t u) :
    SameRouting s u := by
  constructor
  · exact h₂.playback_ausage.trans h₁.playback_ausage
  · exact h₂.playback_device.trans h₁.playback_device
  · exact h₂.playback_modifier.trans h₁.playback_modifier
  · exact h₂.capture_ausage.trans h₁.capture_ausage
  · exact h₂.capture_device.trans h₁.capture_device
  · exact h₂.capture_modifier.trans h₁.capture_modifier
  · exact h₂.mode.trans h₁.mode
  · exact h₂.out_loopback.trans h₁.out_loopback
  · exact h₂.spkamp.trans h₁.spkamp
  · exact h₂.btsco.trans h₁.btsco
  · exact h₂.dualspk.trans h₁.dualspk
  · exact h₂.route.trans h₁.route

theorem sameRouting_emit (s : audio_proxy) (e : Event) (he : e.is_route_op = false) :
    SameRouting s (s.emit e) := by
  constructor <;> simp [audio_proxy.emit, route_ops, he]

theorem sameRouting_set_handle (s : audio_proxy) (n : pcm_node) (b : Bool) :
    SameRouting s (s.set_handle n b) := by
  constructor <;> rfl

theorem sameRouting_pcm_stop_close (n : pcm_node) (s : audio_proxy) :
    SameRouting s (pcm_stop_close n s) := by
  unfold pcm_stop_close
  split
  · exact ((sameRouting_emit s (.pcm_stop n) rfl).trans
      (sameRouting_emit _ (.pcm_close n) rfl)).trans (sameRouting_set_handle _ _ _)
  · exact SameRouting.refl s

theorem sameRouting_pcm_open_start (hw : Hw) (n : pcm_node) (f : audio_proxy → audio_proxy)
    (hf : ∀ a, SameRouting a (f a)) (s : audio_proxy) :
    SameRouting s (pcm_open_start hw n f s) := by
  unfold pcm_open_start
  have h1 : SameRouting s ((s.emit (.pcm_open n)).set_handle n true) :=
    (sameRouting_emit s (.pcm_open n) rfl).trans (sameRouting_set_handle _ _ _)
  split
  · exact SameRouting.refl s
  · dsimp only
    split
    · exact h1.trans (hf _)
    · split
      · exact h1.trans (sameRouting_emit _ (.pcm_start n) rfl)
      · exact (h1.trans (sameRouting_emit _ (.pcm_start n) rfl)).trans (hf _)

theorem sameRouting_disable_erap_in (s : audio_proxy) : SameRouting s (disable_erap_in s) := by
  unfold disable_erap_in
  split
  · exact sameRouting_pcm_stop_close _ s
  · exact SameRouting.refl s

theorem sameRouting_disable_spkamp_reference (s : audio_proxy) :
    SameRouting s (disable_spkamp_reference s) := by
  unfold disable_spkamp_reference
  split
  · exact sameRouting_pcm_stop_close _ s
  · exact SameRouting.refl s

theorem sameRouting_disable_spkamp_playback (s : audio_proxy) :
    SameRouting s (disable_spkamp_playback s) := by
  unfold disable_spkamp_playback
  split
  · exact sameRouting_pcm_stop_close _ s
  · exact SameRouting.refl s

theorem sameRouting_disable_btsco_playback (s : audio_proxy) :
    SameRouting s (disable_btsco_playback s) := by
  unfold disable_btsco_playback
  split
  · exact sameRouting_pcm_stop_close _ s
  · exact SameRouting.refl s

theorem sameRouting_enable_erap_in (hw : Hw) (s : audio_proxy) :
    SameRouting s (enable_erap_in hw s) := by
  unfold enable_erap_in
  split
  · exact sameRouting_pcm_open_start hw _ _ sameRouting_disable_erap_in s
  · exact SameRouting.refl s

theorem sameRouting_enable_spkamp_reference (hw : Hw) (s : audio_proxy) :
    SameRouting s (enable_spkamp_reference hw s) := by
  unfold enable_spkamp_reference
  split
  · exact sameRouting_pcm_open_start hw _ _ sameRouting_disable_spkamp_reference s
  · exact SameRouting.refl s

theorem sameRouting_enable_spkamp_playback (hw : Hw) (s : audio_proxy) :
    SameRouting s (enable_spkamp_playback hw s) := by
  unfold enable_spkamp_playback
  split
  · exact sameRouting_pcm_open_start hw _ _ sameRouting_disable_spkamp_playback s
  · exact SameRouting.refl s

theorem sameRouting_enable_btsco_playback (hw : Hw) (s : audio_proxy) :
    SameRouting s (enable_btsco_playback hw s) := by
  unfold enable_btsco_playback
  split
  · exact sameRouting_pcm_open_start hw _ _ sameRouting_disable_btsco_playback s
  · exact SameRouting.refl s

theorem sameRouting_proxy_start_fm_radio (hw : Hw) (s : audio_proxy) :
    SameRouting s (proxy_start_fm_radio hw s) := by
  unfold proxy_start_fm_radio fmradio_capture_start fmradio_playback_start
  exact (sameRouting_pcm_open_start hw _ _ (fun a => sameRouting_pcm_stop_close _ a) s).trans
    (sameRouting_pcm_open_start hw _ _ (fun a => sameRouting_pcm_stop_close _ a) _)

theorem sameRouting_proxy_set_mixercontrol (hw : Hw) (s : audio_proxy) (type : erap_trigger)
    (value : Int) : SameRouting s (proxy_set_mixercontrol hw s type value) := by
  unfold proxy_set_mixercontrol
  dsimp only
  split
  · exact ((sameRouting_emit s .rdlock rfl).trans
      (sameRouting_emit _ (.mixer_ctl_set_value _ value) rfl)).trans
      (sameRouting_emit _ .unlock rfl)
  · exact (sameRouting_emit s .rdlock rfl).trans (sameRouting_emit _ .unlock rfl)

theorem sameRouting_enable_internal_path (K : Defs) (hw : Hw) (s : audio_proxy) (d : Nat) :
    SameRouting s (enable_internal_path K hw s d) := by
  have pair : ∀ a, SameRouting a (enable_spkamp_reference hw (enable_spkamp_playback hw a)) :=
    fun a => (sameRouting_enable_spkamp_playback hw a).trans
      (sameRouting_enable_spkamp_reference hw _)
  unfold enable_internal_path
  split
  · exact (pair s).trans (sameRouting_enable_erap_in hw _)
  · split
    · dsimp only
      split
      · exact ((pair s).trans (sameRouting_enable_btsco_playback hw _)).trans
          (sameRouting_enable_erap_in hw _)
      · exact (sameRouting_enable_btsco_playback hw _).trans (sameRouting_enable_erap_in hw _)
    · split
      · dsimp only
        split
        · split
          · exact (pair s).trans (sameRouting_enable_erap_in hw _)
          · split
            · exact (pair s).trans (sameRouting_enable_erap_in hw _)
            · exact pair s
        · split
          · exact sameRouting_enable_erap_in hw _
          · split
            · exact sameRouting_enable_erap_in hw _
            · exact SameRouting.refl s
      · exact SameRouting.refl s

theorem sameRouting_disable_internal_path (K : Defs) (s : audio_proxy) (d : Nat) :
    SameRouting s (disable_internal_path K s d) := by
  have pair : ∀ a, SameRouting a (disable_spkamp_playback (disable_spkamp_reference a)) :=
    fun a => (sameRouting_disable_spkamp_reference a).trans
      (sameRouting_disable_spkamp_playback _)
  unfold disable_internal_path
  split
  · exact (sameRouting_disable_erap_in s).trans (pair _)
  · split
    · dsimp only
      split
      · exact ((sameRouting_disable_erap_in s).trans
          (sameRouting_disable_btsco_playback _)).trans (pair _)
      · exact (sameRouting_disable_erap_in s).trans (sameRouting_disable_btsco_playback _)
    · split
      · split
        · exact sameRouting_disable_erap_in s
        · split
          · exact sameRouting_disable_erap_in s
          · exact SameRouting.refl s
      · exact SameRouting.refl s

theorem sameRouting_do_operations_by_playback_route_set (K : Defs) (hw : Hw) (s : audio_proxy)
    (u d : Nat) : SameRouting s (do_operations_by_playback_route_set K hw s u d) := by
  have stop : SameRouting s (fmradio_capture_stop (fmradio_playback_stop s)) :=
    (sameRouting_pcm_stop_close _ s).trans (sameRouting_pcm_stop_close _ _)
  unfold do_operations_by_playback_route_set
  dsimp only
  split
  · split
    · exact stop.trans (sameRouting_proxy_set_mixercontrol hw _ _ _)
    · exact stop
  · split
    · exact sameRouting_proxy_set_mixercontrol hw _ _ _
    · exact SameRouting.refl s

/-! ## Field-level consequences of the frame lemmas -/

@[simp] theorem enable_internal_path_fields (K : Defs) (hw : Hw) (s : audio_proxy) (d : Nat) :
    (enable_internal_path K hw s d).active_playback_ausage = s.active_playback_ausage ∧
    (enable_internal_path K hw s d).active_playback_device = s.active_playback_device ∧
    (enable_internal_path K hw s d).active_playback_modifier = s.active_playback_modifier ∧
    (enable_internal_path K hw s d).active_capture_ausage = s.active_capture_ausage ∧
    (enable_internal_path K hw s d).active_capture_device = s.active_capture_device ∧
    (enable_internal_path K hw s d).active_capture_modifier = s.active_capture_modifier ∧
    (enable_internal_path K hw s d).audio_mode = s.audio_mode ∧
    (enable_internal_path K hw s d).support_dualspk = s.support_dualspk ∧
    route_ops (enable_internal_path K hw s d).trace = route_ops s.trace :=
  have h := sameRouting_enable_internal_path K hw s d
  ⟨h.playback_ausage, h.playback_device, h.playback_modifier, h.capture_ausage,
    h.capture_device, h.capture_modifier, h.mode, h.dualspk, h.route⟩

@[simp] theorem disable_internal_path_fields (K : Defs) (s : audio_proxy) (d : Nat) :
    (disable_internal_path K s d).active_playback_ausage = s.active_playback_ausage ∧
    (disable_internal_path K s d).active_playback_device = s.active_playback_device ∧
    (disable_internal_path K s d).active_playback_modifier = s.active_playback_modifier ∧
    (disable_internal_path K s d).active_capture_ausage = s.active_capture_ausage ∧
    (disable_internal_path K s d).active_capture_device = s.active_capture_device ∧
    (disable_internal_path K s d).active_capture_modifier = s.active_capture_modifier ∧
    (disable_internal_path K s d).audio_mode = s.audio_mode ∧
    (disable_internal_path K s d).support_dualspk = s.support_dualspk ∧
    route_ops (disable_internal_path K s d).trace = route_ops s.trace :=
  have h := sameRouting_disable_internal_path K s d
  ⟨h.playback_ausage, h.playback_device, h.playback_modifier, h.capture_ausage,
    h.capture_device, h.capture_modifier, h.mode, h.dualspk, h.route⟩

@[simp] theorem do_operations_by_playback_route_set_fields (K : Defs) (hw : Hw)
    (s : audio_proxy) (u d : Nat) :
    (do_operations_by_playback_route_set K hw s u d).active_playback_ausage
      = s.active_playback_ausage ∧
    (do_operations_by_playback_route_set K hw s u d).active_playback_device
      = s.active_playback_device ∧
    (do_operations_by_playback_route_set K hw s u d).active_playback_modifier
      = s.active_playback_modifier ∧
    (do_operations_by_playback_route_set K hw s u d).active_capture_ausage
      = s.active_capture_ausage ∧
    (do_operations_by_playback_route_set K hw s u d).active_capture_device
      = s.active_capture_device ∧
    (do_operations_by_playback_route_set K hw s u d).active_capture_modifier
      = s.active_capture_modifier ∧
    (do_operations_by_playback_route_set K hw s u d).audio_mode = s.audio_mode ∧
    (do_operations_by_playback_route_set K hw s u d).support_dualspk = s.support_dualspk ∧
    route_ops (do_operations_by_playback_route_set K hw s u d).trace = route_ops s.trace :=
  have h := sameRouting_do_operations_by_playback_route_set K hw s u d
  ⟨h.playback_ausage, h.playback_device, h.playback_modifier, h.capture_ausage,
    h.capture_device, h.capture_modifier, h.mode, h.dualspk, h.route⟩

@[simp] theorem proxy_set_mixercontrol_fields (hw : Hw) (s : audio_proxy) (type : erap_trigger)
    (value : Int) :
    (proxy_set_mixercontrol hw s type value).active_playback_ausage
      = s.active_playback_ausage ∧
    (proxy_set_mixercontrol hw s type value).active_playback_device
      = s.active_playback_device ∧
    (proxy_set_mixercontrol hw s type value).active_playback_modifier
      = s.active_playback_modifier ∧
    (proxy_set_mixercontrol hw s type value).active_capture_ausage
      = s.active_capture_ausage ∧
    (proxy_set_mixercontrol hw s type value).active_capture_device
      = s.active_capture_device ∧
    (proxy_set_mixercontrol hw s type value).active_capture_modifier
      = s.active_capture_modifier ∧
    (proxy_set_mixercontrol hw s type value).audio_mode = s.audio_mode ∧
    (proxy_set_mixercontrol hw s type value).support_dualspk = s.support_dualspk ∧
    route_ops (proxy_set_mixercontrol hw s type value).trace = route_ops s.trace :=
  have h := sameRouting_proxy_set_mixercontrol hw s type value
  ⟨h.playback_ausage, h.playback_device, h.playback_modifier, h.capture_ausage,
    h.capture_device, h.capture_modifier, h.mode, h.dualspk, h.route⟩

@[simp] theorem proxy_start_fm_radio_fields (hw : Hw) (s : audio_proxy) :
    (proxy_start_fm_radio hw s).active_playback_ausage = s.active_playback_ausage ∧
    (proxy_start_fm_radio hw s).active_playback_device = s.active_playback_device ∧
    (proxy_start_fm_radio hw s).active_playback_modifier = s.active_playback_modifier ∧
    (proxy_start_fm_radio hw s).active_capture_ausage = s.active_capture_ausage ∧
    (proxy_start_fm_radio hw s).active_capture_device = s.active_capture_device ∧
    (proxy_start_fm_radio hw s).active_capture_modifier = s.active_capture_modifier ∧
    (proxy_start_fm_radio hw s).audio_mode = s.audio_mode ∧
    (proxy_start_fm_radio hw s).support_dualspk = s.support_dualspk ∧
    route_ops (proxy_start_fm_radio hw s).trace = route_ops s.trace :=
  have h := sameRouting_proxy_start_fm_radio hw s
  ⟨h.playback_ausage, h.playback_device, h.playback_modifier, h.capture_ausage,
    h.capture_device, h.capture_modifier, h.mode, h.dualspk, h.route⟩

/-! ## Path names depend on the dual-speaker flag only -/

theorem add_dual_path_congr {s t : audio_proxy} (h : t.support_dualspk = s.support_dualspk)
    (p : CStr) : add_dual_path t p = add_dual_path s p := by
  unfold add_dual_path
  rw [h]

@[simp] theorem route_ops_append (t₁ t₂ : List Event) :
    route_ops (t₁ ++ t₂) = route_ops t₁ ++ route_ops t₂ := by
  simp [route_ops]

@[simp] theorem add_dual_path_emit (s : audio_proxy) (e : Event) (p : CStr) :
    add_dual_path (s.emit e) p = add_dual_path s p := rfl

/-! ## What the route graph functions leave -/

theorem set_route_some (K : Defs) (s : audio_proxy) (u d : Nat) (p : CStr)
    (hd : d ≠ K.DEVICE_AUX_DIGITAL) (hp : add_dual_path s (make_path K u d) = some p) :
    set_route K s u d = some { s with trace := s.trace ++
      [.rdlock, .audio_route_apply_and_update_path p,
        .audio_route_apply_and_update_path (make_gain p), .unlock] } := by
  simp only [set_route, hd, if_false, add_dual_path_emit, hp, Option.bind_eq_bind,
    Option.some_bind, Option.pure_def]
  simp [audio_proxy.emit]

theorem set_route_aux (K : Defs) (s : audio_proxy) (u : Nat) :
    set_route K s u K.DEVICE_AUX_DIGITAL = some s := by
  simp [set_route]

theorem reset_route_some (K : Defs) (s : audio_proxy) (u d : Nat) (p : CStr)
    (hp : add_dual_path s (make_path K u d) = some p) :
    reset_route K s u d = some { s with trace := s.trace ++
      [.rdlock, .audio_route_reset_and_update_path p,
        .audio_route_reset_and_update_path (make_gain p), .unlock] } := by
  simp only [reset_route, add_dual_path_emit, hp, Option.bind_eq_bind,
    Option.some_bind, Option.pure_def]
  simp [audio_proxy.emit]

theorem set_reroute_some (K : Defs) (s : audio_proxy) (u₁ d₁ u₂ d₂ : Nat) (p₁ p₂ : CStr)
    (hd : d₂ ≠ K.DEVICE_AUX_DIGITAL)
    (hp₁ : add_dual_path s (make_path K u₁ d₁) = some p₁)
    (hp₂ : add_dual_path s (make_path K u₂ d₂) = some p₂) :
    set_reroute K s u₁ d₁ u₂ d₂ = some { s with trace := s.trace ++
      [.rdlock, .audio_route_reset_path p₁, .audio_route_reset_path (make_gain p₁),
        .audio_route_apply_and_update_path p₂,
        .audio_route_apply_and_update_path (make_gain p₂),
        .audio_route_update_mixer, .unlock] } := by
  simp only [set_reroute, ne_eq, hd, not_false_eq_true, if_true, add_dual_path_emit, hp₁, hp₂,
    Option.bind_eq_bind, Option.some_bind, Option.pure_def]
  simp [audio_proxy.emit]

theorem set_reroute_aux (K : Defs) (s : audio_proxy) (u₁ d₁ u₂ : Nat) (p₁ : CStr)
    (hp₁ : add_dual_path s (make_path K u₁ d₁) = some p₁) :
    set_reroute K s u₁ d₁ u₂ K.DEVICE_AUX_DIGITAL = some { s with trace := s.trace ++
      [.rdlock, .audio_route_reset_path p₁, .audio_route_reset_path (make_gain p₁),
        .audio_route_update_mixer, .unlock] } := by
  simp only [set_reroute, ne_eq, not_true_eq_false, if_false, add_dual_path_emit, hp₁,
    Option.bind_eq_bind, Option.some_bind, Option.pure_def]
  simp [audio_proxy.emit]

/-! ## `proxy_set_route` as a composition of its blocks -/

theorem proxy_set_route_true_playback (K : Defs) (hw : Hw) (s : audio_proxy) (u d m : Nat)
    (hd : d < K.DEVICE_MAIN_MIC) :
    proxy_set_route K hw s u d m true
      = (playback_route_step K (do_operations_by_playback_route_set K hw s u d) u d).map
          (fun a2 => playback_finish K hw a2 u d m) := by
  unfold proxy_set_route
  simp only [if_true, if_pos hd]
  rfl

theorem proxy_set_route_true_capture (K : Defs) (hw : Hw) (s : audio_proxy) (u d m : Nat)
    (hd : ¬ d < K.DEVICE_MAIN_MIC) :
    proxy_set_route K hw s u d m true
      = (capture_route_step K hw s u d).map (fun a2 => capture_finish K hw a2 u d m) := by
  unfold proxy_set_route
  simp only [if_true, if_neg hd]
  rfl

theorem proxy_set_route_false (K : Defs) (hw : Hw) (s : audio_proxy) (u d m : Nat) :
    proxy_set_route K hw s u d m false
      = (reset_route K (disable_modifier_step K (disable_internal_path K s d) m) u d).map
          (fun a4 => disable_finish K a4 d) := by
  unfold proxy_set_route do_operations_by_playback_route_reset
  simp only [Bool.false_eq_true, if_false, ite_self]
  rfl

/-! ## Effect of the blocks on the routing state -/

@[simp] theorem playback_modifier_step_fields (K : Defs) (a : audio_proxy) (m : Nat) :
    (playback_modifier_step K a m).active_playback_ausage = a.active_playback_ausage ∧
    (playback_modifier_step K a m).active_playback_device = a.active_playback_device ∧
    (playback_modifier_step K a m).active_playback_modifier = a.active_playback_modifier ∧
    (playback_modifier_step K a m).active_capture_ausage = a.active_capture_ausage ∧
    (playback_modifier_step K a m).active_capture_device = a.active_capture_device ∧
    (playback_modifier_step K a m).active_capture_modifier = a.active_capture_modifier ∧
    (playback_modifier_step K a m).audio_mode = a.audio_mode ∧
    (playback_modifier_step K a m).support_dualspk = a.support_dualspk ∧
    (playback_modifier_step K a m).handle = a.handle ∧
    route_ops (playback_modifier_step K a m).trace
      = route_ops a.trace ++ playback_modifier_ops K m a.active_playback_modifier := by
  unfold playback_modifier_step playback_modifier_ops
  split_ifs <;>
    simp [set_modifier, update_modifier, reset_modifier, audio_proxy.emit, route_ops,
      Event.is_route_op]

@[simp] theorem capture_modifier_step_fields (K : Defs) (a : audio_proxy) (m : Nat) :
    (capture_modifier_step K a m).active_playback_ausage = a.active_playback_ausage ∧
    (capture_modifier_step K a m).active_playback_device = a.active_playback_device ∧
    (capture_modifier_step K a m).active_playback_modifier = a.active_playback_modifier ∧
    (capture_modifier_step K a m).active_capture_ausage = a.active_capture_ausage ∧
    (capture_modifier_step K a m).active_capture_device = a.active_capture_device ∧
    (capture_modifier_step K a m).active_capture_modifier = a.active_capture_modifier ∧
    (capture_modifier_step K a m).audio_mode = a.audio_mode ∧
    (capture_modifier_step K a m).support_dualspk = a.support_dualspk ∧
    (capture_modifier_step K a m).handle = a.handle ∧
    route_ops (capture_modifier_step K a m).trace
      = route_ops a.trace ++ capture_modifier_ops K m a.active_capture_modifier := by
  unfold capture_modifier_step capture_modifier_ops
  split_ifs <;>
    simp [set_modifier, update_modifier, reset_modifier, audio_proxy.emit, route_ops,
      Event.is_route_op]

@[simp] theorem disable_modifier_step_fields (K : Defs) (a : audio_proxy) (m : Nat) :
    (disable_modifier_step K a m).active_playback_ausage = a.active_playback_ausage ∧
    (disable_modifier_step K a m).active_playback_device = a.active_playback_device ∧
    (disable_modifier_step K a m).active_playback_modifier
      = (if m ≠ K.MODIFIER_NONE ∧ ¬ m < K.MODIFIER_BT_SCO_TX_NB then a.active_playback_modifier
         else K.MODIFIER_NONE) ∧
    (disable_modifier_step K a m).active_capture_ausage = a.active_capture_ausage ∧
    (disable_modifier_step K a m).active_capture_device = a.active_capture_device ∧
    (disable_modifier_step K a m).active_capture_modifier
      = (if m ≠ K.MODIFIER_NONE ∧ m < K.MODIFIER_BT_SCO_TX_NB then a.active_capture_modifier
         else K.MODIFIER_NONE) ∧
    (disable_modifier_step K a m).audio_mode = a.audio_mode ∧
    (disable_modifier_step K a m).support_dualspk = a.support_dualspk ∧
    (disable_modifier_step K a m).handle = a.handle ∧
    route_ops (disable_modifier_step K a m).trace
      = route_ops a.trace ++
        (if m ≠ K.MODIFIER_NONE then
          [.audio_route_reset_and_update_path (K.modifier_table m)] else []) := by
  unfold disable_modifier_step
  split_ifs <;>
    simp_all [reset_modifier, audio_proxy.emit, route_ops, Event.is_route_op]

@[simp] theorem playback_finish_fields (K : Defs) (hw : Hw) (a : audio_proxy) (u d m : Nat) :
    (playback_finish K hw a u d m).active_playback_ausage = u ∧
    (playback_finish K hw a u d m).active_playback_device = d ∧
    (playback_finish K hw a u d m).active_playback_modifier = m ∧
    (playback_finish K hw a u d m).active_capture_ausage = a.active_capture_ausage ∧
    (playback_finish K hw a u d m).active_capture_device = a.active_capture_device ∧
    (playback_finish K hw a u d m).active_capture_modifier = a.active_capture_modifier ∧
    (playback_finish K hw a u d m).audio_mode = a.audio_mode ∧
    (playback_finish K hw a u d m).support_dualspk = a.support_dualspk ∧
    route_ops (playback_finish K hw a u d m).trace
      = route_ops a.trace ++ playback_modifier_ops K m a.active_playback_modifier := by
  unfold playback_finish
  dsimp only
  split_ifs <;> simp

@[simp] theorem capture_finish_fields (K : Defs) (hw : Hw) (a : audio_proxy) (u d m : Nat) :
    (capture_finish K hw a u d m).active_playback_ausage = a.active_playback_ausage ∧
    (capture_finish K hw a u d m).active_playback_device = a.active_playback_device ∧
    (capture_finish K hw a u d m).active_playback_modifier = a.active_playback_modifier ∧
    (capture_finish K hw a u d m).active_capture_ausage = u ∧
    (capture_finish K hw a u d m).active_capture_device = d ∧
    (capture_finish K hw a u d m).active_capture_modifier = m ∧
    (capture_finish K hw a u d m).audio_mode = a.audio_mode ∧
    (capture_finish K hw a u d m).support_dualspk = a.support_dualspk ∧
    route_ops (capture_finish K hw a u d m).trace
      = route_ops a.trace ++ capture_modifier_ops K m a.active_capture_modifier := by
  unfold capture_finish
  simp

@[simp] theorem disable_finish_fields (K : Defs) (a : audio_proxy) (d : Nat) :
    (disable_finish K a d).active_playback_ausage
      = (if d < K.DEVICE_MAIN_MIC then K.AUSAGE_NONE else a.active_playback_ausage) ∧
    (disable_finish K a d).active_playback_device
      = (if d < K.DEVICE_MAIN_MIC then K.DEVICE_NONE else a.active_playback_device) ∧
    (disable_finish K a d).active_playback_modifier = a.active_playback_modifier ∧
    (disable_finish K a d).active_capture_ausage
      = (if d < K.DEVICE_MAIN_MIC then a.active_capture_ausage else K.AUSAGE_NONE) ∧
    (disable_finish K a d).active_capture_device
      = (if d < K.DEVICE_MAIN_MIC then a.active_capture_device else K.DEVICE_NONE) ∧
    (disable_finish K a d).active_capture_modifier = a.active_capture_modifier ∧
    (disable_finish K a d).audio_mode = a.audio_mode ∧
    (disable_finish K a d).support_dualspk = a.support_dualspk ∧
    (disable_finish K a d).handle = a.handle ∧
    (disable_finish K a d).trace = a.trace := by
  unfold disable_finish
  split_ifs <;> simp

@[simp] theorem route_ops_nil : route_ops [] = [] := rfl

@[simp] theorem route_ops_cons (e : Event) (t : List Event) :
    route_ops (e :: t) = if e.is_route_op then e :: route_ops t else route_ops t := by
  simp [route_ops, List.filter_cons]

/-! ## General outcome of enabling and disabling a route -/

theorem playback_route_step_fresh (K : Defs) (a : audio_proxy) (u d : Nat) (p : CStr)
    (hnone : a.active_playback_ausage = K.AUSAGE_NONE ∨ a.active_playback_device = K.DEVICE_NONE)
    (hd : d ≠ K.DEVICE_AUX_DIGITAL) (hp : add_dual_path a (make_path K u d) = some p) :
    playback_route_step K a u d = some { a with trace := a.trace ++
      [.rdlock, .audio_route_apply_and_update_path p,
        .audio_route_apply_and_update_path (make_gain p), .unlock] } := by
  unfold playback_route_step
  rw [if_neg (by tauto)]
  exact set_route_some K a u d p hd hp

theorem capture_route_step_fresh (K : Defs) (hw : Hw) (a : audio_proxy) (u d : Nat) (p : CStr)
    (hnone : a.active_capture_ausage = K.AUSAGE_NONE ∨ a.active_capture_device = K.DEVICE_NONE)
    (hd : d ≠ K.DEVICE_AUX_DIGITAL) (hp : add_dual_path a (make_path K u d) = some p) :
    capture_route_step K hw a u d
      = some { proxy_set_mixercontrol hw a .TICKLE_CONTROL ABOX_TICKLE_ON with
          trace := (proxy_set_mixercontrol hw a .TICKLE_CONTROL ABOX_TICKLE_ON).trace ++
            [.rdlock, .audio_route_apply_and_update_path p,
              .audio_route_apply_and_update_path (make_gain p), .unlock] } := by
  unfold capture_route_step
  rw [if_neg (by tauto)]
  exact set_route_some K _ u d p hd ((add_dual_path_congr (by simp) _).trans hp)

theorem proxy_set_route_false_some (K : Defs) (hw : Hw) (s : audio_proxy) (u d m : Nat)
    (p : CStr) (hp : add_dual_path s (make_path K u d) = some p) :
    proxy_set_route K hw s u d m false
      = some (disable_finish K
          { disable_modifier_step K (disable_internal_path K s d) m with
            trace := (disable_modifier_step K (disable_internal_path K s d) m).trace ++
              [.rdlock, .audio_route_reset_and_update_path p,
                .audio_route_reset_and_update_path (make_gain p), .unlock] } d) := by
  rw [proxy_set_route_false,
    reset_route_some K _ u d p ((add_dual_path_congr (by simp) _).trans hp)]
  rfl

/-- C1 (amended): from a state whose side is idle (usage, device and modifier
none), for every usage and every device other than the AUX digital output,
enabling the route with modifier none and disabling it again returns both
calls, leaves the side's usage and device at none, and the route graph sees
one apply of the constructed path, one of its gain path, then one reset of
each, and nothing else. -/
theorem route_enable_then_disable (K : Defs) (hw : Hw) (s : audio_proxy) (u d : Nat) (p : CStr)
    (hmod : K.MODIFIER_BT_SCO_TX_NB ≤ K.MODIFIER_NONE)
    (hd : d ≠ K.DEVICE_AUX_DIGITAL)
    (hside : if d < K.DEVICE_MAIN_MIC then
        s.active_playback_ausage = K.AUSAGE_NONE ∧ s.active_playback_device = K.DEVICE_NONE ∧
          s.active_playback_modifier = K.MODIFIER_NONE
      else
        s.active_capture_ausage = K.AUSAGE_NONE ∧ s.active_capture_device = K.DEVICE_NONE ∧
          s.active_capture_modifier = K.MODIFIER_NONE)
    (hp : add_dual_path s (make_path K u d) = some p) :
    ∃ s₁ s₂, proxy_set_route K hw s u d K.MODIFIER_NONE true = some s₁ ∧
      proxy_set_route K hw s₁ u d K.MODIFIER_NONE false = some s₂ ∧
      (if d < K.DEVICE_MAIN_MIC then
        s₂.active_playback_ausage = K.AUSAGE_NONE ∧ s₂.active_playback_device = K.DEVICE_NONE
      else
        s₂.active_capture_ausage = K.AUSAGE_NONE ∧ s₂.active_capture_device = K.DEVICE_NONE) ∧
      route_ops s₂.trace = route_ops s.trace ++
        [.audio_route_apply_and_update_path p,
          .audio_route_apply_and_update_path (make_gain p),
          .audio_route_reset_and_update_path p,
          .audio_route_reset_and_update_path (make_gain p)] := by
  have hnm : ¬ K.MODIFIER_NONE < K.MODIFIER_BT_SCO_TX_NB := by omega
  by_cases hlt : d < K.DEVICE_MAIN_MIC
  · rw [if_pos hlt] at hside
    obtain ⟨hu, hdv, hm⟩ := hside
    have h1 := playback_route_step_fresh K (do_operations_by_playback_route_set K hw s u d)
      u d p (by simp [hu]) hd ((add_dual_path_congr (by simp) _).trans hp)
    have e1 := proxy_set_route_true_playback K hw s u d K.MODIFIER_NONE hlt
    rw [h1, Option.map_some'] at e1
    refine ⟨_, _, e1, proxy_set_route_false_some K hw _ u d _ p ?_, ?_, ?_⟩
    · exact (add_dual_path_congr (by simp) _).trans hp
    · simp [hlt]
    · simp [hlt, hm, playback_modifier_ops, hnm, Event.is_route_op]
  · rw [if_neg hlt] at hside
    obtain ⟨hu, hdv, hm⟩ := hside
    have h1 := capture_route_step_fresh K hw s u d p (Or.inl hu) hd hp
    have e1 := proxy_set_route_true_capture K hw s u d K.MODIFIER_NONE hlt
    rw [h1, Option.map_some'] at e1
    refine ⟨_, _, e1, proxy_set_route_false_some K hw _ u d _ p ?_, ?_, ?_⟩
    · exact (add_dual_path_congr (by simp) _).trans hp
    · simp [hlt]
    · simp [hlt, hm, capture_modifier_ops, Event.is_route_op]

/-- C1, witness of the amended statement: media on the speaker, from the
initial state of the sample instantiation. -/
theorem route_enable_then_disable_witness :
    (sampleDefs.MODIFIER_BT_SCO_TX_NB ≤ sampleDefs.MODIFIER_NONE ∧
      sampleDefs.DEVICE_SPEAKER ≠ sampleDefs.DEVICE_AUX_DIGITAL ∧
      add_dual_path (initial_proxy sampleDefs) (make_path sampleDefs 0 sampleDefs.DEVICE_SPEAKER)
        = some "media-speaker".toList) ∧
    ∃ s₁ s₂,
      proxy_set_route sampleDefs sampleHw (initial_proxy sampleDefs) 0 sampleDefs.DEVICE_SPEAKER
        sampleDefs.MODIFIER_NONE true = some s₁ ∧
      proxy_set_route sampleDefs sampleHw s₁ 0 sampleDefs.DEVICE_SPEAKER
        sampleDefs.MODIFIER_NONE false = some s₂ ∧
      (if sampleDefs.DEVICE_SPEAKER < sampleDefs.DEVICE_MAIN_MIC then
        s₂.active_playback_ausage = sampleDefs.AUSAGE_NONE ∧
          s₂.active_playback_device = sampleDefs.DEVICE_NONE
      else
        s₂.active_capture_ausage = sampleDefs.AUSAGE_NONE ∧
          s₂.active_capture_device = sampleDefs.DEVICE_NONE) ∧
      route_ops s₂.trace = route_ops (initial_proxy sampleDefs).trace ++
        [.audio_route_apply_and_update_path "media-speaker".toList,
          .audio_route_apply_and_update_path (make_gain "media-speaker".toList),
          .audio_route_reset_and_update_path "media-speaker".toList,
          .audio_route_reset_and_update_path (make_gain "media-speaker".toList)] :=
  ⟨⟨by decide, by decide, by decide⟩,
    route_enable_then_disable sampleDefs sampleHw (initial_proxy sampleDefs) 0
      sampleDefs.DEVICE_SPEAKER "media-speaker".toList (by decide) (by decide)
      ⟨rfl, rfl, rfl⟩ (by decide)⟩

/-- C1, counterexample: for the AUX digital output the enable call applies
nothing, so the pair of calls shows the route graph two resets and no apply of
the constructed path. -/
theorem route_enable_then_disable_aux_digital :
    ((proxy_set_route sampleDefs sampleHw (initial_proxy sampleDefs) 0
        sampleDefs.DEVICE_AUX_DIGITAL sampleDefs.MODIFIER_NONE true).bind
      (fun s₁ => proxy_set_route sampleDefs sampleHw s₁ 0
        sampleDefs.DEVICE_AUX_DIGITAL sampleDefs.MODIFIER_NONE false)).map
      (fun s₂ => route_ops s₂.trace)
    = some [.audio_route_reset_and_update_path "media-aux_digital".toList,
        .audio_route_reset_and_update_path "gain-media-aux_digital".toList] ∧
    make_path sampleDefs 0 sampleDefs.DEVICE_AUX_DIGITAL = "media-aux_digital".toList := by
  decide

theorem playback_route_step_reroute (K : Defs) (a : audio_proxy) (u d : Nat) (p₁ p₂ : CStr)
    (hact : a.active_playback_ausage ≠ K.AUSAGE_NONE ∧ a.active_playback_device ≠ K.DEVICE_NONE)
    (hd : d ≠ K.DEVICE_AUX_DIGITAL)
    (hp₁ : add_dual_path a (make_path K a.active_playback_ausage a.active_playback_device)
      = some p₁)
    (hp₂ : add_dual_path a (make_path K u d) = some p₂) :
    playback_route_step K a u d
      = some { disable_internal_path K a a.active_playback_device with
          trace := (disable_internal_path K a a.active_playback_device).trace ++
            [.rdlock, .audio_route_reset_path p₁, .audio_route_reset_path (make_gain p₁),
              .audio_route_apply_and_update_path p₂,
              .audio_route_apply_and_update_path (make_gain p₂),
              .audio_route_update_mixer, .unlock] } := by
  unfold playback_route_step
  rw [if_pos hact]
  exact set_reroute_some K _ _ _ u d p₁ p₂ hd
    ((add_dual_path_congr (by simp) _).trans hp₁) ((add_dual_path_congr (by simp) _).trans hp₂)

theorem playback_route_step_reroute_aux (K : Defs) (a : audio_proxy) (u : Nat) (p₁ : CStr)
    (hact : a.active_playback_ausage ≠ K.AUSAGE_NONE ∧ a.active_playback_device ≠ K.DEVICE_NONE)
    (hp₁ : add_dual_path a (make_path K a.active_playback_ausage a.active_playback_device)
      = some p₁) :
    playback_route_step K a u K.DEVICE_AUX_DIGITAL
      = some { disable_internal_path K a a.active_playback_device with
          trace := (disable_internal_path K a a.active_playback_device).trace ++
            [.rdlock, .audio_route_reset_path p₁, .audio_route_reset_path (make_gain p₁),
              .audio_route_update_mixer, .unlock] } := by
  unfold playback_route_step
  rw [if_pos hact]
  exact set_reroute_aux K _ _ _ u p₁ ((add_dual_path_congr (by simp) _).trans hp₁)

theorem capture_route_step_reroute (K : Defs) (hw : Hw) (a : audio_proxy) (u d : Nat)
    (p₁ p₂ : CStr)
    (hact : a.active_capture_ausage ≠ K.AUSAGE_NONE ∧ a.active_capture_device ≠ K.DEVICE_NONE)
    (hd : d ≠ K.DEVICE_AUX_DIGITAL)
    (hp₁ : add_dual_path a (make_path K a.active_capture_ausage a.active_capture_device)
      = some p₁)
    (hp₂ : add_dual_path a (make_path K u d) = some p₂) :
    capture_route_step K hw a u d
      = some { disable_internal_path K a a.active_capture_device with
          trace := (disable_internal_path K a a.active_capture_device).trace ++
            [.rdlock, .audio_route_reset_path p₁, .audio_route_reset_path (make_gain p₁),
              .audio_route_apply_and_update_path p₂,
              .audio_route_apply_and_update_path (make_gain p₂),
              .audio_route_update_mixer, .unlock] } := by
  unfold capture_route_step
  rw [if_pos hact]
  exact set_reroute_some K _ _ _ u d p₁ p₂ hd
    ((add_dual_path_congr (by simp) _).trans hp₁) ((add_dual_path_congr (by simp) _).trans hp₂)

/-- C2 (amended): when the side of the routed device already has an active
pair and the new device is not the AUX digital output, the enable call
returns, the route graph first sees the reset of the old path and of its gain,
then the apply of the new path and of its gain, then one mixer update (the
calls of the modifier step follow), and the side's active pair is the new one. -/
theorem reroute_resets_before_apply (K : Defs) (hw : Hw) (s : audio_proxy) (u₂ d₂ m : Nat)
    (p₁ p₂ : CStr)
    (hd : d₂ ≠ K.DEVICE_AUX_DIGITAL)
    (hact : if d₂ < K.DEVICE_MAIN_MIC then
        s.active_playback_ausage ≠ K.AUSAGE_NONE ∧ s.active_playback_device ≠ K.DEVICE_NONE
      else
        s.active_capture_ausage ≠ K.AUSAGE_NONE ∧ s.active_capture_device ≠ K.DEVICE_NONE)
    (hp₁ : add_dual_path s
        (if d₂ < K.DEVICE_MAIN_MIC then
          make_path K s.active_playback_ausage s.active_playback_device
        else make_path K s.active_capture_ausage s.active_capture_device) = some p₁)
    (hp₂ : add_dual_path s (make_path K u₂ d₂) = some p₂) :
    ∃ s', proxy_set_route K hw s u₂ d₂ m true = some s' ∧
      (if d₂ < K.DEVICE_MAIN_MIC then
        s'.active_playback_ausage = u₂ ∧ s'.active_playback_device = d₂
      else
        s'.active_capture_ausage = u₂ ∧ s'.active_capture_device = d₂) ∧
      route_ops s'.trace = route_ops s.trace ++
        [.audio_route_reset_path p₁, .audio_route_reset_path (make_gain p₁),
          .audio_route_apply_and_update_path p₂,
          .audio_route_apply_and_update_path (make_gain p₂),
          .audio_route_update_mixer] ++
        (if d₂ < K.DEVICE_MAIN_MIC then playback_modifier_ops K m s.active_playback_modifier
         else capture_modifier_ops K m s.active_capture_modifier) := by
  by_cases hlt : d₂ < K.DEVICE_MAIN_MIC
  · rw [if_pos hlt] at hact hp₁
    have h1 := playback_route_step_reroute K (do_operations_by_playback_route_set K hw s u₂ d₂)
      u₂ d₂ p₁ p₂ (by simpa using hact) hd
      (by rw [add_dual_path_congr (s := s) (by simp)]; simpa using hp₁)
      ((add_dual_path_congr (by simp) _).trans hp₂)
    have e1 := proxy_set_route_true_playback K hw s u₂ d₂ m hlt
    rw [h1, Option.map_some'] at e1
    refine ⟨_, e1, ?_, ?_⟩
    · simp [hlt]
    · simp [hlt, Event.is_route_op]
  · rw [if_neg hlt] at hact hp₁
    have h1 := capture_route_step_reroute K hw s u₂ d₂ p₁ p₂ hact hd hp₁ hp₂
    have e1 := proxy_set_route_true_capture K hw s u₂ d₂ m hlt
    rw [h1, Option.map_some'] at e1
    refine ⟨_, e1, ?_, ?_⟩
    · simp [hlt]
    · simp [hlt, Event.is_route_op]

/-- C2, witness of the amended statement: media is rerouted from the speaker
to the BT headset. -/
theorem reroute_resets_before_apply_witness :
    (sampleDefs.DEVICE_BT_HEADSET ≠ sampleDefs.DEVICE_AUX_DIGITAL ∧
      add_dual_path (initial_proxy sampleDefs) (make_path sampleDefs 0 sampleDefs.DEVICE_SPEAKER)
        = some "media-speaker".toList ∧
      add_dual_path (initial_proxy sampleDefs)
        (make_path sampleDefs 0 sampleDefs.DEVICE_BT_HEADSET) = some "media-bt_headset".toList) ∧
    ∃ s', proxy_set_route sampleDefs sampleHw
        { initial_proxy sampleDefs with
          active_playback_ausage := 0, active_playback_device := sampleDefs.DEVICE_SPEAKER }
        0 sampleDefs.DEVICE_BT_HEADSET sampleDefs.MODIFIER_NONE true = some s' ∧
      (if sampleDefs.DEVICE_BT_HEADSET < sampleDefs.DEVICE_MAIN_MIC then
        s'.active_playback_ausage = 0 ∧ s'.active_playback_device = sampleDefs.DEVICE_BT_HEADSET
      else
        s'.active_capture_ausage = 0 ∧ s'.active_capture_device = sampleDefs.DEVICE_BT_HEADSET) ∧
      route_ops s'.trace = route_ops (initial_proxy sampleDefs).trace ++
        [.audio_route_reset_path "media-speaker".toList,
          .audio_route_reset_path (make_gain "media-speaker".toList),
          .audio_route_apply_and_update_path "media-bt_headset".toList,
          .audio_route_apply_and_update_path (make_gain "media-bt_headset".toList),
          .audio_route_update_mixer] ++
        (if sampleDefs.DEVICE_BT_HEADSET < sampleDefs.DEVICE_MAIN_MIC then
          playback_modifier_ops sampleDefs sampleDefs.MODIFIER_NONE sampleDefs.MODIFIER_NONE
         else capture_modifier_ops sampleDefs sampleDefs.MODIFIER_NONE
          sampleDefs.MODIFIER_NONE) :=
  ⟨⟨by decide, by decide, by decide⟩,
    reroute_resets_before_apply sampleDefs sampleHw
      { initial_proxy sampleDefs with
        active_playback_ausage := 0, active_playback_device := sampleDefs.DEVICE_SPEAKER }
      0 sampleDefs.DEVICE_BT_HEADSET sampleDefs.MODIFIER_NONE
      "media-speaker".toList "media-bt_headset".toList (by decide) (by decide) (by decide)
      (by decide)⟩

/-- C2, counterexample: with media active on the speaker, rerouting to the AUX
digital output resets the old path and updates the mixer but applies no path
for the new pair, which is nevertheless recorded as active. -/
theorem reroute_to_aux_digital_applies_nothing :
    ((proxy_set_route sampleDefs sampleHw (initial_proxy sampleDefs) 0
        sampleDefs.DEVICE_SPEAKER sampleDefs.MODIFIER_NONE true).bind
      (fun s => proxy_set_route sampleDefs sampleHw s 0
        sampleDefs.DEVICE_AUX_DIGITAL sampleDefs.MODIFIER_NONE true)).map
      (fun s' => (route_ops s'.trace, s'.active_playback_ausage, s'.active_playback_device))
    = some ([.audio_route_apply_and_update_path "media-speaker".toList,
        .audio_route_apply_and_update_path "gain-media-speaker".toList,
        .audio_route_reset_path "media-speaker".toList,
        .audio_route_reset_path "gain-media-speaker".toList,
        .audio_route_update_mixer], 0, sampleDefs.DEVICE_AUX_DIGITAL) := by
  decide

/-! ## Internal path rules -/

theorem is_call_usage_iff (K : Defs) (a : audio_proxy) :
    (is_active_usage_CPCall K a || is_active_usage_APCall K a) = true
      ↔ is_call_usage K a.active_playback_ausage := by
  simp [is_active_usage_CPCall, is_active_usage_APCall, is_call_usage]

theorem is_loopback_usage_iff (K : Defs) (u : Nat) :
    is_usage_Loopback K u = true ↔ is_loopback_usage K u := by
  simp [is_usage_Loopback, is_loopback_usage]

theorem is_call_usage_congr (K : Defs) {a b : audio_proxy}
    (h : b.active_playback_ausage = a.active_playback_ausage) :
    (is_active_usage_CPCall K b || is_active_usage_APCall K b)
      = (is_active_usage_CPCall K a || is_active_usage_APCall K a) := by
  simp [is_active_usage_CPCall, is_active_usage_APCall, h]

/-- C4: for every target device, audio mode and active playback usage,
`enable_internal_path` does exactly what enabling the side channels of the rule
table does, in the order spkamp playback, spkamp reference, btsco playback,
erap-in: speaker variants get the spkamp pair and erap-in; the BT headset gets
btsco playback and erap-in, and the spkamp pair when combined with the speaker;
headset, headphone, earpiece, call-fwd and spectro get the spkamp pair only for
the earpiece outside in-call mode and erap-in only for a CP or AP call usage
or a loopback usage on the earpiece; every other device gets nothing. -/
theorem enable_internal_path_follows_rule_table (K : Defs) (hw : Hw) (s : audio_proxy)
    (d : Nat) (hdis : classes_disjoint K) :
    enable_internal_path K hw s d
      = (rule_nodes K s.audio_mode s.active_playback_ausage d).foldl
          (fun a n => enable_node hw n a) s := by
  obtain ⟨hsb, hsw, hbw⟩ := hdis
  have hpair : (is_active_usage_CPCall K
        (enable_spkamp_reference hw (enable_spkamp_playback hw s)) ||
      is_active_usage_APCall K (enable_spkamp_reference hw (enable_spkamp_playback hw s)))
      = (is_active_usage_CPCall K s || is_active_usage_APCall K s) :=
    is_call_usage_congr K (((sameRouting_enable_spkamp_playback hw s).trans
      (sameRouting_enable_spkamp_reference hw _)).playback_ausage)
  have hpu : (enable_spkamp_reference hw (enable_spkamp_playback hw s)).active_playback_ausage
      = s.active_playback_ausage :=
    ((sameRouting_enable_spkamp_playback hw s).trans
      (sameRouting_enable_spkamp_reference hw _)).playback_ausage
  by_cases hs : is_speaker_class K d
  · have hnb := hsb d hs
    have hrs : rule_spkamp K s.audio_mode d := Or.inl hs
    have hre : rule_erap_in K s.active_playback_ausage d := Or.inl hs
    have hs' := hs
    unfold is_speaker_class at hs'
    unfold enable_internal_path
    rw [if_pos hs']
    simp [rule_nodes, hrs, hre, rule_btsco, hnb, enable_node]
  · by_cases hb : is_bt_class K d
    · have hnw := hbw d hb
      have hre : rule_erap_in K s.active_playback_ausage d := Or.inr (Or.inl hb)
      have hs' := hs
      have hb' := hb
      unfold is_speaker_class at hs'
      unfold is_bt_class at hb'
      unfold enable_internal_path
      rw [if_neg hs', if_pos hb']
      by_cases hsb' : d = K.DEVICE_SPEAKER_AND_BT_HEADSET
      · have hrs : rule_spkamp K s.audio_mode d := Or.inr (Or.inl hsb')
        simp only [if_pos hsb']
        simp [rule_nodes, hrs, hre, rule_btsco, hb, enable_node]
      · have hne : d ≠ K.DEVICE_EARPIECE := by
          intro he
          exact hnw (Or.inr (Or.inr (Or.inl he)))
        have hrs : ¬ rule_spkamp K s.audio_mode d := by
          unfold rule_spkamp
          tauto
        simp only [if_neg hsb']
        simp [rule_nodes, hrs, hre, rule_btsco, hb, enable_node]
    · have hs' := hs
      have hb' := hb
      unfold is_speaker_class at hs'
      unfold is_bt_class at hb'
      have hnsb : d ≠ K.DEVICE_SPEAKER_AND_BT_HEADSET := fun h => hb (Or.inr h)
      unfold enable_internal_path
      rw [if_neg hs', if_neg hb']
      by_cases hw' : is_wired_class K d
      · have hw'' := hw'
        unfold is_wired_class at hw''
        rw [if_pos hw'']
        by_cases hsp : s.audio_mode ≠ AUDIO_MODE_IN_CALL ∧ d = K.DEVICE_EARPIECE
        · have hrs : rule_spkamp K s.audio_mode d := Or.inr (Or.inr ⟨hsp.2, hsp.1⟩)
          simp only [if_pos hsp, hpair, hpu]
          by_cases hc : is_call_usage K s.active_playback_ausage
          · have hre : rule_erap_in K s.active_playback_ausage d :=
              Or.inr (Or.inr ⟨hw', Or.inl hc⟩)
            rw [if_pos ((is_call_usage_iff K s).mpr hc)]
            simp [rule_nodes, hrs, hre, rule_btsco, hb, enable_node]
          · rw [if_neg (fun h => hc ((is_call_usage_iff K s).mp h))]
            by_cases hl : is_loopback_usage K s.active_playback_ausage
            · have hre : rule_erap_in K s.active_playback_ausage d :=
                Or.inr (Or.inr ⟨hw', Or.inr ⟨hl, hsp.2⟩⟩)
              rw [if_pos (by simp [(is_loopback_usage_iff K _).mpr hl, hsp.2])]
              simp [rule_nodes, hrs, hre, rule_btsco, hb, enable_node]
            · have hre : ¬ rule_erap_in K s.active_playback_ausage d := by
                unfold rule_erap_in
                tauto
              rw [if_neg (by
                intro h
                simp only [Bool.and_eq_true, decide_eq_true_eq] at h
                exact hl ((is_loopback_usage_iff K _).mp h.1))]
              simp [rule_nodes, hrs, hre, rule_btsco, hb, enable_node]
        · have hrs : ¬ rule_spkamp K s.audio_mode d := by
            unfold rule_spkamp
            tauto
          simp only [if_neg hsp]
          by_cases hc : is_call_usage K s.active_playback_ausage
          · have hre : rule_erap_in K s.active_playback_ausage d :=
              Or.inr (Or.inr ⟨hw', Or.inl hc⟩)
            rw [if_pos ((is_call_usage_iff K s).mpr hc)]
            simp [rule_nodes, hrs, hre, rule_btsco, hb, enable_node]
          · rw [if_neg (fun h => hc ((is_call_usage_iff K s).mp h))]
            by_cases hl : is_loopback_usage K s.active_playback_ausage ∧ d = K.DEVICE_EARPIECE
            · have hre : rule_erap_in K s.active_playback_ausage d :=
                Or.inr (Or.inr ⟨hw', Or.inr hl⟩)
              rw [if_pos (by simp [(is_loopback_usage_iff K _).mpr hl.1, hl.2])]
              simp [rule_nodes, hrs, hre, rule_btsco, hb, enable_node]
            · have hre : ¬ rule_erap_in K s.active_playback_ausage d := by
                unfold rule_erap_in
                tauto
              rw [if_neg (by
                intro h
                simp only [Bool.and_eq_true, decide_eq_true_eq] at h
                exact hl ⟨(is_loopback_usage_iff K _).mp h.1, h.2⟩)]
              simp [rule_nodes, hrs, hre, rule_btsco, hb, enable_node]
      · have hw'' := hw'
        unfold is_wired_class at hw''
        rw [if_neg hw'']
        have hne : d ≠ K.DEVICE_EARPIECE := fun he => hw' (Or.inr (Or.inr (Or.inl he)))
        have hrs : ¬ rule_spkamp K s.audio_mode d := by
          unfold rule_spkamp
          tauto
        have hre : ¬ rule_erap_in K s.active_playback_ausage d := by
          unfold rule_erap_in
          tauto
        simp [rule_nodes, hrs, hre, rule_btsco, hb]

theorem probe_call_usage (K : Defs) (mode : Int) (u : Nat) (o : Bool) :
    (is_active_usage_CPCall K (probe_proxy K mode u o) ||
      is_active_usage_APCall K (probe_proxy K mode u o)) = decide (is_call_usage K u) := by
  simp [is_active_usage_CPCall, is_active_usage_APCall, is_call_usage, probe_proxy]

theorem disable_first_branch_iff (K : Defs) (d : Nat) :
    (d = K.DEVICE_SPEAKER ∨ d = K.DEVICE_SPEAKER2 ∨ d = K.DEVICE_SPEAKER_DUAL ∨
      d = K.DEVICE_EARPIECE ∨ d = K.DEVICE_SPEAKER_DEX ∨ d = K.DEVICE_SPEAKER_AND_HEADSET ∨
      d = K.DEVICE_SPEAKER_AND_HEADPHONE) ↔ (is_speaker_class K d ∨ d = K.DEVICE_EARPIECE) := by
  unfold is_speaker_class
  tauto

theorem handle_pcm_stop_close (n m : pcm_node) (a : audio_proxy)
    (h : (pcm_stop_close n a).handle m = true) : a.handle m = true := by
  unfold pcm_stop_close at h
  split at h
  · simp only [audio_proxy.set_handle, audio_proxy.emit] at h
    split at h
    · exact absurd h (by simp)
    · exact h
  · exact h

theorem handle_enable_erap_in (hw : Hw) (m : pcm_node) (a : audio_proxy)
    (h : (enable_erap_in hw a).handle m = true) : a.handle m = true ∨ m = .erap_in := by
  unfold enable_erap_in at h
  split at h
  · unfold pcm_open_start at h
    by_cases hmn : m = .erap_in
    · exact Or.inr hmn
    · left
      split at h
      · exact h
      · dsimp only at h
        split at h
        · unfold disable_erap_in at h
          split at h
          · have := handle_pcm_stop_close _ m _ h
            simpa [audio_proxy.set_handle, audio_proxy.emit, hmn] using this
          · simpa [audio_proxy.set_handle, audio_proxy.emit, hmn] using h
        · split at h
          · simpa [audio_proxy.set_handle, audio_proxy.emit, hmn] using h
          · unfold disable_erap_in at h
            split at h
            · have := handle_pcm_stop_close _ m _ h
              simpa [audio_proxy.set_handle, audio_proxy.emit, hmn] using this
            · simpa [audio_proxy.set_handle, audio_proxy.emit, hmn] using h
  · exact Or.inl h

theorem handle_enable_spkamp_reference (hw : Hw) (m : pcm_node) (a : audio_proxy)
    (h : (enable_spkamp_reference hw a).handle m = true) :
    a.handle m = true ∨ m = .spkamp_reference := by
  unfold enable_spkamp_reference at h
  split at h
  · unfold pcm_open_start at h
    by_cases hmn : m = .spkamp_reference
    · exact Or.inr hmn
    · left
      split at h
      · exact h
      · dsimp only at h
        split at h
        · unfold disable_spkamp_reference at h
          split at h
          · have := handle_pcm_stop_close _ m _ h
            simpa [audio_proxy.set_handle, audio_proxy.emit, hmn] using this
          · simpa [audio_proxy.set_handle, audio_proxy.emit, hmn] using h
        · split at h
          · simpa [audio_proxy.set_handle, audio_proxy.emit, hmn] using h
          · unfold disable_spkamp_reference at h
            split at h
            · have := handle_pcm_stop_close _ m _ h
              simpa [audio_proxy.set_handle, audio_proxy.emit, hmn] using this
            · simpa [audio_proxy.set_handle, audio_proxy.emit, hmn] using h
  · exact Or.inl h

theorem handle_enable_spkamp_playback (hw : Hw) (m : pcm_node) (a : audio_proxy)
    (h : (enable_spkamp_playback hw a).handle m = true) :
    a.handle m = true ∨ m = .spkamp_playback := by
  unfold enable_spkamp_playback at h
  split at h
  · unfold pcm_open_start at h
    by_cases hmn : m = .spkamp_playback
    · exact Or.inr hmn
    · left
      split at h
      · exact h
      · dsimp only at h
        split at h
        · unfold disable_spkamp_playback at h
          split at h
          · have := handle_pcm_stop_close _ m _ h
            simpa [audio_proxy.set_handle, audio_proxy.emit, hmn] using this
          · simpa [audio_proxy.set_handle, audio_proxy.emit, hmn] using h
        · split at h
          · simpa [audio_proxy.set_handle, audio_proxy.emit, hmn] using h
          · unfold disable_spkamp_playback at h
            split at h
            · have := handle_pcm_stop_close _ m _ h
              simpa [audio_proxy.set_handle, audio_proxy.emit, hmn] using this
            · simpa [audio_proxy.set_handle, audio_proxy.emit, hmn] using h
  · exact Or.inl h

/-- Outside the BT headset class `enable_internal_path` opens no node other
than erap-in and the spkamp pair. -/
theorem enable_internal_path_opens (K : Defs) (hw : Hw) (s : audio_proxy) (d : Nat)
    (n : pcm_node) (hb : ¬ is_bt_class K d)
    (h : (enable_internal_path K hw s d).handle n = true) :
    s.handle n = true ∨ n = .erap_in ∨ n = .spkamp_reference ∨ n = .spkamp_playback := by
  have pair : ∀ a : audio_proxy,
      (enable_spkamp_reference hw (enable_spkamp_playback hw a)).handle n = true →
      a.handle n = true ∨ n = .erap_in ∨ n = .spkamp_reference ∨ n = .spkamp_playback := by
    intro a ha
    rcases handle_enable_spkamp_reference hw n _ ha with h1 | h1
    · rcases handle_enable_spkamp_playback hw n _ h1 with h2 | h2
      · exact Or.inl h2
      · exact Or.inr (Or.inr (Or.inr h2))
    · exact Or.inr (Or.inr (Or.inl h1))
  have erap : ∀ a : audio_proxy, (enable_erap_in hw a).handle n = true →
      (a.handle n = true →
        s.handle n = true ∨ n = .erap_in ∨ n = .spkamp_reference ∨ n = .spkamp_playback) →
      s.handle n = true ∨ n = .erap_in ∨ n = .spkamp_reference ∨ n = .spkamp_playback := by
    intro a ha hk
    rcases handle_enable_erap_in hw n _ ha with h1 | h1
    · exact hk h1
    · exact Or.inr (Or.inl h1)
  unfold is_bt_class at hb
  unfold enable_internal_path at h
  split at h
  · exact erap _ h (pair s)
  · split at h
    · dsimp only at h
      split at h
      · split at h
        · exact erap _ h (pair s)
        · split at h
          · exact erap _ h (pair s)
          · exact pair s h
      · split at h
        · exact erap _ h Or.inl
        · split at h
          · exact erap _ h Or.inl
          · exact Or.inl h
    · exact Or.inl h

/-- C3 (amended): for every audio mode, active usage and device other than
the earpiece, the set of side channels `enable_internal_path` enables equals
the set `disable_internal_path` disables; for the earpiece
`disable_internal_path` disables erap-in, spkamp reference and spkamp playback
whatever the mode and usage, a set that contains the enabled one. -/
theorem enable_disable_sets (K : Defs) (mode : Int) (u d : Nat) (n : pcm_node)
    (hdis : classes_disjoint K) :
    (d ≠ K.DEVICE_EARPIECE → enabled_nodes K mode u d n = disabled_nodes K mode u d n) ∧
    (d = K.DEVICE_EARPIECE →
      disabled_nodes K mode u d n
        = decide (n = .erap_in ∨ n = .spkamp_reference ∨ n = .spkamp_playback) ∧
      (enabled_nodes K mode u d n = true → disabled_nodes K mode u d n = true)) := by
  obtain ⟨hsb, hsw, hbw⟩ := hdis
  constructor
  · intro hne
    by_cases hs : is_speaker_class K d
    · have h1 := (disable_first_branch_iff K d).mpr (Or.inl hs)
      unfold is_speaker_class at hs
      unfold enabled_nodes disabled_nodes enable_internal_path disable_internal_path
      rw [if_pos hs, if_pos h1]
      simp [probe_proxy, enable_erap_in, enable_spkamp_reference, enable_spkamp_playback,
        disable_erap_in, disable_spkamp_reference, disable_spkamp_playback,
        pcm_open_start, pcm_stop_close, sampleHw, audio_proxy.emit, audio_proxy.set_handle]
      cases n <;> simp
    · have h1 : ¬ (d = K.DEVICE_SPEAKER ∨ d = K.DEVICE_SPEAKER2 ∨ d = K.DEVICE_SPEAKER_DUAL ∨
          d = K.DEVICE_EARPIECE ∨ d = K.DEVICE_SPEAKER_DEX ∨
          d = K.DEVICE_SPEAKER_AND_HEADSET ∨ d = K.DEVICE_SPEAKER_AND_HEADPHONE) := by
        rw [disable_first_branch_iff]
        tauto
      unfold is_speaker_class at hs
      unfold enabled_nodes disabled_nodes enable_internal_path disable_internal_path
      rw [if_neg hs, if_neg h1]
      by_cases hb : d = K.DEVICE_BT_HEADSET ∨ d = K.DEVICE_SPEAKER_AND_BT_HEADSET
      · rw [if_pos hb, if_pos hb]
        by_cases hsb' : d = K.DEVICE_SPEAKER_AND_BT_HEADSET
        · simp [hsb', probe_proxy, enable_erap_in, enable_spkamp_reference,
            enable_spkamp_playback, enable_btsco_playback, disable_btsco_playback,
            disable_erap_in, disable_spkamp_reference, disable_spkamp_playback,
            pcm_open_start, pcm_stop_close, sampleHw, audio_proxy.emit,
            audio_proxy.set_handle]
          cases n <;> simp
        · simp [hsb', probe_proxy, enable_erap_in, enable_spkamp_reference,
            enable_spkamp_playback, enable_btsco_playback, disable_btsco_playback,
            disable_erap_in, disable_spkamp_reference, disable_spkamp_playback,
            pcm_open_start, pcm_stop_close, sampleHw, audio_proxy.emit,
            audio_proxy.set_handle]
          cases n <;> simp
      · rw [if_neg hb, if_neg hb]
        by_cases hw' : d = K.DEVICE_HEADSET ∨ d = K.DEVICE_HEADPHONE ∨
            d = K.DEVICE_EARPIECE ∨ d = K.DEVICE_CALL_FWD ∨ d = K.DEVICE_SPECTRO
        · rw [if_pos hw', if_pos hw']
          simp only [hne, and_false, if_false, decide_False, Bool.and_false,
            probe_call_usage, Bool.false_eq_true]
          by_cases hc : is_call_usage K u
          · simp [hc, probe_proxy, enable_erap_in, disable_erap_in, pcm_open_start,
              pcm_stop_close, sampleHw, audio_proxy.emit, audio_proxy.set_handle]
          · simp [hc, probe_proxy]
        · rw [if_neg hw', if_neg hw']
          simp [probe_proxy]
  · intro he
    have hwc : is_wired_class K d := Or.inr (Or.inr (Or.inl he))
    have hs : ¬ is_speaker_class K d := fun h => hsw d h hwc
    have hb : ¬ is_bt_class K d := fun h => hbw d h hwc
    have h1 := (disable_first_branch_iff K d).mpr (Or.inr he)
    have hdisabled : disabled_nodes K mode u d n
        = decide (n = .erap_in ∨ n = .spkamp_reference ∨ n = .spkamp_playback) := by
      unfold disabled_nodes disable_internal_path
      rw [if_pos h1]
      simp [probe_proxy, disable_erap_in, disable_spkamp_reference, disable_spkamp_playback,
        pcm_stop_close, audio_proxy.emit, audio_proxy.set_handle]
      cases n <;> simp
    refine ⟨hdisabled, ?_⟩
    rw [hdisabled]
    intro hen
    have h := enable_internal_path_opens K sampleHw (probe_proxy K mode u false) d n hb hen
    simpa [probe_proxy] using h

theorem sample_classes_disjoint : classes_disjoint sampleDefs := by
  refine ⟨?_, ?_, ?_⟩ <;> intro d h h' <;>
    simp only [is_speaker_class, is_bt_class, is_wired_class, sampleDefs] at h h' <;> omega

/-- C3, witness of the amended statement: the speaker with the media usage. -/
theorem enable_disable_sets_witness :
    classes_disjoint sampleDefs ∧
    ((sampleDefs.DEVICE_SPEAKER ≠ sampleDefs.DEVICE_EARPIECE →
      enabled_nodes sampleDefs 0 0 sampleDefs.DEVICE_SPEAKER .erap_in
        = disabled_nodes sampleDefs 0 0 sampleDefs.DEVICE_SPEAKER .erap_in) ∧
     (sampleDefs.DEVICE_SPEAKER = sampleDefs.DEVICE_EARPIECE →
      disabled_nodes sampleDefs 0 0 sampleDefs.DEVICE_SPEAKER .erap_in
        = decide (pcm_node.erap_in = .erap_in ∨ pcm_node.erap_in = .spkamp_reference ∨
            pcm_node.erap_in = .spkamp_playback) ∧
      (enabled_nodes sampleDefs 0 0 sampleDefs.DEVICE_SPEAKER .erap_in = true →
        disabled_nodes sampleDefs 0 0 sampleDefs.DEVICE_SPEAKER .erap_in = true))) :=
  ⟨sample_classes_disjoint,
    enable_disable_sets sampleDefs 0 0 sampleDefs.DEVICE_SPEAKER .erap_in
      sample_classes_disjoint⟩

/-- C3, counterexample: for the earpiece the two sets differ. With the media
usage in normal mode erap-in is disabled but not enabled; in in-call mode the
spkamp playback node is disabled but not enabled. -/
theorem earpiece_enable_disable_sets_differ :
    (enabled_nodes sampleDefs 0 0 sampleDefs.DEVICE_EARPIECE .erap_in = false ∧
      disabled_nodes sampleDefs 0 0 sampleDefs.DEVICE_EARPIECE .erap_in = true) ∧
    (enabled_nodes sampleDefs AUDIO_MODE_IN_CALL 0 sampleDefs.DEVICE_EARPIECE .spkamp_playback
        = false ∧
      disabled_nodes sampleDefs AUDIO_MODE_IN_CALL 0 sampleDefs.DEVICE_EARPIECE
        .spkamp_playback = true) := by
  decide

/-- C4, witness: the speaker in normal mode with the media usage gets spkamp
playback, spkamp reference and erap-in. -/
theorem enable_internal_path_follows_rule_table_witness :
    classes_disjoint sampleDefs ∧
    rule_nodes sampleDefs 0 sampleDefs.AUSAGE_NONE sampleDefs.DEVICE_SPEAKER
      = [.spkamp_playback, .spkamp_reference, .erap_in] ∧
    enable_internal_path sampleDefs sampleHw (initial_proxy sampleDefs) sampleDefs.DEVICE_SPEAKER
      = (rule_nodes sampleDefs (initial_proxy sampleDefs).audio_mode
          (initial_proxy sampleDefs).active_playback_ausage sampleDefs.DEVICE_SPEAKER).foldl
          (fun a n => enable_node sampleHw n a) (initial_proxy sampleDefs) :=
  ⟨sample_classes_disjoint, by decide,
    enable_internal_path_follows_rule_table sampleDefs sampleHw (initial_proxy sampleDefs)
      sampleDefs.DEVICE_SPEAKER sample_classes_disjoint⟩

/-! ## Disabling a route -/

/-- C5 (amended): a disable call returns, and what it disables and resets is
taken from its arguments, whatever the side's active state is: the handles are
those `disable_internal_path` leaves for the call's device, the modifier reset
is the call's modifier (none is reset when the call's modifier is none), and
the path reset is the one built from the call's usage and device, with its
gain. Afterwards the usage and device of the device's side are none, and so is
its modifier when the call's modifier is none or belongs to that side. -/
theorem disable_uses_call_arguments (K : Defs) (hw : Hw) (s : audio_proxy) (u d m : Nat)
    (p : CStr) (hp : add_dual_path s (make_path K u d) = some p) :
    ∃ s', proxy_set_route K hw s u d m false = some s' ∧
      s'.handle = (disable_internal_path K s d).handle ∧
      route_ops s'.trace = route_ops s.trace ++
        (if m ≠ K.MODIFIER_NONE then
          [.audio_route_reset_and_update_path (K.modifier_table m)] else []) ++
        [.audio_route_reset_and_update_path p,
          .audio_route_reset_and_update_path (make_gain p)] ∧
      (if d < K.DEVICE_MAIN_MIC then
        s'.active_playback_ausage = K.AUSAGE_NONE ∧
        s'.active_playback_device = K.DEVICE_NONE ∧
        (m = K.MODIFIER_NONE ∨ m < K.MODIFIER_BT_SCO_TX_NB →
          s'.active_playback_modifier = K.MODIFIER_NONE)
      else
        s'.active_capture_ausage = K.AUSAGE_NONE ∧
        s'.active_capture_device = K.DEVICE_NONE ∧
        (m = K.MODIFIER_NONE ∨ ¬ m < K.MODIFIER_BT_SCO_TX_NB →
          s'.active_capture_modifier = K.MODIFIER_NONE)) := by
  refine ⟨_, proxy_set_route_false_some K hw s u d m p hp, ?_, ?_, ?_⟩
  · simp
  · simp [Event.is_route_op]
  · by_cases hlt : d < K.DEVICE_MAIN_MIC
    · simp only [hlt, if_true, disable_finish_fields, disable_modifier_step_fields, true_and]
      intro h
      rcases h with h | h
      · simp [h]
      · simp [h]
    · simp only [hlt, if_false, disable_finish_fields, disable_modifier_step_fields, true_and]
      intro h
      rcases h with h | h
      · simp [h]
      · simp [h]

/-- C5, witness of the amended statement: media on the speaker is disabled. -/
theorem disable_uses_call_arguments_witness :
    add_dual_path
        { initial_proxy sampleDefs with
          active_playback_ausage := 0, active_playback_device := sampleDefs.DEVICE_SPEAKER }
        (make_path sampleDefs 0 sampleDefs.DEVICE_SPEAKER) = some "media-speaker".toList ∧
    ∃ s', proxy_set_route sampleDefs sampleHw
          { initial_proxy sampleDefs with
            active_playback_ausage := 0, active_playback_device := sampleDefs.DEVICE_SPEAKER }
          0 sampleDefs.DEVICE_SPEAKER sampleDefs.MODIFIER_NONE false = some s' ∧
      s'.handle = (disable_internal_path sampleDefs
          { initial_proxy sampleDefs with
            active_playback_ausage := 0, active_playback_device := sampleDefs.DEVICE_SPEAKER }
          sampleDefs.DEVICE_SPEAKER).handle ∧
      route_ops s'.trace = route_ops (initial_proxy sampleDefs).trace ++
        (if sampleDefs.MODIFIER_NONE ≠ sampleDefs.MODIFIER_NONE then
          [.audio_route_reset_and_update_path
            (sampleDefs.modifier_table sampleDefs.MODIFIER_NONE)] else []) ++
        [.audio_route_reset_and_update_path "media-speaker".toList,
          .audio_route_reset_and_update_path (make_gain "media-speaker".toList)] ∧
      (if sampleDefs.DEVICE_SPEAKER < sampleDefs.DEVICE_MAIN_MIC then
        s'.active_playback_ausage = sampleDefs.AUSAGE_NONE ∧
        s'.active_playback_device = sampleDefs.DEVICE_NONE ∧
        (sampleDefs.MODIFIER_NONE = sampleDefs.MODIFIER_NONE ∨
            sampleDefs.MODIFIER_NONE < sampleDefs.MODIFIER_BT_SCO_TX_NB →
          s'.active_playback_modifier = sampleDefs.MODIFIER_NONE)
      else
        s'.active_capture_ausage = sampleDefs.AUSAGE_NONE ∧
        s'.active_capture_device = sampleDefs.DEVICE_NONE ∧
        (sampleDefs.MODIFIER_NONE = sampleDefs.MODIFIER_NONE ∨
            ¬ sampleDefs.MODIFIER_NONE < sampleDefs.MODIFIER_BT_SCO_TX_NB →
          s'.active_capture_modifier = sampleDefs.MODIFIER_NONE)) :=
  ⟨by decide,
    disable_uses_call_arguments sampleDefs sampleHw
      { initial_proxy sampleDefs with
        active_playback_ausage := 0, active_playback_device := sampleDefs.DEVICE_SPEAKER }
      0 sampleDefs.DEVICE_SPEAKER sampleDefs.MODIFIER_NONE "media-speaker".toList (by decide)⟩

/-- C5, counterexample: with media active on the speaker, a disable call that
names the headset resets the headset path, not the active speaker path, and
leaves the speaker's side channels open, yet clears the playback state. -/
theorem disable_other_device_keeps_active_path :
    ((proxy_set_route sampleDefs sampleHw (initial_proxy sampleDefs) 0
        sampleDefs.DEVICE_SPEAKER sampleDefs.MODIFIER_NONE true).bind
      (fun s => proxy_set_route sampleDefs sampleHw s 0
        sampleDefs.DEVICE_HEADSET sampleDefs.MODIFIER_NONE false)).map
      (fun s' => (route_ops s'.trace, s'.handle .spkamp_playback, s'.handle .erap_in,
        s'.active_playback_ausage, s'.active_playback_device))
    = some ([.audio_route_apply_and_update_path "media-speaker".toList,
        .audio_route_apply_and_update_path "gain-media-speaker".toList,
        .audio_route_reset_and_update_path "media-headset".toList,
        .audio_route_reset_and_update_path "gain-media-headset".toList],
        true, true, sampleDefs.AUSAGE_NONE, sampleDefs.DEVICE_NONE) := by
  decide

/-- C6, the code at the failing input: a capture route with the BT-SCO
narrowband TX modifier is active; a playback route is enabled and disabled
again with modifier none. The disable call sets the capture side's recorded
modifier to none although the capture modifier path was never reset and is
still applied on the mixer. -/
theorem disable_playback_clears_capture_modifier :
    (((proxy_set_route sampleDefs sampleHw (initial_proxy sampleDefs) 13
        sampleDefs.DEVICE_MAIN_MIC sampleDefs.MODIFIER_BT_SCO_TX_NB true).bind
      (fun s₁ => proxy_set_route sampleDefs sampleHw s₁ 0
        sampleDefs.DEVICE_SPEAKER sampleDefs.MODIFIER_NONE true)).map
      (fun s₂ => s₂.active_capture_modifier) = some sampleDefs.MODIFIER_BT_SCO_TX_NB) ∧
    ((((proxy_set_route sampleDefs sampleHw (initial_proxy sampleDefs) 13
        sampleDefs.DEVICE_MAIN_MIC sampleDefs.MODIFIER_BT_SCO_TX_NB true).bind
      (fun s₁ => proxy_set_route sampleDefs sampleHw s₁ 0
        sampleDefs.DEVICE_SPEAKER sampleDefs.MODIFIER_NONE true)).bind
      (fun s₂ => proxy_set_route sampleDefs sampleHw s₂ 0
        sampleDefs.DEVICE_SPEAKER sampleDefs.MODIFIER_NONE false)).map
      (fun s₃ => (s₃.active_capture_modifier,
        path_applied (sampleDefs.modifier_table sampleDefs.MODIFIER_BT_SCO_TX_NB)
          (route_ops s₃.trace)))
      = some (sampleDefs.MODIFIER_NONE, true)) := by
  decide

/-- C7, the code on a disable call for the AUX digital output: for every
usage, modifier and state the call returns and the route graph is asked to
reset the path built from that device, and its gain path. -/
theorem disable_aux_digital_resets_path (K : Defs) (hw : Hw) (s : audio_proxy) (u m : Nat)
    (p : CStr) (hp : add_dual_path s (make_path K u K.DEVICE_AUX_DIGITAL) = some p) :
    ∃ s', proxy_set_route K hw s u K.DEVICE_AUX_DIGITAL m false = some s' ∧
      route_ops s'.trace = route_ops s.trace ++
        (if m ≠ K.MODIFIER_NONE then
          [.audio_route_reset_and_update_path (K.modifier_table m)] else []) ++
        [.audio_route_reset_and_update_path p,
          .audio_route_reset_and_update_path (make_gain p)] := by
  refine ⟨_, proxy_set_route_false_some K hw s u K.DEVICE_AUX_DIGITAL m p hp, ?_⟩
  simp [Event.is_route_op]

/-- C7, the failing input: the media usage is routed to the AUX digital output
and disabled again; the disable call resets `media-aux_digital` and its gain. -/
theorem disable_aux_digital_resets_path_witness :
    add_dual_path
        { initial_proxy sampleDefs with
          active_playback_ausage := 0,
          active_playback_device := sampleDefs.DEVICE_AUX_DIGITAL }
        (make_path sampleDefs 0 sampleDefs.DEVICE_AUX_DIGITAL)
      = some "media-aux_digital".toList ∧
    ∃ s', proxy_set_route sampleDefs sampleHw
          { initial_proxy sampleDefs with
            active_playback_ausage := 0,
            active_playback_device := sampleDefs.DEVICE_AUX_DIGITAL }
          0 sampleDefs.DEVICE_AUX_DIGITAL sampleDefs.MODIFIER_NONE false = some s' ∧
      route_ops s'.trace = route_ops (initial_proxy sampleDefs).trace ++
        (if sampleDefs.MODIFIER_NONE ≠ sampleDefs.MODIFIER_NONE then
          [.audio_route_reset_and_update_path
            (sampleDefs.modifier_table sampleDefs.MODIFIER_NONE)] else []) ++
        [.audio_route_reset_and_update_path "media-aux_digital".toList,
          .audio_route_reset_and_update_path (make_gain "media-aux_digital".toList)] :=
  ⟨by decide,
    disable_aux_digital_resets_path sampleDefs sampleHw
      { initial_proxy sampleDefs with
        active_playback_ausage := 0,
        active_playback_device := sampleDefs.DEVICE_AUX_DIGITAL }
      0 sampleDefs.MODIFIER_NONE "media-aux_digital".toList (by decide)⟩

/-! ## The modifier step of an enable call -/

theorem playback_route_step_returns (K : Defs) (a : audio_proxy) (u d : Nat) (p₁ p₂ : CStr)
    (hp₁ : add_dual_path a (make_path K a.active_playback_ausage a.active_playback_device)
      = some p₁)
    (hp₂ : add_dual_path a (make_path K u d) = some p₂) :
    ∃ a2, playback_route_step K a u d = some a2 ∧
      a2.active_playback_modifier = a.active_playback_modifier := by
  by_cases hact : a.active_playback_ausage ≠ K.AUSAGE_NONE ∧
      a.active_playback_device ≠ K.DEVICE_NONE
  · by_cases hd : d = K.DEVICE_AUX_DIGITAL
    · subst hd
      exact ⟨_, playback_route_step_reroute_aux K a u p₁ hact hp₁, by simp⟩
    · exact ⟨_, playback_route_step_reroute K a u d p₁ p₂ hact hd hp₁ hp₂, by simp⟩
  · by_cases hd : d = K.DEVICE_AUX_DIGITAL
    · subst hd
      refine ⟨a, ?_, rfl⟩
      unfold playback_route_step
      rw [if_neg hact]
      exact set_route_aux K a u
    · exact ⟨_, playback_route_step_fresh K a u d p₂ (by tauto) hd hp₂, rfl⟩

theorem capture_route_step_returns (K : Defs) (hw : Hw) (a : audio_proxy) (u d : Nat)
    (p₁ p₂ : CStr)
    (hp₁ : add_dual_path a (make_path K a.active_capture_ausage a.active_capture_device)
      = some p₁)
    (hp₂ : add_dual_path a (make_path K u d) = some p₂) :
    ∃ a2, capture_route_step K hw a u d = some a2 ∧
      a2.active_capture_modifier = a.active_capture_modifier := by
  by_cases hact : a.active_capture_ausage ≠ K.AUSAGE_NONE ∧
      a.active_capture_device ≠ K.DEVICE_NONE
  · by_cases hd : d = K.DEVICE_AUX_DIGITAL
    · subst hd
      have h := set_reroute_aux K (disable_internal_path K a a.active_capture_device)
        a.active_capture_ausage a.active_capture_device u p₁
        ((add_dual_path_congr (by simp) _).trans hp₁)
      refine ⟨_, (by unfold capture_route_step; rw [if_pos hact]; exact h), by simp⟩
    · exact ⟨_, capture_route_step_reroute K hw a u d p₁ p₂ hact hd hp₁ hp₂, by simp⟩
  · by_cases hd : d = K.DEVICE_AUX_DIGITAL
    · subst hd
      have h := set_route_aux K (proxy_set_mixercontrol hw a .TICKLE_CONTROL ABOX_TICKLE_ON) u
      refine ⟨_, (by unfold capture_route_step; rw [if_neg hact]; exact h), by simp⟩
    · exact ⟨_, capture_route_step_fresh K hw a u d p₂ (by tauto) hd hp₂, by simp⟩

theorem path_applied_append_apply_and_update (name : CStr) (pre : List Event) :
    path_applied name (pre ++ [.audio_route_apply_and_update_path name]) = true := by
  simp [path_applied, Event.touches]

theorem path_applied_append_update (name old : CStr) (pre : List Event) :
    path_applied name (pre ++ [.audio_route_reset_path old, .audio_route_apply_path name,
      .audio_route_update_mixer]) = true := by
  simp [path_applied, Event.touches]

/-- C8 (amended): for an enable call whose modifier `m` is none or a modifier
of the routed device's side (below `MODIFIER_BT_SCO_TX_NB` for playback, from
it up to below `MODIFIER_NONE` for capture), with `a` the side's active
modifier before the call: the call returns and the route graph calls end with
the reset of `a`, the apply of `m` and a mixer update when both are modifiers;
with the apply-and-update of `m` when only `m` is; with the reset-and-update
of `a` when `m` is none and `a` is not; afterwards the side's recorded modifier
is `m`, which is none or applied on the route graph. -/
theorem enable_modifier_step (K : Defs) (hw : Hw) (s : audio_proxy) (u d m : Nat)
    (p₁ p₂ : CStr)
    (hmod : K.MODIFIER_BT_SCO_TX_NB ≤ K.MODIFIER_NONE)
    (hm : m = K.MODIFIER_NONE ∨
      (if d < K.DEVICE_MAIN_MIC then m < K.MODIFIER_BT_SCO_TX_NB
       else K.MODIFIER_BT_SCO_TX_NB ≤ m ∧ m < K.MODIFIER_NONE))
    (hp₁ : add_dual_path s
        (if d < K.DEVICE_MAIN_MIC then
          make_path K s.active_playback_ausage s.active_playback_device
        else make_path K s.active_capture_ausage s.active_capture_device) = some p₁)
    (hp₂ : add_dual_path s (make_path K u d) = some p₂) :
    ∃ s' pre, proxy_set_route K hw s u d m true = some s' ∧
      route_ops s'.trace = pre ++
        (if m = K.MODIFIER_NONE then
          if (if d < K.DEVICE_MAIN_MIC then s.active_playback_modifier
              else s.active_capture_modifier) = K.MODIFIER_NONE then []
          else [.audio_route_reset_and_update_path (K.modifier_table
            (if d < K.DEVICE_MAIN_MIC then s.active_playback_modifier
             else s.active_capture_modifier))]
        else
          if (if d < K.DEVICE_MAIN_MIC then s.active_playback_modifier
              else s.active_capture_modifier) = K.MODIFIER_NONE then
            [.audio_route_apply_and_update_path (K.modifier_table m)]
          else
            [.audio_route_reset_path (K.modifier_table
              (if d < K.DEVICE_MAIN_MIC then s.active_playback_modifier
               else s.active_capture_modifier)),
              .audio_route_apply_path (K.modifier_table m), .audio_route_update_mixer]) ∧
      (if d < K.DEVICE_MAIN_MIC then s'.active_playback_modifier
       else s'.active_capture_modifier) = m ∧
      (m = K.MODIFIER_NONE ∨ path_applied (K.modifier_table m) (route_ops s'.trace) = true) := by
  by_cases hlt : d < K.DEVICE_MAIN_MIC
  · simp only [hlt, if_true] at hm hp₁ ⊢
    obtain ⟨a2, h2, ha2⟩ := playback_route_step_returns K
      (do_operations_by_playback_route_set K hw s u d) u d p₁ p₂
      (by rw [add_dual_path_congr (s := s) (by simp)]; simpa using hp₁)
      ((add_dual_path_congr (by simp) _).trans hp₂)
    have e1 := proxy_set_route_true_playback K hw s u d m hlt
    rw [h2, Option.map_some'] at e1
    have ha : a2.active_playback_modifier = s.active_playback_modifier := by
      rw [ha2]; simp
    have hops : route_ops (playback_finish K hw a2 u d m).trace
        = route_ops a2.trace ++ playback_modifier_ops K m s.active_playback_modifier := by
      simp [ha]
    refine ⟨_, route_ops a2.trace, e1, ?_, by simp, ?_⟩
    · rw [hops]
      congr 1
      unfold playback_modifier_ops
      rcases hm with hm | hm
      · have : ¬ m < K.MODIFIER_BT_SCO_TX_NB := by omega
        by_cases hs : s.active_playback_modifier = K.MODIFIER_NONE <;> simp [hm, this, hs] <;>
          omega
      · have : m ≠ K.MODIFIER_NONE := by omega
        by_cases hs : s.active_playback_modifier = K.MODIFIER_NONE <;> simp [hm, this, hs]
    · rw [hops]
      unfold playback_modifier_ops
      rcases hm with hm | hm
      · exact Or.inl hm
      · right
        rw [if_pos hm]
        split
        · exact path_applied_append_apply_and_update _ _
        · exact path_applied_append_update _ _ _
  · simp only [hlt, if_false] at hm hp₁ ⊢
    obtain ⟨a2, h2, ha2⟩ := capture_route_step_returns K hw s u d p₁ p₂ hp₁ hp₂
    have e1 := proxy_set_route_true_capture K hw s u d m hlt
    rw [h2, Option.map_some'] at e1
    have hops : route_ops (capture_finish K hw a2 u d m).trace
        = route_ops a2.trace ++ capture_modifier_ops K m s.active_capture_modifier := by
      simp [ha2]
    refine ⟨_, route_ops a2.trace, e1, ?_, by simp, ?_⟩
    · rw [hops]
      congr 1
      unfold capture_modifier_ops
      rcases hm with hm | hm
      · have : ¬ (K.MODIFIER_BT_SCO_TX_NB ≤ m ∧ m < K.MODIFIER_NONE) := by omega
        by_cases hs : s.active_capture_modifier = K.MODIFIER_NONE <;> simp [hm, hs]
      · have : m ≠ K.MODIFIER_NONE := by omega
        by_cases hs : s.active_capture_modifier = K.MODIFIER_NONE <;> simp [hm, this, hs]
    · rw [hops]
      unfold capture_modifier_ops
      rcases hm with hm | hm
      · exact Or.inl hm
      · right
        rw [if_pos hm]
        split
        · exact path_applied_append_apply_and_update _ _
        · exact path_applied_append_update _ _ _

/-- C8, witness of the amended statement: during a narrowband BT-SCO call the
route is set again with the wideband playback modifier 1. -/
theorem enable_modifier_step_witness :
    (sampleDefs.MODIFIER_BT_SCO_TX_NB ≤ sampleDefs.MODIFIER_NONE ∧
      (1 = sampleDefs.MODIFIER_NONE ∨
        (if sampleDefs.DEVICE_BT_HEADSET < sampleDefs.DEVICE_MAIN_MIC then
          1 < sampleDefs.MODIFIER_BT_SCO_TX_NB
         else sampleDefs.MODIFIER_BT_SCO_TX_NB ≤ 1 ∧ 1 < sampleDefs.MODIFIER_NONE)) ∧
      add_dual_path sample_sco_proxy (make_path sampleDefs 2 sampleDefs.DEVICE_BT_HEADSET)
        = some "incall_wb-bt_headset".toList) ∧
    ∃ s' pre, proxy_set_route sampleDefs sampleHw sample_sco_proxy 2
        sampleDefs.DEVICE_BT_HEADSET 1 true = some s' ∧
      route_ops s'.trace = pre ++
        (if 1 = sampleDefs.MODIFIER_NONE then
          if (if sampleDefs.DEVICE_BT_HEADSET < sampleDefs.DEVICE_MAIN_MIC then
                sample_sco_proxy.active_playback_modifier
              else sample_sco_proxy.active_capture_modifier) = sampleDefs.MODIFIER_NONE then []
          else [.audio_route_reset_and_update_path (sampleDefs.modifier_table
            (if sampleDefs.DEVICE_BT_HEADSET < sampleDefs.DEVICE_MAIN_MIC then
              sample_sco_proxy.active_playback_modifier
             else sample_sco_proxy.active_capture_modifier))]
        else
          if (if sampleDefs.DEVICE_BT_HEADSET < sampleDefs.DEVICE_MAIN_MIC then
                sample_sco_proxy.active_playback_modifier
              else sample_sco_proxy.active_capture_modifier) = sampleDefs.MODIFIER_NONE then
            [.audio_route_apply_and_update_path (sampleDefs.modifier_table 1)]
          else
            [.audio_route_reset_path (sampleDefs.modifier_table
              (if sampleDefs.DEVICE_BT_HEADSET < sampleDefs.DEVICE_MAIN_MIC then
                sample_sco_proxy.active_playback_modifier
               else sample_sco_proxy.active_capture_modifier)),
              .audio_route_apply_path (sampleDefs.modifier_table 1),
              .audio_route_update_mixer]) ∧
      (if sampleDefs.DEVICE_BT_HEADSET < sampleDefs.DEVICE_MAIN_MIC then
        s'.active_playback_modifier
       else s'.active_capture_modifier) = 1 ∧
      (1 = sampleDefs.MODIFIER_NONE ∨
        path_applied (sampleDefs.modifier_table 1) (route_ops s'.trace) = true) :=
  ⟨⟨by decide, by decide, by decide⟩,
    enable_modifier_step sampleDefs sampleHw sample_sco_proxy 2 sampleDefs.DEVICE_BT_HEADSET 1
      "incall_nb-bt_headset".toList "incall_wb-bt_headset".toList (by decide) (by decide)
      (by decide) (by decide)⟩

/-- C8, counterexample: a playback route enabled with the capture modifier
`MODIFIER_BT_SCO_TX_NB` records that modifier as the active playback modifier,
yet no modifier path is applied on the route graph. -/
theorem enable_playback_with_capture_modifier :
    (proxy_set_route sampleDefs sampleHw (initial_proxy sampleDefs) 0
        sampleDefs.DEVICE_SPEAKER sampleDefs.MODIFIER_BT_SCO_TX_NB true).map
      (fun s' => (s'.active_playback_modifier,
        path_applied (sampleDefs.modifier_table sampleDefs.MODIFIER_BT_SCO_TX_NB)
          (route_ops s'.trace),
        route_ops s'.trace))
    = some (sampleDefs.MODIFIER_BT_SCO_TX_NB, false,
        [.audio_route_apply_and_update_path "media-speaker".toList,
          .audio_route_apply_and_update_path "gain-media-speaker".toList]) := by
  decide

/-! ## MMAP period count -/

theorem adjust_loop_spec (K : Defs) (req : Int) (hmax : (K.MMAP_PERIOD_COUNT_MAX : Int) ≤ 2 ^ 30) :
    ∀ (fuel : Nat) (pc : Int), 0 < pc → pc < 2 ^ 30 → 0 < fuel →
      (K.MMAP_PERIOD_COUNT_MAX : Int) - pc < fuel →
      ∃ r, adjust_mmap_period_count_loop K req fuel pc = some r ∧
        (∃ k : Nat, r = pc * 2 ^ k) ∧
        (r < K.MMAP_PERIOD_COUNT_MAX ∨ r = pc) ∧
        (req ≤ r ∨ (K.MMAP_PERIOD_COUNT_MAX : Int) ≤ 2 * r) ∧
        (∀ j : Nat, req ≤ pc * 2 ^ j → r ≤ pc * 2 ^ j) := by
  intro fuel
  induction fuel with
  | zero => intro pc _ _ h; exact absurd h (by decide)
  | succ fuel ih =>
    intro pc hpos hlt _ hfuel
    unfold adjust_mmap_period_count_loop
    by_cases h1 : pc < req
    · rw [if_pos h1]
      have h2 : ¬ pc * 2 > 2147483647 := by
        norm_num at hlt ⊢
        omega
      rw [if_neg h2]
      by_cases h3 : pc * 2 < (K.MMAP_PERIOD_COUNT_MAX : Int)
      · rw [if_pos h3]
        have hfuel' : (K.MMAP_PERIOD_COUNT_MAX : Int) - pc * 2 < fuel := by
          push_cast at hfuel
          omega
        have hf0 : 0 < fuel := by omega
        obtain ⟨r, hr, ⟨k, hk⟩, hb, hs, hminimal⟩ :=
          ih (pc * 2) (by omega) (by omega) hf0 hfuel'
        refine ⟨r, hr, ⟨k + 1, by rw [hk, pow_succ]; ring⟩, ?_, hs, ?_⟩
        · rcases hb with hb | hb
          · exact Or.inl hb
          · exact Or.inl (by omega)
        · intro j hj
          cases j with
          | zero => simp at hj; omega
          | succ j =>
            have := hminimal j (by rw [pow_succ] at hj; linarith)
            rw [pow_succ]
            linarith
      · rw [if_neg h3]
        refine ⟨pc, rfl, ⟨0, by simp⟩, Or.inr rfl, Or.inr (by omega), ?_⟩
        intro j _
        have : (1 : Int) ≤ 2 ^ j := one_le_pow₀ (by norm_num)
        nlinarith
    · rw [if_neg h1]
      refine ⟨pc, rfl, ⟨0, by simp⟩, Or.inr rfl, Or.inl (by omega), ?_⟩
      intro j _
      have : (1 : Int) ≤ 2 ^ j := one_le_pow₀ (by norm_num)
      nlinarith


theorem to_uint32_of_nonneg (n : Nat) (hn : n < 4294967296) : to_uint32 (n : Int) = n := by
  unfold to_uint32
  omega

theorem add_sub_one_le_mul (n P : Nat) (hn : 0 < n) (hP : 0 < P) : n + P - 1 ≤ n * P := by
  cases n with
  | zero => omega
  | succ n' =>
    cases P with
    | zero => omega
    | succ P' =>
      have : (n' + 1) * (P' + 1) = n' * P' + n' + P' + 1 := by ring
      omega

theorem period_count_requested_le_iff (P n : Nat) (hP : 0 < P) (hP' : P < 4294967296)
    (hn : n < 2147483648) (v : Nat) (hv : 1 ≤ v) :
    to_int32 (((to_uint32 (n : Int) + P % 4294967296 + 4294967295) % 4294967296)
        / (P % 4294967296)) ≤ (v : Int)
      ↔ (n : Int) ≤ (v : Int) * (P : Int) := by
  rw [to_uint32_of_nonneg n (by omega), Nat.mod_eq_of_lt hP']
  have hcast : ((n : Int) ≤ (v : Int) * (P : Int)) ↔ n ≤ v * P := by
    constructor
    · intro h; exact_mod_cast h
    · intro h; exact_mod_cast h
  rw [hcast]
  by_cases hwrap : n + P ≤ 4294967296
  · have hx : (n + P + 4294967295) % 4294967296 = n + P - 1 := by omega
    rw [hx]
    have hq : (n + P - 1) / P ≤ n := by
      rcases Nat.eq_zero_or_pos n with h0 | h0
      · subst h0
        have : (0 + P - 1) / P = 0 := Nat.div_eq_of_lt (by omega)
        omega
      · have hle : n + P - 1 ≤ n * P := add_sub_one_le_mul n P h0 hP
        calc (n + P - 1) / P ≤ (n * P) / P := Nat.div_le_div_right hle
          _ = n := Nat.mul_div_cancel n hP
    have hq' : ((n + P - 1) / P) % 4294967296 = (n + P - 1) / P :=
      Nat.mod_eq_of_lt (Nat.lt_of_le_of_lt hq (by omega))
    have hi : to_int32 ((n + P - 1) / P) = (((n + P - 1) / P : Nat) : Int) := by
      unfold to_int32
      rw [hq']
      rw [if_pos (Nat.lt_of_le_of_lt hq hn)]
    rw [hi]
    have : ((((n + P - 1) / P : Nat) : Int) ≤ (v : Int)) ↔ (n + P - 1) / P ≤ v := by
      constructor
      · intro h; exact_mod_cast h
      · intro h; exact_mod_cast h
    rw [this, Nat.div_le_iff_le_mul_add_pred hP]
    constructor
    · intro h
      have : P * v = v * P := Nat.mul_comm _ _
      omega
    · intro h
      have : P * v = v * P := Nat.mul_comm _ _
      omega
  · have hx : (n + P + 4294967295) % 4294967296 = n + P - 1 - 4294967296 := by omega
    rw [hx]
    have hq : (n + P - 1 - 4294967296) / P = 0 := Nat.div_eq_of_lt (by omega)
    rw [hq]
    have hi : to_int32 0 = 0 := by decide
    rw [hi]
    constructor
    · intro _
      have : P ≤ v * P := Nat.le_mul_of_pos_left P hv
      omega
    · intro _
      exact_mod_cast Nat.zero_le v


/-- C9 (amended): for every requested minimum of `N ≥ 0` frames and period
size `P > 0`, with enough fuel `adjust_mmap_period_count` returns a period
count of the form `MMAP_PERIOD_COUNT_MIN * 2^k` that does not exceed
`MMAP_PERIOD_COUNT_MAX` and does not exceed any value of that form with
`value * P ≥ N`; when some value of that form below `MMAP_PERIOD_COUNT_MAX` has
`value * P ≥ N`, so has the chosen count, which is then the smallest one. -/
theorem adjust_mmap_period_count_spec (K : Defs) (fuel P : Nat) (N : Int)
    (hmin : 0 < K.MMAP_PERIOD_COUNT_MIN)
    (hminmax : K.MMAP_PERIOD_COUNT_MIN < K.MMAP_PERIOD_COUNT_MAX)
    (hmax : K.MMAP_PERIOD_COUNT_MAX ≤ 2 ^ 30)
    (hP : 0 < P) (hP' : P < 4294967296) (hN : 0 ≤ N) (hN' : N < 2147483648)
    (hfuel : K.MMAP_PERIOD_COUNT_MAX < fuel) :
    ∃ r : Int, adjust_mmap_period_count K fuel P N = some r ∧
      (∃ k : Nat, r = (K.MMAP_PERIOD_COUNT_MIN : Int) * 2 ^ k) ∧
      r ≤ (K.MMAP_PERIOD_COUNT_MAX : Int) ∧
      (∀ j : Nat, N ≤ (K.MMAP_PERIOD_COUNT_MIN : Int) * 2 ^ j * (P : Int) →
        r ≤ (K.MMAP_PERIOD_COUNT_MIN : Int) * 2 ^ j) ∧
      (∀ j : Nat, (K.MMAP_PERIOD_COUNT_MIN : Int) * 2 ^ j < (K.MMAP_PERIOD_COUNT_MAX : Int) →
        N ≤ (K.MMAP_PERIOD_COUNT_MIN : Int) * 2 ^ j * (P : Int) → N ≤ r * (P : Int)) := by
  obtain ⟨n, rfl⟩ := Int.eq_ofNat_of_zero_le hN
  have hn : n < 2147483648 := by exact_mod_cast hN'
  have hmaxI : (K.MMAP_PERIOD_COUNT_MAX : Int) ≤ 2 ^ 30 := by exact_mod_cast hmax
  have hiff : ∀ v : Nat, 1 ≤ v →
      (to_int32 (((to_uint32 (n : Int) + P % 4294967296 + 4294967295) % 4294967296)
        / (P % 4294967296)) ≤ (v : Int) ↔ (n : Int) ≤ (v : Int) * (P : Int)) :=
    fun v hv => period_count_requested_le_iff P n hP hP' hn v hv
  have hform : ∀ j : Nat, (K.MMAP_PERIOD_COUNT_MIN : Int) * 2 ^ j
      = ((K.MMAP_PERIOD_COUNT_MIN * 2 ^ j : Nat) : Int) := by
    intro j; push_cast; ring
  have hpos : ∀ j : Nat, 1 ≤ K.MMAP_PERIOD_COUNT_MIN * 2 ^ j := by
    intro j
    have : 0 < 2 ^ j := Nat.two_pow_pos j
    exact Nat.mul_pos hmin this
  obtain ⟨r, hr, ⟨k, hk⟩, hb, hs, hminimal⟩ :=
    adjust_loop_spec K
      (to_int32 (((to_uint32 (n : Int) + P % 4294967296 + 4294967295) % 4294967296)
        / (P % 4294967296))) hmaxI fuel (K.MMAP_PERIOD_COUNT_MIN : Int)
      (by exact_mod_cast hmin) (by have : K.MMAP_PERIOD_COUNT_MIN < 2 ^ 30 := by omega
                                   exact_mod_cast this)
      (by omega) (by have : (K.MMAP_PERIOD_COUNT_MAX : Int) < fuel := by exact_mod_cast hfuel
                     have : (0 : Int) < K.MMAP_PERIOD_COUNT_MIN := by exact_mod_cast hmin
                     omega)
  refine ⟨r, ?_, ⟨k, hk⟩, ?_, ?_, ?_⟩
  · unfold adjust_mmap_period_count
    rw [if_neg (by rw [Nat.mod_eq_of_lt hP']; omega)]
    exact hr
  · rcases hb with hb | hb
    · omega
    · rw [hb]
      exact_mod_cast hminmax.le
  · intro j hj
    apply hminimal j
    rw [hform j] at hj ⊢
    exact (hiff _ (hpos j)).mpr hj
  · intro j hjmax hj
    rcases hs with hs | hs
    · rw [hk, hform k] at hs ⊢
      exact (hiff _ (hpos k)).mp hs
    · have hle : r ≤ (K.MMAP_PERIOD_COUNT_MIN : Int) * 2 ^ j := by
        apply hminimal j
        rw [hform j] at hj ⊢
        exact (hiff _ (hpos j)).mpr hj
      by_cases hkj : k < j
      · exfalso
        have h2 : (2 : Int) ^ (k + 1) ≤ 2 ^ j :=
          pow_le_pow_right₀ (by norm_num) hkj
        have hm0 : (0 : Int) ≤ K.MMAP_PERIOD_COUNT_MIN := by exact_mod_cast hmin.le
        have : 2 * r ≤ (K.MMAP_PERIOD_COUNT_MIN : Int) * 2 ^ j := by
          rw [hk]
          calc 2 * ((K.MMAP_PERIOD_COUNT_MIN : Int) * 2 ^ k)
              = (K.MMAP_PERIOD_COUNT_MIN : Int) * 2 ^ (k + 1) := by rw [pow_succ]; ring
            _ ≤ (K.MMAP_PERIOD_COUNT_MIN : Int) * 2 ^ j :=
              mul_le_mul_of_nonneg_left h2 hm0
        omega
      · have h2 : (2 : Int) ^ j ≤ 2 ^ k :=
          pow_le_pow_right₀ (by norm_num) (by omega)
        have hm0 : (0 : Int) ≤ K.MMAP_PERIOD_COUNT_MIN := by exact_mod_cast hmin.le
        have hge : (K.MMAP_PERIOD_COUNT_MIN : Int) * 2 ^ j ≤ r := by
          rw [hk]
          exact mul_le_mul_of_nonneg_left h2 hm0
        have hPn : (0 : Int) ≤ (P : Int) := by exact_mod_cast hP.le
        calc (n : Int) ≤ (K.MMAP_PERIOD_COUNT_MIN : Int) * 2 ^ j * (P : Int) := hj
          _ ≤ r * (P : Int) := mul_le_mul_of_nonneg_right hge hPn

/-- C9, witness of the amended statement: 3073 frames at a period of 96. -/
theorem adjust_mmap_period_count_spec_witness :
    (0 < sampleDefs.MMAP_PERIOD_COUNT_MIN ∧
      sampleDefs.MMAP_PERIOD_COUNT_MIN < sampleDefs.MMAP_PERIOD_COUNT_MAX ∧
      sampleDefs.MMAP_PERIOD_COUNT_MAX ≤ 2 ^ 30 ∧
      sampleDefs.MMAP_PERIOD_COUNT_MAX < 600 ∧
      adjust_mmap_period_count sampleDefs 600 96 3073 = some 64) ∧
    ∃ r : Int, adjust_mmap_period_count sampleDefs 600 96 3073 = some r ∧
      (∃ k : Nat, r = (sampleDefs.MMAP_PERIOD_COUNT_MIN : Int) * 2 ^ k) ∧
      r ≤ (sampleDefs.MMAP_PERIOD_COUNT_MAX : Int) ∧
      (∀ j : Nat, (3073 : Int) ≤ (sampleDefs.MMAP_PERIOD_COUNT_MIN : Int) * 2 ^ j * ((96 : Nat) : Int) →
        r ≤ (sampleDefs.MMAP_PERIOD_COUNT_MIN : Int) * 2 ^ j) ∧
      (∀ j : Nat, (sampleDefs.MMAP_PERIOD_COUNT_MIN : Int) * 2 ^ j
          < (sampleDefs.MMAP_PERIOD_COUNT_MAX : Int) →
        (3073 : Int) ≤ (sampleDefs.MMAP_PERIOD_COUNT_MIN : Int) * 2 ^ j * ((96 : Nat) : Int) →
        (3073 : Int) ≤ r * ((96 : Nat) : Int)) :=
  ⟨⟨by decide, by decide, by decide, by decide, by decide⟩,
    adjust_mmap_period_count_spec sampleDefs 600 96 3073 (by decide) (by decide) (by decide)
      (by decide) (by decide) (by decide) (by decide) (by decide)⟩

/-- C9, counterexample: with the floor 32 and the ceiling 512, a request of
2147483647 frames at a period of one frame gets 256 periods, which is far
below the request; the smallest `32 * 2^k` that covers it lies above the
ceiling. The same count 256 is chosen for 24577 frames at a period of 96,
although `512 * 96` covers that request. -/
theorem adjust_mmap_period_count_capped :
    (adjust_mmap_period_count sampleDefs 600 1 2147483647 = some 256 ∧
      ¬ ((2147483647 : Int) ≤ 256 * 1)) ∧
    (adjust_mmap_period_count sampleDefs 600 96 24577 = some 256 ∧
      ¬ ((24577 : Int) ≤ 256 * 96)) := by
  decide

/-! ## Call recording: channel selection -/

theorem getD_set (l : List Int) (i j : Nat) (a : Int) :
    (l.set i a).getD j 0 = if i = j ∧ i < l.length then a else l.getD j 0 := by
  simp only [List.getD_eq_getElem?_getD, List.getElem?_set]
  by_cases hij : i = j
  · subst hij
    by_cases hl : i < l.length
    · simp [hl]
    · simp [hl, List.getElem?_eq_none (Nat.le_of_not_lt hl)]
  · simp [hij]

/-- The sample both channels of a frame carry after the selection, from the
two samples `l` (channel 0) and `r` (channel 1) read from the hardware. -/
theorem call_record_select_frame (K : Defs) (usage : Nat) (buf : List Int) (i : Nat)
    (hlen : 2 * i + 1 < buf.length) :
    (call_record_select K usage buf i).length = buf.length ∧
    (∀ j, j ≠ 2 * i → j ≠ 2 * i + 1 →
      (call_record_select K usage buf i).getD j 0 = buf.getD j 0) ∧
    (call_record_select K usage buf i).getD (2 * i) 0
      = (if usage = K.AUSAGE_INCALL_UPLINK then buf.getD (2 * i + 1) 0
         else if usage = K.AUSAGE_INCALL_DOWNLINK then buf.getD (2 * i) 0
         else clamp16 (buf.getD (2 * i) 0 + buf.getD (2 * i + 1) 0)) ∧
    (call_record_select K usage buf i).getD (2 * i + 1) 0
      = (if usage = K.AUSAGE_INCALL_UPLINK then buf.getD (2 * i + 1) 0
         else if usage = K.AUSAGE_INCALL_DOWNLINK then buf.getD (2 * i) 0
         else clamp16 (buf.getD (2 * i) 0 + buf.getD (2 * i + 1) 0)) := by
  unfold call_record_select
  refine ⟨by simp, ?_, ?_, ?_⟩
  · intro j h1 h2
    rw [getD_set, getD_set]
    rw [if_neg (by omega), if_neg (by omega)]
  · rw [getD_set, getD_set]
    rw [if_neg (by omega), if_pos (by omega)]
  · rw [getD_set]
    rw [if_pos (by simp; omega)]

theorem call_record_loop_spec (K : Defs) (usage : Nat) (buf : List Int) :
    ∀ k : Nat, 2 * k ≤ buf.length →
      (call_record_loop K usage k buf).length = buf.length ∧
      (∀ j, 2 * k ≤ j → (call_record_loop K usage k buf).getD j 0 = buf.getD j 0) ∧
      (∀ i, i < k →
        (call_record_loop K usage k buf).getD (2 * i) 0
          = (if usage = K.AUSAGE_INCALL_UPLINK then buf.getD (2 * i + 1) 0
             else if usage = K.AUSAGE_INCALL_DOWNLINK then buf.getD (2 * i) 0
             else clamp16 (buf.getD (2 * i) 0 + buf.getD (2 * i + 1) 0)) ∧
        (call_record_loop K usage k buf).getD (2 * i + 1) 0
          = (call_record_loop K usage k buf).getD (2 * i) 0) := by
  intro k
  induction k with
  | zero =>
    intro _
    refine ⟨rfl, fun _ _ => rfl, fun i hi => absurd hi (by omega)⟩
  | succ k ih =>
    intro hk
    obtain ⟨hlen, hrest, hdone⟩ := ih (by omega)
    have hstep : call_record_loop K usage (k + 1) buf
        = call_record_select K usage (call_record_loop K usage k buf) k := by
      unfold call_record_loop
      rw [List.range_succ, List.foldl_append]
      rfl
    obtain ⟨slen, sother, s0, s1⟩ :=
      call_record_select_frame K usage (call_record_loop K usage k buf) k (by omega)
    rw [hstep]
    refine ⟨slen.trans hlen, ?_, ?_⟩
    · intro j hj
      rw [sother j (by omega) (by omega)]
      exact hrest j (by omega)
    · intro i hi
      by_cases hik : i = k
      · subst hik
        rw [s0, s1, hrest (2 * i) (by omega), hrest (2 * i + 1) (by omega)]
        exact ⟨rfl, rfl⟩
      · have hlt : i < k := by omega
        rw [sother (2 * i) (by omega) (by omega), sother (2 * i + 1) (by omega) (by omega)]
        exact hdone i hlt


theorem clamp16_eq (x : Int) : clamp16 x = max (-32768) (min 32767 x) := by
  unfold clamp16
  split
  · omega
  · split <;> omega

theorem getD_filled (rd : pcm_read_result) (old : List Int) (cells j : Nat) (hj : j < cells) :
    ((List.range cells).map rd.data ++ old.drop cells).getD j 0 = rd.data j := by
  rw [List.getD_eq_getElem?_getD, List.getElem?_append_left (by simpa using hj)]
  simp [hj]

/-- C10: for a call-recording capture stream whose handle was opened with a
stereo 16-bit configuration, a provider call that reads a new period
successfully leaves a buffer in which both channels of every frame `i` of the
period hold the same sample: hardware channel 1 of the frame for the in-call
uplink usage, hardware channel 0 for the in-call downlink usage, and otherwise
the sum of the two channels clamped to `[-32768, 32767]`. The byte size of the
period fits an `unsigned int`. -/
theorem get_next_buffer_call_record (K : Defs) (realloc_ok : Bool) (rd : pcm_read_result)
    (apstream : audio_proxy_stream) (buffer : resampler_buffer)
    (htype : apstream.stream_type = K.ASTREAM_CAPTURE_CALL)
    (hpcm : apstream.pcm = true) (hframes : apstream.read_buf_frames = 0)
    (hch : apstream.pcm_handle_config.channels = 2)
    (hfmt : apstream.pcm_handle_config.format = .PCM_FORMAT_S16_LE)
    (hfit : apstream.pcmconfig.period_size < 1073741824)
    (hbuf : if apstream.actual_read_buf_size
          < pcm_frames_to_bytes apstream.pcm_handle_config apstream.pcmconfig.period_size
            % 4294967296
        then realloc_ok = true else apstream.actual_read_buf ≠ none)
    (hstatus : rd.status = 0) :
    ∃ buf : List Int,
      (get_next_buffer K realloc_ok rd apstream buffer).1 = 0 ∧
      (get_next_buffer K realloc_ok rd apstream buffer).2.1.actual_read_buf = some buf ∧
      (get_next_buffer K realloc_ok rd apstream buffer).2.1.read_buf_frames
        = apstream.pcmconfig.period_size ∧
      ∀ i, i < apstream.pcmconfig.period_size →
        buf.getD (2 * i) 0
          = (if apstream.stream_usage = K.AUSAGE_INCALL_UPLINK then rd.data (2 * i + 1)
             else if apstream.stream_usage = K.AUSAGE_INCALL_DOWNLINK then rd.data (2 * i)
             else max (-32768) (min 32767 (rd.data (2 * i) + rd.data (2 * i + 1)))) ∧
        buf.getD (2 * i + 1) 0 = buf.getD (2 * i) 0 := by
  have hsize : pcm_frames_to_bytes apstream.pcm_handle_config apstream.pcmconfig.period_size
      % 4294967296 / 2 = 2 * apstream.pcmconfig.period_size := by
    simp only [pcm_frames_to_bytes, hch, hfmt, pcm_format_to_bits]
    omega
  have key : ∀ old : List Int,
      ∀ i, i < apstream.pcmconfig.period_size →
        (call_record_loop K apstream.stream_usage apstream.pcmconfig.period_size
          ((List.range (2 * apstream.pcmconfig.period_size)).map rd.data
            ++ old.drop (2 * apstream.pcmconfig.period_size))).getD (2 * i) 0
          = (if apstream.stream_usage = K.AUSAGE_INCALL_UPLINK then rd.data (2 * i + 1)
             else if apstream.stream_usage = K.AUSAGE_INCALL_DOWNLINK then rd.data (2 * i)
             else max (-32768) (min 32767 (rd.data (2 * i) + rd.data (2 * i + 1)))) ∧
        (call_record_loop K apstream.stream_usage apstream.pcmconfig.period_size
          ((List.range (2 * apstream.pcmconfig.period_size)).map rd.data
            ++ old.drop (2 * apstream.pcmconfig.period_size))).getD (2 * i + 1) 0
          = (call_record_loop K apstream.stream_usage apstream.pcmconfig.period_size
          ((List.range (2 * apstream.pcmconfig.period_size)).map rd.data
            ++ old.drop (2 * apstream.pcmconfig.period_size))).getD (2 * i) 0 := by
    intro old i hi
    obtain ⟨_, _, hdone⟩ := call_record_loop_spec K apstream.stream_usage
      ((List.range (2 * apstream.pcmconfig.period_size)).map rd.data
        ++ old.drop (2 * apstream.pcmconfig.period_size))
      apstream.pcmconfig.period_size (by simp)
    obtain ⟨h0, h1⟩ := hdone i hi
    rw [getD_filled rd old _ (2 * i) (by omega),
      getD_filled rd old _ (2 * i + 1) (by omega), clamp16_eq] at h0
    exact ⟨h0, h1⟩
  by_cases hgrow : apstream.actual_read_buf_size
      < pcm_frames_to_bytes apstream.pcm_handle_config apstream.pcmconfig.period_size
        % 4294967296
  · rw [if_pos hgrow] at hbuf
    refine ⟨_, ?_, ?_, ?_, key (((apstream.actual_read_buf.getD []) ++
      List.replicate (2 * apstream.pcmconfig.period_size) 0).take
        (2 * apstream.pcmconfig.period_size))⟩
    · simp [get_next_buffer, hpcm, hframes, hgrow, hbuf, hstatus]
    · simp [get_next_buffer, hpcm, hframes, hgrow, hbuf, hstatus, htype, hsize]
    · simp [get_next_buffer, hpcm, hframes, hgrow, hbuf, hstatus]
  · rw [if_neg hgrow] at hbuf
    obtain ⟨old, hold⟩ := Option.ne_none_iff_exists'.mp hbuf
    refine ⟨_, ?_, ?_, ?_, key old⟩
    · simp [get_next_buffer, hpcm, hframes, hgrow, hold, hstatus]
    · simp [get_next_buffer, hpcm, hframes, hgrow, hold, hstatus, htype, hsize]
    · simp [get_next_buffer, hpcm, hframes, hgrow, hold, hstatus]

/-- C10, witness: a two-frame period of a call-recording stream with a usage
that is neither uplink nor downlink; the first frame saturates. -/
theorem get_next_buffer_call_record_witness :
    (sample_call_stream.stream_type = sampleDefs.ASTREAM_CAPTURE_CALL ∧
      sample_call_stream.pcm = true ∧ sample_call_stream.read_buf_frames = 0 ∧
      sample_call_stream.pcm_handle_config.channels = 2 ∧
      sample_call_stream.pcm_handle_config.format = .PCM_FORMAT_S16_LE ∧
      sample_read.status = 0 ∧
      (get_next_buffer sampleDefs true sample_read sample_call_stream
        { raw := none, frame_count := 2 }).2.1.actual_read_buf
        = some [32767, 32767, 2, 2]) ∧
    ∃ buf : List Int,
      (get_next_buffer sampleDefs true sample_read sample_call_stream
        { raw := none, frame_count := 2 }).1 = 0 ∧
      (get_next_buffer sampleDefs true sample_read sample_call_stream
        { raw := none, frame_count := 2 }).2.1.actual_read_buf = some buf ∧
      (get_next_buffer sampleDefs true sample_read sample_call_stream
        { raw := none, frame_count := 2 }).2.1.read_buf_frames
        = sample_call_stream.pcmconfig.period_size ∧
      ∀ i, i < sample_call_stream.pcmconfig.period_size →
        buf.getD (2 * i) 0
          = (if sample_call_stream.stream_usage = sampleDefs.AUSAGE_INCALL_UPLINK then
               sample_read.data (2 * i + 1)
             else if sample_call_stream.stream_usage = sampleDefs.AUSAGE_INCALL_DOWNLINK then
               sample_read.data (2 * i)
             else max (-32768) (min 32767
               (sample_read.data (2 * i) + sample_read.data (2 * i + 1)))) ∧
        buf.getD (2 * i + 1) 0 = buf.getD (2 * i) 0 :=
  ⟨⟨by decide, by decide, by decide, by decide, by decide, by decide, by decide⟩,
    get_next_buffer_call_record sampleDefs true sample_read sample_call_stream
      { raw := none, frame_count := 2 } (by decide) (by decide) (by decide) (by decide)
      (by decide) (by decide) (by decide) (by decide)⟩

/-! ## Conversion needs -/

theorem check_conversion_pcmconfig (P : Platform) (r : Int) (a : audio_proxy_stream) :
    (check_conversion P r a).pcmconfig = a.pcmconfig := by
  unfold check_conversion
  simp only [audio_proxy_stream.emit]
  split_ifs <;> rfl

theorem check_conversion_requested (P : Platform) (r : Int) (a : audio_proxy_stream) :
    (check_conversion P r a).requested_sample_rate = a.requested_sample_rate ∧
    (check_conversion P r a).requested_channel_mask = a.requested_channel_mask := by
  unfold check_conversion
  simp only [audio_proxy_stream.emit]
  split_ifs <;> exact ⟨rfl, rfl⟩

theorem check_conversion_need_monoconversion (P : Platform) (r : Int) (a : audio_proxy_stream) :
    (check_conversion P r a).need_monoconversion =
      (a.need_monoconversion ||
        decide (P.audio_channel_count_from_in_mask a.requested_channel_mask = 1 ∧
          a.pcmconfig.channels = 2)) := by
  unfold check_conversion
  simp only [audio_proxy_stream.emit]
  split_ifs <;> simp_all

theorem check_conversion_need_resampling (P : Platform) (r : Int) (a : audio_proxy_stream) :
    (check_conversion P r a).need_resampling =
      (a.need_resampling ||
        decide (a.requested_sample_rate ≠ a.pcmconfig.rate ∧ r = 0)) := by
  unfold check_conversion
  simp only [audio_proxy_stream.emit]
  split_ifs <;> simp_all

theorem check_conversion_resampler (P : Platform) (r : Int) (a : audio_proxy_stream) :
    (check_conversion P r a).resampler =
      if a.requested_sample_rate ≠ a.pcmconfig.rate then
        if r = 0 then
          some { in_rate := a.pcmconfig.rate, out_rate := a.requested_sample_rate,
                 channels := a.pcmconfig.channels }
        else none
      else a.resampler := by
  unfold check_conversion
  simp only [audio_proxy_stream.emit]
  split_ifs <;> simp_all

theorem update_capture_pcmconfig_keeps (K : Defs) (P : Platform) (a : audio_proxy_stream) :
    (update_capture_pcmconfig K P a).requested_sample_rate = a.requested_sample_rate ∧
    (update_capture_pcmconfig K P a).requested_channel_mask = a.requested_channel_mask ∧
    (update_capture_pcmconfig K P a).need_monoconversion = a.need_monoconversion ∧
    (update_capture_pcmconfig K P a).need_resampling = a.need_resampling ∧
    (update_capture_pcmconfig K P a).resampler = a.resampler := by
  unfold update_capture_pcmconfig
  simp only []
  split_ifs <;> exact ⟨rfl, rfl, rfl, rfl, rfl⟩

/-- What `proxy_create_capture_stream` returns: either a stream that went
through `check_conversion` with both flags clear and no resampler before, or a
stream of the kinds that skip the evaluation, with both flags clear, no
resampler, and, unless it has the type without attribute, the hardware rate
equal to the requested one. -/
theorem proxy_create_capture_stream_cases (K : Defs) (P : Platform) (hw : stream_hw)
    (aproxy : audio_proxy) (type usage : Nat) (cfg : audio_config) (s : audio_proxy_stream)
    (h : proxy_create_capture_stream K P hw aproxy type usage cfg = some s) :
    (∃ a : audio_proxy_stream, a.need_resampling = false ∧ a.need_monoconversion = false ∧
        a.resampler = none ∧
        s = { check_conversion P hw.create_resampler a with pcm := false, compress := false }) ∨
    (s.need_resampling = false ∧ s.need_monoconversion = false ∧ s.resampler = none ∧
      (type = K.ASTREAM_CAPTURE_NO_ATTRIBUTE ∨
        (type = K.ASTREAM_CAPTURE_MMAP ∧ s.requested_sample_rate = s.pcmconfig.rate))) := by
  unfold proxy_create_capture_stream at h
  simp only [] at h
  split_ifs at h with h0 h1 h2 h3 h4 h5 h6 h7 h8
  · cases h
    exact Or.inr ⟨rfl, rfl, rfl, Or.inl h1⟩
  · cases h
    exact Or.inl ⟨_, rfl, rfl, rfl, rfl⟩
  · cases h
    refine Or.inl ⟨_, ?_, ?_, ?_, rfl⟩
    · rw [(update_capture_pcmconfig_keeps K P _).2.2.2.1]
    · rw [(update_capture_pcmconfig_keeps K P _).2.2.1]
    · rw [(update_capture_pcmconfig_keeps K P _).2.2.2.2]
  · cases h
    exact Or.inl ⟨_, rfl, rfl, rfl, rfl⟩
  · cases h
    refine Or.inl ⟨_, ?_, ?_, ?_, rfl⟩
    · rw [(update_capture_pcmconfig_keeps K P _).2.2.2.1]
    · rw [(update_capture_pcmconfig_keeps K P _).2.2.1]
    · rw [(update_capture_pcmconfig_keeps K P _).2.2.2.2]
  · cases h
    exact Or.inr ⟨rfl, rfl, rfl, Or.inr ⟨h6, rfl⟩⟩
  · cases h
    refine Or.inr ⟨rfl, rfl, rfl, Or.inr ⟨h6, ?_⟩⟩
    simp only [ne_eq, not_not] at h7
    exact h7
  · cases h
    exact Or.inl ⟨_, rfl, rfl, rfl, rfl⟩

/-- Claim C11, as amended: whenever `check_conversion` runs with a requested
sample rate that differs from the hardware rate and the resampler can be
created, `need_resampling` is true afterwards and the stream holds a resampler
from the hardware rate to the requested rate. For a capture stream that
`proxy_create_capture_stream` returns (other than the type without
attribute), `need_resampling` is true if and only if the requested rate
differs from the hardware rate and `create_resampler` succeeded; so it is
false when the rates are equal, and when it is true the resampler converts the
hardware rate to the requested rate. -/
theorem need_resampling_after_evaluation (K : Defs) (P : Platform) (hw : stream_hw)
    (aproxy : audio_proxy) (type usage : Nat) (cfg : audio_config) :
    (∀ (r : Int) (a : audio_proxy_stream),
        a.requested_sample_rate ≠ a.pcmconfig.rate → r = 0 →
        (check_conversion P r a).need_resampling = true ∧
        (check_conversion P r a).resampler =
          some { in_rate := a.pcmconfig.rate, out_rate := a.requested_sample_rate,
                 channels := a.pcmconfig.channels }) ∧
    (∀ s : audio_proxy_stream,
        proxy_create_capture_stream K P hw aproxy type usage cfg = some s →
        type ≠ K.ASTREAM_CAPTURE_NO_ATTRIBUTE →
        (s.need_resampling = true ↔
          s.requested_sample_rate ≠ s.pcmconfig.rate ∧ hw.create_resampler = 0) ∧
        (s.need_resampling = true →
          s.resampler = some { in_rate := s.pcmconfig.rate,
                               out_rate := s.requested_sample_rate,
                               channels := s.pcmconfig.channels })) := by
  constructor
  · intro r a hne hr
    rw [check_conversion_need_resampling, check_conversion_resampler, if_pos hne, if_pos hr]
    simp [hne, hr]
  · intro s h hty
    rcases proxy_create_capture_stream_cases K P hw aproxy type usage cfg s h with
      ⟨a, ha1, _, ha3, rfl⟩ | ⟨h1, _, _, h4⟩
    · simp only [check_conversion_need_resampling, check_conversion_resampler,
        check_conversion_pcmconfig, (check_conversion_requested P _ a).1, ha1, ha3]
      by_cases hne : a.requested_sample_rate = a.pcmconfig.rate
      · simp [hne]
      · by_cases hr : hw.create_resampler = 0
        · simp [hne, hr]
        · simp [hne, hr]
    · rcases h4 with h4 | ⟨_, h4⟩
      · exact absurd h4 hty
      · simp [h1, h4]

theorem need_resampling_after_evaluation_witness :
    ∃ s : audio_proxy_stream,
      proxy_create_capture_stream sampleDefs samplePlatform sample_stream_hw
        (initial_proxy sampleDefs) sampleDefs.ASTREAM_CAPTURE_CALL 13 sample_config = some s ∧
      s.need_resampling = true ∧
      s.resampler = some { in_rate := 32000, out_rate := 48000, channels := 2 } :=
  ⟨_, rfl,
    (((need_resampling_after_evaluation sampleDefs samplePlatform sample_stream_hw
        (initial_proxy sampleDefs) sampleDefs.ASTREAM_CAPTURE_CALL 13 sample_config).2
        _ rfl (by decide)).1).mpr ⟨by decide, rfl⟩,
    rfl⟩

/-- Claim C11, counterexample: `need_resampling` is not equivalent to "the
rates differ". A call-recording stream (hardware rate 32000) created for
48000 Hz while `create_resampler` fails has differing rates and
`need_resampling` false. The same stream created with a working resampler and
then reconfigured by `proxy_reconfig_capture_usage` to the primary type
(hardware rate 48000) has equal rates, no resampler, and `need_resampling`
still true. -/
theorem need_resampling_not_iff :
    (∃ s : audio_proxy_stream,
      proxy_create_capture_stream sampleDefs samplePlatform
        { sample_stream_hw with create_resampler := -1 }
        (initial_proxy sampleDefs) sampleDefs.ASTREAM_CAPTURE_CALL 13 sample_config = some s ∧
      s.requested_sample_rate = 48000 ∧ s.pcmconfig.rate = 32000 ∧
      s.need_resampling = false) ∧
    (∃ s : audio_proxy_stream,
      proxy_create_capture_stream sampleDefs samplePlatform sample_stream_hw
        (initial_proxy sampleDefs) sampleDefs.ASTREAM_CAPTURE_CALL 13 sample_config = some s ∧
      s.need_resampling = true ∧
      (proxy_reconfig_capture_usage sampleDefs samplePlatform sample_stream_hw
        (initial_proxy sampleDefs) s sampleDefs.ASTREAM_CAPTURE_PRIMARY
        sampleDefs.AUSAGE_NONE).1 = 0 ∧
      (proxy_reconfig_capture_usage sampleDefs samplePlatform sample_stream_hw
        (initial_proxy sampleDefs) s sampleDefs.ASTREAM_CAPTURE_PRIMARY
        sampleDefs.AUSAGE_NONE).2.requested_sample_rate = 48000 ∧
      (proxy_reconfig_capture_usage sampleDefs samplePlatform sample_stream_hw
        (initial_proxy sampleDefs) s sampleDefs.ASTREAM_CAPTURE_PRIMARY
        sampleDefs.AUSAGE_NONE).2.pcmconfig.rate = 48000 ∧
      (proxy_reconfig_capture_usage sampleDefs samplePlatform sample_stream_hw
        (initial_proxy sampleDefs) s sampleDefs.ASTREAM_CAPTURE_PRIMARY
        sampleDefs.AUSAGE_NONE).2.resampler = none ∧
      (proxy_reconfig_capture_usage sampleDefs samplePlatform sample_stream_hw
        (initial_proxy sampleDefs) s sampleDefs.ASTREAM_CAPTURE_PRIMARY
        sampleDefs.AUSAGE_NONE).2.need_resampling = true) :=
  ⟨⟨_, rfl, rfl, rfl, rfl⟩, ⟨_, rfl, rfl, rfl, rfl, rfl, rfl, rfl⟩⟩

/-- Claim C12, as amended: whenever `check_conversion` runs with a requested
channel count of 1 and a hardware channel count of 2, `need_monoconversion` is
true afterwards. For a capture stream that `proxy_create_capture_stream`
returns, of a type that evaluates conversion needs (not the type without
attribute, not MMAP), `need_monoconversion` is true if and only if the
requested channel count is 1 and the hardware channel count is 2. A capture
stream of any type created with a requested rate and channel count equal to
the hardware ones has `need_resampling` and `need_monoconversion` false. -/
theorem need_monoconversion_after_evaluation (K : Defs) (P : Platform) (hw : stream_hw)
    (aproxy : audio_proxy) (type usage : Nat) (cfg : audio_config) :
    (∀ (r : Int) (a : audio_proxy_stream),
        P.audio_channel_count_from_in_mask a.requested_channel_mask = 1 →
        a.pcmconfig.channels = 2 →
        (check_conversion P r a).need_monoconversion = true) ∧
    (∀ s : audio_proxy_stream,
        proxy_create_capture_stream K P hw aproxy type usage cfg = some s →
        (type ≠ K.ASTREAM_CAPTURE_NO_ATTRIBUTE → type ≠ K.ASTREAM_CAPTURE_MMAP →
          (s.need_monoconversion = true ↔
            P.audio_channel_count_from_in_mask s.requested_channel_mask = 1 ∧
            s.pcmconfig.channels = 2)) ∧
        (s.requested_sample_rate = s.pcmconfig.rate →
          P.audio_channel_count_from_in_mask s.requested_channel_mask = s.pcmconfig.channels →
          s.need_resampling = false ∧ s.need_monoconversion = false)) := by
  constructor
  · intro r a h1 h2
    rw [check_conversion_need_monoconversion]
    simp [h1, h2]
  · intro s h
    rcases proxy_create_capture_stream_cases K P hw aproxy type usage cfg s h with
      ⟨a, ha1, ha2, _, rfl⟩ | ⟨h1, h2, _, h4⟩
    · simp only [check_conversion_need_resampling, check_conversion_need_monoconversion,
        check_conversion_pcmconfig, (check_conversion_requested P _ a).1,
        (check_conversion_requested P _ a).2, ha1, ha2]
      constructor
      · intro _ _
        simp
      · intro e1 e2
        simp only [Bool.false_or, decide_eq_false_iff_not, not_and]
        constructor
        · intro hne
          exact absurd e1 hne
        · intro hc hch
          rw [hc, hch] at e2
          exact absurd e2 (by decide)
    · constructor
      · intro hna hnm
        rcases h4 with h4 | ⟨h4, _⟩
        · exact absurd h4 hna
        · exact absurd h4 hnm
      · intro _ _
        exact ⟨h1, h2⟩

theorem need_monoconversion_after_evaluation_witness :
    ∃ s : audio_proxy_stream,
      proxy_create_capture_stream sampleDefs samplePlatform sample_stream_hw
        (initial_proxy sampleDefs) sampleDefs.ASTREAM_CAPTURE_FM 13 sample_config = some s ∧
      s.need_resampling = false ∧ s.need_monoconversion = false :=
  ⟨_, rfl,
    ((need_monoconversion_after_evaluation sampleDefs samplePlatform sample_stream_hw
        (initial_proxy sampleDefs) sampleDefs.ASTREAM_CAPTURE_FM 13 sample_config).2
        _ rfl).2 rfl rfl⟩

/-- Claim C12, counterexample: a call-recording stream created for a mono
mask has `need_monoconversion` true. After `proxy_reconfig_capture_stream`
stores a stereo mask and `proxy_reconfig_capture_usage` evaluates the
conversion needs again, the requested channel count is 2, the hardware channel
count is 2, and `need_monoconversion` is still true. -/
theorem need_monoconversion_stays_set :
    ∃ s : audio_proxy_stream,
      proxy_create_capture_stream sampleDefs samplePlatform sample_stream_hw
        (initial_proxy sampleDefs) sampleDefs.ASTREAM_CAPTURE_CALL 13
        { sample_config with channel_mask := 16 } = some s ∧
      s.need_monoconversion = true ∧
      (proxy_reconfig_capture_usage sampleDefs samplePlatform sample_stream_hw
        (initial_proxy sampleDefs)
        (proxy_reconfig_capture_stream s sampleDefs.ASTREAM_CAPTURE_CALL sample_config).2
        sampleDefs.ASTREAM_CAPTURE_CALL sampleDefs.AUSAGE_NONE).1 = 0 ∧
      samplePlatform.audio_channel_count_from_in_mask
        (proxy_reconfig_capture_usage sampleDefs samplePlatform sample_stream_hw
          (initial_proxy sampleDefs)
          (proxy_reconfig_capture_stream s sampleDefs.ASTREAM_CAPTURE_CALL sample_config).2
          sampleDefs.ASTREAM_CAPTURE_CALL sampleDefs.AUSAGE_NONE).2.requested_channel_mask = 2 ∧
      (proxy_reconfig_capture_usage sampleDefs samplePlatform sample_stream_hw
        (initial_proxy sampleDefs)
        (proxy_reconfig_capture_stream s sampleDefs.ASTREAM_CAPTURE_CALL sample_config).2
        sampleDefs.ASTREAM_CAPTURE_CALL sampleDefs.AUSAGE_NONE).2.pcmconfig.channels = 2 ∧
      (proxy_reconfig_capture_usage sampleDefs samplePlatform sample_stream_hw
        (initial_proxy sampleDefs)
        (proxy_reconfig_capture_stream s sampleDefs.ASTREAM_CAPTURE_CALL sample_config).2
        sampleDefs.ASTREAM_CAPTURE_CALL sampleDefs.AUSAGE_NONE).2.need_monoconversion = true :=
  ⟨_, rfl, rfl, rfl, rfl, rfl, rfl⟩

/-! ## Gain path names -/

/-- Claim C19: `make_gain` does not keep the whole of every path name. Both of
its string calls are bounded by `MAX_PATH_NAME_LEN` (50 bytes, 49 characters),
so the gain name is "gain-" followed by the first 44 characters of the path
name; it is "gain-" followed by the whole name exactly when the name has at
most 44 characters. A name of 45 characters, shorter than `MAX_PATH_NAME_LEN`,
loses its last character. -/
theorem make_gain_cuts_at_49 (p : CStr) :
    make_gain p = "gain-".toList ++ p.take 44 ∧
    (make_gain p = "gain-".toList ++ p ↔ p.length ≤ 44) ∧
    (List.replicate 45 'a').length < MAX_PATH_NAME_LEN ∧
    make_gain (List.replicate 45 'a') = "gain-".toList ++ List.replicate 44 'a' := by
  have h : make_gain p = "gain-".toList ++ p.take 44 := by
    simp [make_gain, strlcat, strlcpy, MAX_PATH_NAME_LEN]
  refine ⟨h, ?_, by decide, by decide⟩
  rw [h]
  constructor
  · intro e
    have e2 := congrArg List.length e
    simp at e2
    omega
  · intro hl
    rw [List.take_of_length_le hl]

/-! ## Presentation position and written frames -/

theorem to_uint64_of_nonneg (x : Int) (h0 : 0 ≤ x) (h1 : x < 18446744073709551616) :
    to_uint64 x = x.toNat := by
  unfold to_uint64
  omega

/-- Claim C13: for a PCM playback stream (not compress offload) with an open
handle, valid output pointers and a timestamp query that succeeds with `avail`
available frames, `proxy_get_presen_position` stores
`frames - period_size * period_count + avail` and returns 0 when that value is
not negative, and stores 0 and returns `-ENODATA` when it is negative. The
fields have the ranges of their C types and the value fits an `int64_t`. -/
theorem proxy_get_presen_position_pcm (K : Defs) (hw : stream_hw) (s : audio_proxy_stream)
    (hty : s.stream_type ≠ K.ASTREAM_PLAYBACK_COMPR_OFFLOAD) (hpcm : s.pcm = true)
    (hq : hw.pcm_get_htimestamp = 0)
    (hps : s.pcmconfig.period_size < 4294967296)
    (hpc : s.pcmconfig.period_count < 4294967296)
    (hav : hw.avail < 4294967296)
    (hfr : s.frames < 18446744073709551616)
    (hlo : -9223372036854775808 ≤
      (s.frames : Int) - s.pcmconfig.period_size * s.pcmconfig.period_count + hw.avail)
    (hhi : (s.frames : Int) - s.pcmconfig.period_size * s.pcmconfig.period_count + hw.avail
      < 9223372036854775808) :
    (0 ≤ (s.frames : Int) - s.pcmconfig.period_size * s.pcmconfig.period_count + hw.avail →
      proxy_get_presen_position K hw s true true =
        (0, some ((s.frames : Int) - s.pcmconfig.period_size * s.pcmconfig.period_count
          + hw.avail).toNat)) ∧
    ((s.frames : Int) - s.pcmconfig.period_size * s.pcmconfig.period_count + hw.avail < 0 →
      proxy_get_presen_position K hw s true true = (-ENODATA, some 0)) := by
  have hk : s.pcmconfig.period_size * s.pcmconfig.period_count < 18446744073709551616 := by
    calc s.pcmconfig.period_size * s.pcmconfig.period_count
        < 4294967296 * 4294967296 := Nat.mul_lt_mul'' hps hpc
      _ = 18446744073709551616 := by norm_num
  unfold proxy_get_presen_position
  simp only [and_self, if_true, if_neg hty, hpcm, hq, Nat.mod_eq_of_lt hps,
    Nat.mod_eq_of_lt hpc, Nat.mod_eq_of_lt hav, Nat.mod_eq_of_lt hfr, Nat.mod_eq_of_lt hk]
  rw [← Nat.cast_mul] at hlo hhi ⊢
  generalize s.pcmconfig.period_size * s.pcmconfig.period_count = k at *
  generalize s.frames = f at *
  generalize hw.avail = a at *
  constructor
  · intro h0
    have e : to_int64 ((f + (18446744073709551616 - k) + a) % 18446744073709551616) =
        (f : Int) - k + a := by
      unfold to_int64
      split_ifs <;> omega
    rw [e, if_pos (by omega)]
  · intro h0
    have e : to_int64 ((f + (18446744073709551616 - k) + a) % 18446744073709551616) =
        (f : Int) - k + a := by
      unfold to_int64
      split_ifs <;> omega
    rw [e, if_neg (by omega)]

theorem proxy_get_presen_position_pcm_witness :
    proxy_get_presen_position sampleDefs { sample_stream_hw with avail := 3000 }
        sample_primary_playback_stream true true = (0, some 160) ∧
    proxy_get_presen_position sampleDefs sample_stream_hw
        sample_primary_playback_stream true true = (-ENODATA, some 0) :=
  ⟨(proxy_get_presen_position_pcm sampleDefs { sample_stream_hw with avail := 3000 }
      sample_primary_playback_stream (by decide) rfl rfl (by decide) (by decide) (by decide)
      (by decide) (by decide) (by decide)).1 (by decide),
   (proxy_get_presen_position_pcm sampleDefs sample_stream_hw
      sample_primary_playback_stream (by decide) rfl rfl (by decide) (by decide) (by decide)
      (by decide) (by decide) (by decide)).2 (by decide)⟩

theorem save_written_frames_frames (P : Platform) (s : audio_proxy_stream) (bytes : Int)
    (hb : 0 ≤ bytes) (hb2 : bytes < 18446744073709551616)
    (hch : 0 < s.pcmconfig.channels) (hch2 : s.pcmconfig.channels < 4294967296)
    (hbps : 0 < P.audio_bytes_per_sample (P.audio_format_from_pcm_format s.pcmconfig.format))
    (hbps2 : P.audio_bytes_per_sample (P.audio_format_from_pcm_format s.pcmconfig.format)
      < 4294967296) :
    save_written_frames P s bytes =
      some { s with frames := (s.frames + bytes.toNat /
        (s.pcmconfig.channels *
          P.audio_bytes_per_sample (P.audio_format_from_pcm_format s.pcmconfig.format)))
        % 18446744073709551616 } := by
  have hk : s.pcmconfig.channels *
      P.audio_bytes_per_sample (P.audio_format_from_pcm_format s.pcmconfig.format)
      < 18446744073709551616 := by
    calc _ < 4294967296 * 4294967296 := Nat.mul_lt_mul'' hch2 hbps2
      _ = 18446744073709551616 := by norm_num
  have hpos : 0 < s.pcmconfig.channels *
      P.audio_bytes_per_sample (P.audio_format_from_pcm_format s.pcmconfig.format) :=
    Nat.mul_pos hch hbps
  unfold save_written_frames
  simp only [Nat.mod_eq_of_lt hch2, Nat.mod_eq_of_lt hk, to_uint64_of_nonneg bytes hb hb2]
  rw [if_neg (by omega)]

theorem skip_pcm_processing_zero (K : Defs) (P : Platform) (s : audio_proxy_stream)
    (hty : s.stream_type ≠ K.ASTREAM_PLAYBACK_COMPR_OFFLOAD)
    (hch : 0 < s.pcmconfig.channels) (hch2 : s.pcmconfig.channels < 4294967296)
    (hbps : 0 < P.audio_bytes_per_sample (P.audio_format_from_pcm_format s.pcmconfig.format))
    (hbps2 : P.audio_bytes_per_sample (P.audio_format_from_pcm_format s.pcmconfig.format)
      < 4294967296)
    (hrate : s.pcmconfig.rate % 4294967296 ≠ 0) :
    skip_pcm_processing K P s 0 = some (s.emit (.usleep 0)) := by
  have hk : s.pcmconfig.channels *
      P.audio_bytes_per_sample (P.audio_format_from_pcm_format s.pcmconfig.format)
      < 18446744073709551616 := by
    calc _ < 4294967296 * 4294967296 := Nat.mul_lt_mul'' hch2 hbps2
      _ = 18446744073709551616 := by norm_num
  have hpos : 0 < s.pcmconfig.channels *
      P.audio_bytes_per_sample (P.audio_format_from_pcm_format s.pcmconfig.format) :=
    Nat.mul_pos hch hbps
  unfold skip_pcm_processing proxy_get_actual_sampling_rate
  simp only [Nat.mod_eq_of_lt hch2, Nat.mod_eq_of_lt hk, if_neg hty, if_neg hrate]
  rw [if_neg (by omega)]
  simp [to_uint64]

/-- Claim C14: for a PCM playback stream (not compress offload) with an open
handle, a write of `bytes` bytes returns `bytes` and advances the cumulative
frame counter (a 64-bit counter) by `bytes / (channels * bytes_per_sample)`,
whatever `pcm_write` returns and whatever device is routed. The byte count is
not negative, and the hardware configuration has a channel count, a sample
size and a rate that are not zero. -/
theorem proxy_write_playback_buffer_pcm (K : Defs) (P : Platform) (hw : stream_hw)
    (aproxy : audio_proxy) (s : audio_proxy_stream) (bytes : Int)
    (hty : s.stream_type ≠ K.ASTREAM_PLAYBACK_COMPR_OFFLOAD) (hpcm : s.pcm = true)
    (hb : 0 ≤ bytes) (hb2 : bytes < 2147483648)
    (hch : 0 < s.pcmconfig.channels) (hch2 : s.pcmconfig.channels < 4294967296)
    (hbps : 0 < P.audio_bytes_per_sample (P.audio_format_from_pcm_format s.pcmconfig.format))
    (hbps2 : P.audio_bytes_per_sample (P.audio_format_from_pcm_format s.pcmconfig.format)
      < 4294967296)
    (hrate : s.pcmconfig.rate % 4294967296 ≠ 0) :
    ∃ s' : audio_proxy_stream,
      proxy_write_playback_buffer K P hw aproxy s bytes = some (bytes, s') ∧
      s'.frames = (s.frames + bytes.toNat /
        (s.pcmconfig.channels *
          P.audio_bytes_per_sample (P.audio_format_from_pcm_format s.pcmconfig.format)))
        % 18446744073709551616 := by
  have hb3 : bytes < 18446744073709551616 := by omega
  unfold proxy_write_playback_buffer
  simp only []
  split_ifs with h1 h2
  · rw [skip_pcm_processing_zero K P s hty hch hch2 hbps hbps2 hrate]
    simp only [Option.some_bind]
    rw [save_written_frames_frames P (s.emit (.usleep 0)) bytes hb hb3 hch hch2 hbps hbps2]
    exact ⟨_, rfl, rfl⟩
  · simp only [Option.some_bind]
    rw [save_written_frames_frames P (s.emit (.pcm_write bytes)) bytes hb hb3 hch hch2 hbps hbps2]
    exact ⟨_, rfl, rfl⟩
  · rw [skip_pcm_processing_zero K P (s.emit (.pcm_write bytes)) hty hch hch2 hbps hbps2 hrate]
    simp only [Option.some_bind]
    rw [save_written_frames_frames P ((s.emit (.pcm_write bytes)).emit (.usleep 0)) bytes hb hb3
      hch hch2 hbps hbps2]
    exact ⟨_, rfl, rfl⟩

theorem proxy_write_playback_buffer_pcm_witness :
    ∃ s' : audio_proxy_stream,
      proxy_write_playback_buffer sampleDefs samplePlatform
        { sample_stream_hw with pcm_write := -1 } (initial_proxy sampleDefs)
        sample_primary_playback_stream 3840 = some (3840, s') ∧
      s'.frames = 1960 :=
  proxy_write_playback_buffer_pcm sampleDefs samplePlatform
    { sample_stream_hw with pcm_write := -1 } (initial_proxy sampleDefs)
    sample_primary_playback_stream 3840 (by decide) rfl (by decide) (by decide) (by decide)
    (by decide) (by decide) (by decide) (by decide)
/-! ## Opening, starting, stopping and closing -/

theorem mmap_negotiation_pcm (K : Defs) (hw : stream_hw) (a : audio_proxy_stream) :
    (mmap_negotiation K hw a).1.pcm = a.pcm := by
  unfold mmap_negotiation
  simp only [audio_proxy_stream.emit]
  split_ifs <;> rfl

/-- Claim C17, as amended: for every playback or capture stream in any state,
a close that follows a close returns 0, issues no call and leaves the stream
as the first close left it; the first close issues at most one call, the
close of the handle, so the handle is released at most once. A stop on a stream
whose handle is NULL, and on a PCM playback stream that is neither MMAP nor
compress offload, returns 0, issues no call and leaves the stream unchanged. A
stop on a capture stream with an open handle issues `pcm_stop`, keeps the
handle open and returns the status of `pcm_stop`, also when it follows another
stop. -/
theorem close_twice_and_stop_closed (K : Defs) (hw hw2 : stream_hw) (s : audio_proxy_stream) :
    (proxy_close_playback_stream K hw2 (proxy_close_playback_stream K hw s).2 =
        (0, (proxy_close_playback_stream K hw s).2) ∧
      ((proxy_close_playback_stream K hw s).2.calls = s.calls ∨
        (proxy_close_playback_stream K hw s).2.calls = s.calls ++ [.pcm_close] ∨
        (proxy_close_playback_stream K hw s).2.calls = s.calls ++ [.compress_close])) ∧
    (proxy_close_capture_stream hw2 (proxy_close_capture_stream hw s).2 =
        (0, (proxy_close_capture_stream hw s).2) ∧
      ((proxy_close_capture_stream hw s).2.calls = s.calls ∨
        (proxy_close_capture_stream hw s).2.calls = s.calls ++ [.pcm_close])) ∧
    (s.pcm = false → proxy_stop_capture_stream hw s = (0, s)) ∧
    (s.stream_type = K.ASTREAM_PLAYBACK_COMPR_OFFLOAD → s.compress = false →
      proxy_stop_playback_stream K hw s = (0, s)) ∧
    (s.stream_type ≠ K.ASTREAM_PLAYBACK_COMPR_OFFLOAD →
      (s.stream_type = K.ASTREAM_PLAYBACK_MMAP → s.pcm = false) →
      proxy_stop_playback_stream K hw s = (0, s)) ∧
    (s.pcm = true →
      proxy_stop_capture_stream hw s = (hw.pcm_stop, s.emit .pcm_stop) ∧
      proxy_stop_capture_stream hw2 (proxy_stop_capture_stream hw s).2 =
        (hw2.pcm_stop, (s.emit .pcm_stop).emit .pcm_stop)) := by
  refine ⟨⟨?_, ?_⟩, ⟨?_, ?_⟩, ?_, ?_, ?_, ?_⟩
  · unfold proxy_close_playback_stream
    by_cases h1 : s.stream_type = K.ASTREAM_PLAYBACK_COMPR_OFFLOAD
    · by_cases h2 : s.compress = true
      · simp [h1, h2, audio_proxy_stream.emit]
      · simp [h1, h2]
    · by_cases h2 : s.pcm = true
      · simp [h1, h2, audio_proxy_stream.emit]
      · simp [h1, h2]
  · unfold proxy_close_playback_stream
    by_cases h1 : s.stream_type = K.ASTREAM_PLAYBACK_COMPR_OFFLOAD
    · by_cases h2 : s.compress = true
      · simp [h1, h2, audio_proxy_stream.emit]
      · simp [h1, h2]
    · by_cases h2 : s.pcm = true
      · simp [h1, h2, audio_proxy_stream.emit]
      · simp [h1, h2]
  · unfold proxy_close_capture_stream
    by_cases h2 : s.pcm = true
    · simp [h2, audio_proxy_stream.emit]
    · simp [h2]
  · unfold proxy_close_capture_stream
    by_cases h2 : s.pcm = true
    · simp [h2, audio_proxy_stream.emit]
    · simp [h2]
  · intro h
    simp [proxy_stop_capture_stream, h]
  · intro h1 h2
    simp [proxy_stop_playback_stream, h1, h2]
  · intro h1 h2
    unfold proxy_stop_playback_stream
    rw [if_neg h1]
    by_cases h3 : s.stream_type = K.ASTREAM_PLAYBACK_MMAP
    · simp [h3, h2 h3]
    · simp [h3]
  · intro h
    simp [proxy_stop_capture_stream, h, audio_proxy_stream.emit]

theorem close_twice_and_stop_closed_witness :
    proxy_stop_capture_stream sample_stream_hw
        (proxy_close_capture_stream sample_stream_hw sample_primary_capture_stream).2 =
      (0, (proxy_close_capture_stream sample_stream_hw sample_primary_capture_stream).2) ∧
    (proxy_stop_capture_stream sample_stream_hw sample_primary_capture_stream).1 = 0 :=
  ⟨(close_twice_and_stop_closed sampleDefs sample_stream_hw sample_stream_hw
      (proxy_close_capture_stream sample_stream_hw sample_primary_capture_stream).2).2.2.1 rfl,
   congrArg Prod.fst ((close_twice_and_stop_closed sampleDefs sample_stream_hw sample_stream_hw
      sample_primary_capture_stream).2.2.2.2.2 rfl).1⟩

/-- Claim C17, counterexample: a capture stream with an open handle on which
`pcm_stop` fails with -1. The first stop returns -1 and the stop that follows
it calls `pcm_stop` again and returns -1 too, not success. -/
theorem stop_twice_returns_the_hardware_status :
    (proxy_stop_capture_stream { sample_stream_hw with pcm_stop := -1 }
      sample_primary_capture_stream).1 = -1 ∧
    (proxy_stop_capture_stream { sample_stream_hw with pcm_stop := -1 }
      (proxy_stop_capture_stream { sample_stream_hw with pcm_stop := -1 }
        sample_primary_capture_stream).2).1 = -1 ∧
    (proxy_stop_capture_stream { sample_stream_hw with pcm_stop := -1 }
      (proxy_stop_capture_stream { sample_stream_hw with pcm_stop := -1 }
        sample_primary_capture_stream).2).2.calls = [.pcm_stop, .pcm_stop] :=
  ⟨rfl, rfl, rfl⟩

/-- Claim C18, as amended: a start on a stream whose hardware handle is NULL
issues no call and leaves the stream unchanged. It returns 0 for every capture
stream and for the playback kinds other than compress offload and MMAP (whose
start never touches the handle), and it returns `-ENOSYS` for a compress
offload stream and for an MMAP playback stream. -/
theorem start_on_closed_handle (K : Defs) (hw : stream_hw) (s : audio_proxy_stream) :
    (s.pcm = false → proxy_start_capture_stream hw s = (0, s)) ∧
    (s.stream_type ≠ K.ASTREAM_PLAYBACK_COMPR_OFFLOAD →
      s.stream_type ≠ K.ASTREAM_PLAYBACK_MMAP →
      proxy_start_playback_stream K hw s = (0, s)) ∧
    (s.stream_type = K.ASTREAM_PLAYBACK_COMPR_OFFLOAD → s.compress = false →
      proxy_start_playback_stream K hw s = (-ENOSYS, s)) ∧
    (s.stream_type ≠ K.ASTREAM_PLAYBACK_COMPR_OFFLOAD →
      s.stream_type = K.ASTREAM_PLAYBACK_MMAP → s.pcm = false →
      proxy_start_playback_stream K hw s = (-ENOSYS, s)) := by
  refine ⟨?_, ?_, ?_, ?_⟩
  · intro h
    simp [proxy_start_capture_stream, h]
  · intro h1 h2
    simp [proxy_start_playback_stream, h1, h2]
  · intro h1 h2
    simp [proxy_start_playback_stream, h1, h2]
  · intro h1 h2 h3
    unfold proxy_start_playback_stream
    rw [if_neg h1, if_pos h2]
    simp [h3]

theorem start_on_closed_handle_witness :
    proxy_start_capture_stream sample_stream_hw
        { sample_primary_capture_stream with pcm := false } =
      (0, { sample_primary_capture_stream with pcm := false }) :=
  (start_on_closed_handle sampleDefs sample_stream_hw
    { sample_primary_capture_stream with pcm := false }).1 rfl

/-- Claim C18, counterexample: the MMAP playback stream that
`proxy_create_playback_stream` returns has both handles NULL, and its start
returns `-ENOSYS` (-38), an error. -/
theorem start_closed_mmap_playback_is_an_error :
    ∃ s : audio_proxy_stream,
      proxy_create_playback_stream sampleDefs samplePlatform sample_stream_hw
        sampleDefs.ASTREAM_PLAYBACK_MMAP sample_config = some s ∧
      s.pcm = false ∧ s.compress = false ∧
      (proxy_start_playback_stream sampleDefs sample_stream_hw s).1 = -38 ∧
      (proxy_start_playback_stream sampleDefs sample_stream_hw s).2.calls = [] :=
  ⟨_, rfl, rfl, rfl, rfl, rfl⟩

/-! ## MMAP streams -/

/-- Claim C20, as amended: an MMAP playback stream is created with the sample
rate and period size of `pcm_config_mmap_playback`, whatever is requested. An
MMAP capture stream is created with the rate and period size of
`pcm_config_mmap_capture` when the requested rate is the one of the table; for
any other requested rate its hardware rate is the requested rate and its
period size is the number of frames of `PREDEFINED_MMAP_CAPTURE_DURATION`
milliseconds with the two low bits cleared. In both cases creation leaves
`need_resampling` and `need_monoconversion` false and no resampler. -/
theorem mmap_stream_creation (K : Defs) (P : Platform) (hw : stream_hw) (aproxy : audio_proxy)
    (usage : Nat) (cfg : audio_config) (hd : stream_types_distinct K)
    (hok : hw.calloc_ok = true) :
    (∃ s : audio_proxy_stream,
      proxy_create_playback_stream K P hw K.ASTREAM_PLAYBACK_MMAP cfg = some s ∧
      s.pcmconfig.rate = pcm_config_mmap_playback.rate ∧
      s.pcmconfig.period_size = pcm_config_mmap_playback.period_size ∧
      s.need_resampling = false ∧ s.need_monoconversion = false ∧ s.resampler = none) ∧
    (∃ s : audio_proxy_stream,
      proxy_create_capture_stream K P hw aproxy K.ASTREAM_CAPTURE_MMAP usage cfg = some s ∧
      (cfg.sample_rate = pcm_config_mmap_capture.rate →
        s.pcmconfig.rate = pcm_config_mmap_capture.rate ∧
        s.pcmconfig.period_size = pcm_config_mmap_capture.period_size) ∧
      (cfg.sample_rate ≠ pcm_config_mmap_capture.rate →
        s.pcmconfig.rate = cfg.sample_rate ∧
        s.pcmconfig.period_size =
          ((cfg.sample_rate * PREDEFINED_MMAP_CAPTURE_DURATION) % 4294967296 / 1000)
            &&& 0xFFFFFFFC) ∧
      s.need_resampling = false ∧ s.need_monoconversion = false ∧ s.resampler = none) := by
  unfold stream_types_distinct at hd
  simp only [List.nodup_cons, List.mem_cons, List.mem_singleton, not_or, List.not_mem_nil,
    not_false_eq_true, List.nodup_nil, and_true] at hd
  obtain ⟨h1, h2, h3, h4, h5, h6, h7, h8, h9, h10, h11, h12, -⟩ := hd
  constructor
  · unfold proxy_create_playback_stream
    rw [if_neg (by simp [hok]), if_neg (Ne.symm h1.2.2.2.2.2.1), if_neg (Ne.symm h2.2.2.2.2.1),
      if_neg (Ne.symm h5.2.1), if_neg (Ne.symm h3.2.2.2.1), if_neg (Ne.symm h4.2.2.1),
      if_neg (Ne.symm h6.1), if_pos rfl]
    exact ⟨_, rfl, rfl, rfl, rfl, rfl, rfl⟩
  · unfold proxy_create_capture_stream
    rw [if_neg (by simp [hok]), if_neg (Ne.symm h9.2.2.2.1), if_neg (Ne.symm h10.2.2.1), if_neg (Ne.symm h11.2.1),
      if_neg (Ne.symm h12.1), if_pos rfl]
    by_cases hr : cfg.sample_rate = pcm_config_mmap_capture.rate
    · refine ⟨_, rfl, ?_, ?_, ?_, ?_, ?_⟩ <;> simp [hr]
    · refine ⟨_, rfl, ?_, ?_, ?_, ?_, ?_⟩ <;> simp [hr]

theorem mmap_stream_creation_witness :
    (∃ s : audio_proxy_stream,
      proxy_create_playback_stream sampleDefs samplePlatform sample_stream_hw
        sampleDefs.ASTREAM_PLAYBACK_MMAP { sample_config with sample_rate := 44100 } = some s ∧
      s.pcmconfig.rate = pcm_config_mmap_playback.rate ∧
      s.pcmconfig.period_size = pcm_config_mmap_playback.period_size ∧
      s.need_resampling = false ∧ s.need_monoconversion = false ∧ s.resampler = none) :=
  (mmap_stream_creation sampleDefs samplePlatform sample_stream_hw (initial_proxy sampleDefs)
    0 { sample_config with sample_rate := 44100 } (by decide) rfl).1

/-- Claim C20, counterexample: an MMAP capture stream created for 44100 Hz has
the hardware rate 44100 and the period size 88, not the 48000 and 96 of
`pcm_config_mmap_capture`. Opened while an AP call is active, the same stream
is moved to the primary capture configuration and `check_conversion` gives it
a resampler from 48000 to 44100 with `need_resampling` true. -/
theorem mmap_capture_follows_requested_rate :
    ∃ s : audio_proxy_stream,
      proxy_create_capture_stream sampleDefs samplePlatform sample_stream_hw
        (initial_proxy sampleDefs) sampleDefs.ASTREAM_CAPTURE_MMAP 0
        { sample_config with sample_rate := 44100 } = some s ∧
      s.pcmconfig.rate = 44100 ∧ s.pcmconfig.period_size = 88 ∧
      pcm_config_mmap_capture.rate = 48000 ∧ pcm_config_mmap_capture.period_size = 96 ∧
      (proxy_open_capture_stream sampleDefs samplePlatform sample_stream_hw 600
        sample_apcall_proxy s 0).map
          (fun r => (r.1, r.2.stream_type, r.2.need_resampling, r.2.resampler)) =
        some (0, sampleDefs.ASTREAM_CAPTURE_MMAP, true,
          some { in_rate := 48000, out_rate := 44100, channels := 2 }) :=
  ⟨_, rfl, rfl, rfl, rfl, rfl, rfl⟩

/-! ## The capture read loop -/

theorem get_next_buffer_spec (K : Defs) (ro : Bool) (rd : pcm_read_result)
    (s : audio_proxy_stream) (n : Nat) (hn : 0 < n) (hper : 0 < s.pcmconfig.period_size) :
    (get_next_buffer K ro rd s { raw := none, frame_count := n }).1 =
      (get_next_buffer K ro rd s { raw := none, frame_count := n }).2.1.actual_read_status ∧
    (get_next_buffer K ro rd s { raw := none, frame_count := n }).2.1.resampler = s.resampler ∧
    (get_next_buffer K ro rd s { raw := none, frame_count := n }).2.1.pcmconfig = s.pcmconfig ∧
    (get_next_buffer K ro rd s { raw := none, frame_count := n }).2.1.frames = s.frames ∧
    ((get_next_buffer K ro rd s { raw := none, frame_count := n }).1 = 0 →
      (get_next_buffer K ro rd s { raw := none, frame_count := n }).2.2.frame_count ≤ n ∧
      ((get_next_buffer K ro rd s { raw := none, frame_count := n }).2.2.raw.isSome = true →
        0 < (get_next_buffer K ro rd s { raw := none, frame_count := n }).2.2.frame_count)) := by
  unfold get_next_buffer
  simp only []
  by_cases hp : s.pcm = true
  · rw [if_pos hp]
    by_cases hz : s.read_buf_frames = 0
    · rw [if_pos hz]
      split
      · rename_i old hold
        by_cases hst : rd.status = 0
        · rw [if_neg (by simpa using hst)]
          refine ⟨rfl, ?_, ?_, ?_, fun _ => ⟨?_, fun _ => ?_⟩⟩
          · simp only []; split_ifs <;> rfl
          · simp only []; split_ifs <;> rfl
          · simp only []; split_ifs <;> rfl
          · simp only []
            split_ifs <;> simp_all <;> omega
          · simp only []
            split_ifs <;> simp_all
        · rw [if_pos hst]
          refine ⟨rfl, ?_, ?_, ?_, fun h => absurd h hst⟩
          · simp only []; split_ifs <;> rfl
          · simp only []; split_ifs <;> rfl
          · simp only []; split_ifs <;> rfl
      · refine ⟨rfl, ?_, ?_, ?_, fun h => ?_⟩
        · simp only []; split_ifs <;> rfl
        · simp only []; split_ifs <;> rfl
        · simp only []; split_ifs <;> rfl
        · simp [ENOMEM] at h
    · rw [if_neg hz]
      refine ⟨rfl, rfl, rfl, rfl, fun _ => ⟨?_, fun _ => ?_⟩⟩
      · simp only []
        split_ifs <;> omega
      · simp only []
        split_ifs <;> omega
  · rw [if_neg hp]
    refine ⟨rfl, rfl, rfl, rfl, fun h => ?_⟩
    simp [ENODEV] at h

theorem read_frames_pass_spec (K : Defs) (env : capture_hw) (i : Nat) (s : audio_proxy_stream)
    (n : Nat) (hn : 0 < n) (hper : s.resampler = none → 0 < s.pcmconfig.period_size)
    (hres : ∀ (j : Nat) (t : audio_proxy_stream) (k : Nat),
      (env.resample_from_provider j t k).frames_rd ≤ k ∧
      (0 < k → (env.resample_from_provider j t k).actual_read_status = 0 →
        0 < (env.resample_from_provider j t k).frames_rd)) :
    (read_frames_pass K env i s n).2.2 = (read_frames_pass K env i s n).1.actual_read_status ∧
    (read_frames_pass K env i s n).1.resampler = s.resampler ∧
    (read_frames_pass K env i s n).1.pcmconfig = s.pcmconfig ∧
    (read_frames_pass K env i s n).1.frames = s.frames ∧
    ((read_frames_pass K env i s n).1.actual_read_status = 0 →
      0 < (read_frames_pass K env i s n).2.1 ∧ (read_frames_pass K env i s n).2.1 ≤ n) := by
  unfold read_frames_pass
  cases hr : s.resampler with
  | some x =>
    exact ⟨rfl, rfl, rfl, rfl, fun h => ⟨(hres i s n).2 hn h, (hres i s n).1⟩⟩
  | none =>
    simp only [release_buffer]
    obtain ⟨g1, g2, g3, g4, g5⟩ := get_next_buffer_spec K (env.realloc_ok i) (env.pcm_read i) s n hn
      (hper hr)
    refine ⟨g1, g2.trans hr, g3, g4, fun h => ?_⟩
    have g6 := g5 (g1.trans h)
    by_cases hraw : (get_next_buffer K (env.realloc_ok i) (env.pcm_read i) s
        { raw := none, frame_count := n }).2.2.raw.isSome = true
    · rw [if_pos hraw]
      exact ⟨g6.2 hraw, g6.1⟩
    · rw [if_neg hraw]
      exact ⟨hn, le_refl n⟩

theorem read_frames_spec (K : Defs) (env : capture_hw) (F : Int) (hF : F < 2147483648)
    (hres : ∀ (j : Nat) (t : audio_proxy_stream) (k : Nat),
      (env.resample_from_provider j t k).frames_rd ≤ k ∧
      (0 < k → (env.resample_from_provider j t k).actual_read_status = 0 →
        0 < (env.resample_from_provider j t k).frames_rd)) :
    ∀ (fuel i : Nat) (s : audio_proxy_stream) (wr : Int) (log : List Int),
      0 ≤ wr → wr ≤ F → (s.resampler = none → 0 < s.pcmconfig.period_size) →
      (F - wr).toNat < fuel → (∀ x ∈ log, x = 0) →
      ∃ (ret : Int) (s' : audio_proxy_stream) (log' : List Int),
        read_frames K env F fuel i s wr log = some (ret, s', log') ∧
        s'.frames = s.frames ∧
        ((∀ st ∈ log', st = 0) → ret = F) ∧
        (∀ st ∈ log', st ≠ 0 → (∃ pre, log' = pre ++ [st] ∧ ∀ x ∈ pre, x = 0) ∧ ret = st) := by
  intro fuel
  induction fuel with
  | zero => intro i s wr log _ _ _ h; exact absurd h (by omega)
  | succ fuel ih =>
    intro i s wr log h0 h1 hper hfuel hlog
    unfold read_frames
    by_cases hlt : wr < F
    · rw [if_pos hlt]
      have hn : 0 < (F - wr).toNat := by omega
      obtain ⟨p1, p2, p3, p4, p5⟩ := read_frames_pass_spec K env i s (F - wr).toNat hn hper hres
      simp only []
      by_cases hst : (read_frames_pass K env i s (F - wr).toNat).1.actual_read_status = 0
      · rw [if_neg (by simpa using hst)]
        obtain ⟨q1, q2⟩ := p5 hst
        have e : to_int32 (to_uint32 (wr + ((read_frames_pass K env i s (F - wr).toNat).2.1 : Int)))
            = wr + ((read_frames_pass K env i s (F - wr).toNat).2.1 : Int) := by
          unfold to_int32 to_uint32
          split_ifs <;> omega
        rw [e]
        obtain ⟨ret, s', log', r1, r2, r3, r4⟩ := ih (i + 1)
          (read_frames_pass K env i s (F - wr).toNat).1
          (wr + ((read_frames_pass K env i s (F - wr).toNat).2.1 : Int))
          (log ++ [(read_frames_pass K env i s (F - wr).toNat).2.2])
          (by omega) (by omega) (by rw [p2, p3]; exact hper) (by omega)
          (by
            intro x hx
            rw [List.mem_append] at hx
            rcases hx with hx | hx
            · exact hlog x hx
            · rw [List.mem_singleton] at hx
              rw [hx, p1, hst])
        exact ⟨ret, s', log', r1, r2.trans p4, r3, r4⟩
      · rw [if_pos hst]
        refine ⟨_, _, _, rfl, p4, ?_, ?_⟩
        · intro hall
          have hz := hall (read_frames_pass K env i s (F - wr).toNat).2.2 (by simp)
          rw [p1] at hz
          exact absurd hz hst
        · intro st hmem hne
          rw [List.mem_append] at hmem
          rcases hmem with hx | hx
          · exact absurd (hlog st hx) hne
          · rw [List.mem_singleton] at hx
            refine ⟨⟨log, by rw [hx], hlog⟩, ?_⟩
            rw [hx, p1]
    · rw [if_neg hlt]
      refine ⟨_, _, _, rfl, rfl, fun _ => by omega, ?_⟩
      intro st hmem hne
      exact absurd (hlog st hmem) hne

/-- Claim C15, as amended: a capture read that reaches the conversion pipeline
(the muted data branch is not taken) and asks for `F` frames returns within
`F + 1` passes of the read loop. If every pass leaves status 0, the read
returns the requested byte count and the cumulative frame counter (64 bit)
advances by the `F` frames produced. If a pass leaves a status other than 0,
it is the last pass (the loop stops there); when the status is negative the
read returns that status and the frame counter is unchanged, and when it is
positive the read takes it for a frame count: it returns the requested byte
count and the frame counter advances by the status. `F` is a non-negative
`int`; without a resampler the period size is not zero; a resampler produces
at most the frames it is asked for, and at least one when its provider calls
succeed. -/
theorem proxy_read_capture_buffer_status (K : Defs) (P : Platform) (env : capture_hw)
    (fuel : Nat) (aproxy : audio_proxy) (s : audio_proxy_stream) (bytes F : Int)
    (hreq : capture_frames_request K P s bytes = some F)
    (hF0 : 0 ≤ F) (hF : F < 2147483648)
    (hpipe : capture_mute_data aproxy s = false)
    (hper : s.resampler = none → 0 < s.pcmconfig.period_size)
    (hres : ∀ (j : Nat) (t : audio_proxy_stream) (k : Nat),
      (env.resample_from_provider j t k).frames_rd ≤ k ∧
      (0 < k → (env.resample_from_provider j t k).actual_read_status = 0 →
        0 < (env.resample_from_provider j t k).frames_rd))
    (hfuel : F.toNat < fuel) :
    ∃ (ret : Int) (s' : audio_proxy_stream) (log : List Int),
      proxy_read_capture_buffer K P env fuel aproxy s bytes = some (ret, s', log) ∧
      ((∀ st ∈ log, st = 0) →
        ret = bytes ∧ s'.frames = (s.frames + F.toNat) % 18446744073709551616) ∧
      (∀ st ∈ log, st ≠ 0 →
        (∃ pre, log = pre ++ [st] ∧ ∀ x ∈ pre, x = 0) ∧
        (st < 0 → ret = st ∧ s'.frames = s.frames) ∧
        (0 < st → ret = bytes ∧
          s'.frames = (s.frames + st.toNat) % 18446744073709551616)) := by
  unfold proxy_read_capture_buffer
  rw [hreq, Option.some_bind, hpipe]
  unfold read_and_process_frames
  simp only []
  generalize ha : (if s.need_monoconversion = true ∧
      to_int32 (proxy_get_actual_channel_count K P s) ≠
        to_int32 (P.audio_channel_count_from_in_mask s.requested_channel_mask) then
      if s.proc_buf_size < to_int32 (to_uint32 (F * to_int32 (proxy_get_actual_channel_count K P s)
          * ((pcm_format_to_bits s.pcmconfig.format >>> 3 : Nat) : Int))) then
        { s with proc_buf_size := to_int32 (to_uint32
            (F * to_int32 (proxy_get_actual_channel_count K P s)
              * ((pcm_format_to_bits s.pcmconfig.format >>> 3 : Nat) : Int))) }
      else s
    else s) = a1
  have hk : a1.resampler = s.resampler ∧ a1.pcmconfig = s.pcmconfig ∧ a1.frames = s.frames := by
    rw [← ha]
    split_ifs <;> exact ⟨rfl, rfl, rfl⟩
  obtain ⟨ret, s', log, r1, r2, r3, r4⟩ := read_frames_spec K env F hF hres fuel 0 a1 0 []
    (le_refl 0) hF0 (by rw [hk.1, hk.2.1]; exact hper) (by simpa using hfuel)
    (by intro x hx; exact absurd hx (List.not_mem_nil x))
  rw [r1]
  simp only [Option.map_some', Bool.false_eq_true, if_false]
  by_cases hneg : ret < 0
  · rw [if_pos hneg]
    refine ⟨_, _, _, rfl, ?_, ?_⟩
    · intro hall
      have := r3 hall
      omega
    · intro st hmem hne
      obtain ⟨q1, q2⟩ := r4 st hmem hne
      exact ⟨q1, fun _ => ⟨q2, r2.trans hk.2.2⟩, fun hpos => absurd hpos (by omega)⟩
  · rw [if_neg hneg]
    refine ⟨_, _, _, rfl, ?_, ?_⟩
    · intro hall
      have := r3 hall
      refine ⟨rfl, ?_⟩
      show (s'.frames + ret.toNat) % 18446744073709551616 = _
      rw [r2, hk.2.2, this]
    · intro st hmem hne
      obtain ⟨q1, q2⟩ := r4 st hmem hne
      refine ⟨q1, fun hlt => ?_, fun _ => ⟨rfl, ?_⟩⟩
      · omega
      · show (s'.frames + ret.toNat) % 18446744073709551616 = _
        rw [r2, hk.2.2, q2]

theorem proxy_read_capture_buffer_status_witness :
    (∃ (ret : Int) (s' : audio_proxy_stream) (log : List Int),
      proxy_read_capture_buffer sampleDefs samplePlatform sample_capture_hw_failing 11
        (initial_proxy sampleDefs) sample_fm_capture_stream 40 = some (ret, s', log) ∧
      ((∀ st ∈ log, st = 0) →
        ret = 40 ∧ s'.frames =
          (sample_fm_capture_stream.frames + (10 : Int).toNat) % 18446744073709551616) ∧
      (∀ st ∈ log, st ≠ 0 →
        (∃ pre, log = pre ++ [st] ∧ ∀ x ∈ pre, x = 0) ∧
        (st < 0 → ret = st ∧ s'.frames = sample_fm_capture_stream.frames) ∧
        (0 < st → ret = 40 ∧ s'.frames =
          (sample_fm_capture_stream.frames + st.toNat) % 18446744073709551616))) ∧
    (proxy_read_capture_buffer sampleDefs samplePlatform sample_capture_hw_failing 11
        (initial_proxy sampleDefs) sample_fm_capture_stream 40).map
        (fun r => (r.1, r.2.1.frames, r.2.2)) = some (-5, 100, [0, -5]) ∧
    (proxy_read_capture_buffer sampleDefs samplePlatform sample_capture_hw 11
        (initial_proxy sampleDefs) sample_fm_capture_stream 40).map
        (fun r => (r.1, r.2.1.frames, r.2.2)) = some (40, 110, [0, 0, 0]) :=
  ⟨proxy_read_capture_buffer_status sampleDefs samplePlatform sample_capture_hw_failing 11
      (initial_proxy sampleDefs) sample_fm_capture_stream 40 10 rfl (by decide) (by decide) rfl
      (fun _ => by decide) (fun _ _ _ => ⟨le_refl _, fun h _ => h⟩) (by decide),
    by decide, by decide⟩

/-- Claim C15, counterexample: the first hardware read of a request for 10
frames (40 bytes) returns the positive status 5. The read loop stops at that
pass, but the read does not return the status and the frame counter is not
unchanged: `proxy_read_capture_buffer` tests `frames_actual < 0`, so it returns
the 40 bytes asked for and adds 5 to the frame counter (100 before). -/
theorem positive_status_is_counted_as_frames :
    (proxy_read_capture_buffer sampleDefs samplePlatform
        { sample_capture_hw with pcm_read := fun _ => { status := 5, data := fun _ => 0 } } 11
        (initial_proxy sampleDefs) sample_fm_capture_stream 40).map
        (fun r => (r.1, r.2.1.frames, r.2.2)) = some (40, 105, [5]) := by
  decide

/-! ## The mixer lock during a reroute -/

/-- Claim C21, as amended: `set_reroute` takes the read side of
`mixer_update_lock` once, before the reset of the old path, and releases it
once, after the commit: the two resets, the two applies and
`audio_route_update_mixer` form one critical section. `update_modifier` does
the same with its reset, its apply and its commit. The constructed path names
fit the scratch buffer of `add_dual_path` and the new device is not the AUX
digital output. -/
theorem reroute_is_one_critical_section (K : Defs) (s : audio_proxy)
    (u₁ d₁ u₂ d₂ : Nat) (p₁ p₂ : CStr) (m₁ m₂ : Nat)
    (hd : d₂ ≠ K.DEVICE_AUX_DIGITAL)
    (hp₁ : add_dual_path s (make_path K u₁ d₁) = some p₁)
    (hp₂ : add_dual_path s (make_path K u₂ d₂) = some p₂) :
    (∃ ev : List Event,
      set_reroute K s u₁ d₁ u₂ d₂ = some { s with trace := s.trace ++ ev } ∧
      ev.count .rdlock = 1 ∧ ev.count .unlock = 1 ∧
      critical_sections ev =
        [[.audio_route_reset_path p₁, .audio_route_reset_path (make_gain p₁),
          .audio_route_apply_and_update_path p₂,
          .audio_route_apply_and_update_path (make_gain p₂),
          .audio_route_update_mixer]]) ∧
    (∃ ev : List Event,
      update_modifier K s m₁ m₂ = { s with trace := s.trace ++ ev } ∧
      ev.count .rdlock = 1 ∧ ev.count .unlock = 1 ∧
      critical_sections ev =
        [[.audio_route_reset_path (K.modifier_table m₁),
          .audio_route_apply_path (K.modifier_table m₂),
          .audio_route_update_mixer]]) := by
  constructor
  · refine ⟨_, set_reroute_some K s u₁ d₁ u₂ d₂ p₁ p₂ hd hp₁ hp₂, ?_, ?_, ?_⟩
    · simp [List.count_cons]
    · simp [List.count_cons]
    · simp [critical_sections, critical_sections_from]
  · refine ⟨[.rdlock, .audio_route_reset_path (K.modifier_table m₁),
      .audio_route_apply_path (K.modifier_table m₂), .audio_route_update_mixer, .unlock],
      ?_, ?_, ?_, ?_⟩
    · simp [update_modifier, audio_proxy.emit]
    · simp [List.count_cons]
    · simp [List.count_cons]
    · simp [critical_sections, critical_sections_from]

theorem reroute_is_one_critical_section_witness :
    ∃ ev : List Event,
      set_reroute sampleDefs (initial_proxy sampleDefs) 0 1 0 2 =
        some { initial_proxy sampleDefs with trace := (initial_proxy sampleDefs).trace ++ ev } ∧
      ev.count .rdlock = 1 ∧ ev.count .unlock = 1 ∧
      critical_sections ev =
        [[.audio_route_reset_path "media-speaker".toList,
          .audio_route_reset_path (make_gain "media-speaker".toList),
          .audio_route_apply_and_update_path "media-headset".toList,
          .audio_route_apply_and_update_path (make_gain "media-headset".toList),
          .audio_route_update_mixer]] :=
  (reroute_is_one_critical_section sampleDefs (initial_proxy sampleDefs) 0 1 0 2
    "media-speaker".toList "media-headset".toList 0 1 (by decide) (by decide) (by decide)).1

/-- Claim C21, counterexample: the reroute from (media, speaker) to
(media, headset) makes seven calls, the first a `rdlock` and the last an
`unlock`, with no lock call in between: the lock is held from the reset of the
old path to the commit, in one critical section and not three. -/
theorem reroute_holds_the_lock_throughout :
    (set_reroute sampleDefs (initial_proxy sampleDefs) 0 1 0 2).map (fun a => a.trace) =
      some [.rdlock,
        .audio_route_reset_path "media-speaker".toList,
        .audio_route_reset_path "gain-media-speaker".toList,
        .audio_route_apply_and_update_path "media-headset".toList,
        .audio_route_apply_and_update_path "gain-media-headset".toList,
        .audio_route_update_mixer,
        .unlock] ∧
    (set_reroute sampleDefs (initial_proxy sampleDefs) 0 1 0 2).map
        (fun a => (critical_sections a.trace).length) = some 1 := by
  constructor <;> decide

/-! ## The sleep after a failed write -/

/-- Claim C22: when `pcm_write` fails on a PCM playback stream, the sleep that
`proxy_write_playback_buffer` issues does not depend on the byte count of the
write. `skip_pcm_processing` is called with `wrote`, which is still 0 at that
point, so the frame count it computes is 0 and the call is `usleep(0)`; the
claim expects `(bytes / (channels * bytes_per_sample)) * 1000000 / rate`
microseconds. The stream is not compress offload, has an open handle and a
configuration with channel count, sample size and rate that are not zero, and
the write is not skipped for the AUX digital output. -/
theorem write_failure_sleeps_zero (K : Defs) (P : Platform) (hw : stream_hw)
    (aproxy : audio_proxy) (s : audio_proxy_stream) (bytes : Int)
    (hty : s.stream_type ≠ K.ASTREAM_PLAYBACK_COMPR_OFFLOAD) (hpcm : s.pcm = true)
    (haux : ¬ (s.stream_type ≠ K.ASTREAM_PLAYBACK_AUX_DIGITAL ∧
      aproxy.active_playback_device = K.DEVICE_AUX_DIGITAL))
    (hfail : hw.pcm_write ≠ 0)
    (hb : 0 ≤ bytes) (hb2 : bytes < 2147483648)
    (hch : 0 < s.pcmconfig.channels) (hch2 : s.pcmconfig.channels < 4294967296)
    (hbps : 0 < P.audio_bytes_per_sample (P.audio_format_from_pcm_format s.pcmconfig.format))
    (hbps2 : P.audio_bytes_per_sample (P.audio_format_from_pcm_format s.pcmconfig.format)
      < 4294967296)
    (hrate : s.pcmconfig.rate % 4294967296 ≠ 0) :
    ∃ s' : audio_proxy_stream,
      proxy_write_playback_buffer K P hw aproxy s bytes = some (bytes, s') ∧
      s'.calls = s.calls ++ [.pcm_write bytes, .usleep 0] := by
  have hb3 : bytes < 18446744073709551616 := by omega
  unfold proxy_write_playback_buffer
  simp only []
  rw [if_neg haux, if_neg hty, if_pos hpcm, if_neg hfail,
    skip_pcm_processing_zero K P (s.emit (.pcm_write bytes)) hty hch hch2 hbps hbps2 hrate]
  simp only [Option.some_bind]
  rw [save_written_frames_frames P ((s.emit (.pcm_write bytes)).emit (.usleep 0)) bytes hb hb3
    hch hch2 hbps hbps2]
  refine ⟨_, rfl, ?_⟩
  simp [audio_proxy_stream.emit]

theorem write_failure_sleeps_zero_witness :
    (∃ s' : audio_proxy_stream,
      proxy_write_playback_buffer sampleDefs samplePlatform
        { sample_stream_hw with pcm_write := -1 } (initial_proxy sampleDefs)
        sample_primary_playback_stream 3840 = some (3840, s') ∧
      s'.calls = sample_primary_playback_stream.calls ++ [.pcm_write 3840, .usleep 0]) ∧
    (3840 / (2 * 2)) * 1000000 / 48000 = 20000 :=
  ⟨write_failure_sleeps_zero sampleDefs samplePlatform
    { sample_stream_hw with pcm_write := -1 } (initial_proxy sampleDefs)
    sample_primary_playback_stream 3840 (by decide) rfl (by decide) (by decide) (by decide)
    (by decide) (by decide) (by decide) (by decide) (by decide) (by decide), by decide⟩

/-! ## The dual speaker rewrite -/

theorem strstr_some (needle : CStr) :
    ∀ (hay : CStr) (off : Nat), strstr hay needle = some off →
      off ≤ hay.length ∧ needle.isPrefixOf (hay.drop off) = true ∧
      ∀ k < off, needle.isPrefixOf (hay.drop k) = false := by
  intro hay
  induction hay with
  | nil =>
    intro off h
    unfold strstr at h
    split_ifs at h with hn
    cases h
    refine ⟨le_refl _, ?_, fun k hk => absurd hk (by omega)⟩
    cases needle with
    | nil => rfl
    | cons a t => simp at hn
  | cons c hay ih =>
    intro off h
    unfold strstr at h
    split_ifs at h with hn
    · cases h
      exact ⟨Nat.zero_le _, hn, fun k hk => absurd hk (by omega)⟩
    · rw [Option.map_eq_some'] at h
      obtain ⟨o, ho, rfl⟩ := h
      obtain ⟨h1, h2, h3⟩ := ih o ho
      refine ⟨by simp; omega, by simpa using h2, ?_⟩
      intro k hk
      cases k with
      | zero =>
        show needle.isPrefixOf (c :: hay) = false
        exact Bool.eq_false_iff.mpr hn
      | succ k => simpa using h3 k (by omega)

/-- Claim C23: `add_dual_path` does not rewrite every path name shorter than
`MAX_PATH_NAME_LEN`. When dual speaker support is off, or the name contains
"loopback", or it does not contain "speaker", the name is left unchanged. When
the rewrite applies (the first "speaker" starts at offset `off`), a name of at
most 44 characters becomes the text before that offset, then "dual-", then the
rest; for a name of 45 to 49 characters the rewritten text with its
terminator does not fit the `MAX_PATH_NAME_LEN` bytes of `tempRet`, into which
`sprintf` writes without a bound, and the function has no result. -/
theorem add_dual_path_rewrite (aproxy : audio_proxy) (p : CStr) :
    ((aproxy.support_dualspk = false ∨ (strstr p "loopback".toList).isSome = true ∨
        strstr p "speaker".toList = none) →
      add_dual_path aproxy p = some p) ∧
    (∀ off : Nat, aproxy.support_dualspk = true → strstr p "loopback".toList = none →
      strstr p "speaker".toList = some off →
      "speaker".toList.isPrefixOf (p.drop off) = true ∧
      (∀ k < off, "speaker".toList.isPrefixOf (p.drop k) = false) ∧
      (p.length ≤ 44 →
        add_dual_path aproxy p = some (p.take off ++ "dual-".toList ++ p.drop off)) ∧
      (45 ≤ p.length → add_dual_path aproxy p = none)) := by
  constructor
  · intro h
    unfold add_dual_path
    rcases h with h | h | h
    · simp [h]
    · rw [if_pos h]
      split_ifs <;> rfl
    · rw [h]
      split_ifs <;> rfl
  · intro off hd hl hs
    obtain ⟨h1, h2, h3⟩ := strstr_some "speaker".toList p off hs
    refine ⟨h2, h3, ?_, ?_⟩
    · intro hlen
      unfold add_dual_path
      simp only [hd, if_true, hl, hs, Option.isSome_none, Bool.false_eq_true, if_false]
      rw [if_pos]
      simp only [List.length_append, List.length_take, List.length_drop, MAX_PATH_NAME_LEN]
      have : ("dual-".toList).length = 5 := by decide
      omega
    · intro hlen
      unfold add_dual_path
      simp only [hd, if_true, hl, hs, Option.isSome_none, Bool.false_eq_true, if_false]
      rw [if_neg]
      simp only [List.length_append, List.length_take, List.length_drop, MAX_PATH_NAME_LEN]
      have : ("dual-".toList).length = 5 := by decide
      omega

theorem add_dual_path_rewrite_witness :
    (List.replicate 38 'a' ++ "speaker".toList).length = 45 ∧
    add_dual_path { initial_proxy sampleDefs with support_dualspk := true }
      (List.replicate 38 'a' ++ "speaker".toList) = none ∧
    add_dual_path { initial_proxy sampleDefs with support_dualspk := true }
      "media-speaker".toList = some "media-dual-speaker".toList :=
  ⟨by decide,
   ((add_dual_path_rewrite { initial_proxy sampleDefs with support_dualspk := true }
      (List.replicate 38 'a' ++ "speaker".toList)).2 38 rfl (by decide) (by decide)).2.2.2
      (by decide),
   ((add_dual_path_rewrite { initial_proxy sampleDefs with support_dualspk := true }
      "media-speaker".toList).2 6 rfl (by decide) (by decide)).2.2.1 (by decide)⟩

/-! ## The period size of MMAP streams -/

theorem and_fffffffc_eq_zero (x : Nat) (hx : x < 4294967296) :
    x &&& 0xFFFFFFFC = 0 ↔ x < 4 := by
  constructor
  · intro h
    have h2 : (x &&& 0xFFFFFFFC) / 2 / 2 = x / 2 / 2 &&& (0xFFFFFFFC / 2 / 2) := by
      rw [Nat.and_div_two, Nat.and_div_two]
    rw [h] at h2
    have h3 : (0xFFFFFFFC / 2 / 2 : Nat) = 2 ^ 30 - 1 := by decide
    rw [h3, Nat.and_pow_two_sub_one_eq_mod] at h2
    simp at h2
    omega
  · intro h
    interval_cases x <;> decide

/-- Claim C26: the period size of a created MMAP stream is not always greater
than zero. An MMAP playback stream always has the 96 frames of its table. An
MMAP capture stream requested with a rate below 2000 Hz (0 included) gets the
period size 0: the frame count of 2 ms at that rate is below 4 and the two low
bits are cleared. Opening that stream outside an AP call then divides by zero
in `adjust_mmap_period_count` (no result). For requested rates from 2000 Hz to
below 2^31 the period size is greater than zero. -/
theorem mmap_capture_period_size (K : Defs) (P : Platform) (hw hw2 : stream_hw)
    (aproxy : audio_proxy) (usage : Nat) (cfg : audio_config) (fuel : Nat) (m : Int)
    (hd : stream_types_distinct K) (hok : hw.calloc_ok = true) :
    (∃ s : audio_proxy_stream,
      proxy_create_playback_stream K P hw K.ASTREAM_PLAYBACK_MMAP cfg = some s ∧
      s.pcmconfig.period_size = 96) ∧
    (∃ s : audio_proxy_stream,
      proxy_create_capture_stream K P hw aproxy K.ASTREAM_CAPTURE_MMAP usage cfg = some s ∧
      s.pcm = false ∧ s.stream_type = K.ASTREAM_CAPTURE_MMAP ∧
      (cfg.sample_rate < 2000 →
        s.pcmconfig.period_size = 0 ∧
        (is_active_usage_APCall K aproxy = false →
          proxy_open_capture_stream K P hw2 fuel aproxy s m = none)) ∧
      (2000 ≤ cfg.sample_rate → cfg.sample_rate < 2147483648 →
        0 < s.pcmconfig.period_size)) := by
  unfold stream_types_distinct at hd
  simp only [List.nodup_cons, List.mem_cons, List.mem_singleton, not_or, List.not_mem_nil,
    not_false_eq_true, List.nodup_nil, and_true] at hd
  obtain ⟨h1, h2, h3, h4, h5, h6, h7, h8, h9, h10, h11, h12, -⟩ := hd
  constructor
  · unfold proxy_create_playback_stream
    rw [if_neg (by simp [hok]), if_neg (Ne.symm h1.2.2.2.2.2.1), if_neg (Ne.symm h2.2.2.2.2.1),
      if_neg (Ne.symm h5.2.1), if_neg (Ne.symm h3.2.2.2.1), if_neg (Ne.symm h4.2.2.1),
      if_neg (Ne.symm h6.1), if_pos rfl]
    exact ⟨_, rfl, rfl⟩
  · unfold proxy_create_capture_stream
    rw [if_neg (by simp [hok]), if_neg (Ne.symm h9.2.2.2.1), if_neg (Ne.symm h10.2.2.1),
      if_neg (Ne.symm h11.2.1), if_neg (Ne.symm h12.1), if_pos rfl]
    by_cases hr : cfg.sample_rate = pcm_config_mmap_capture.rate
    · have hr2 : cfg.sample_rate = 48000 := hr
      refine ⟨_, rfl, ?_, ?_, ?_, ?_⟩
      · simp [hr]
      · simp [hr]
      · intro hlt
        omega
      · intro _ _
        simp [hr, pcm_config_mmap_capture]
    · have hlt4 : (cfg.sample_rate * PREDEFINED_MMAP_CAPTURE_DURATION) % 4294967296 / 1000
          < 4294967296 := by omega
      refine ⟨_, rfl, ?_, ?_, ?_, ?_⟩
      · simp [hr]
      · simp [hr]
      · intro hlt
        have hz : ((cfg.sample_rate * PREDEFINED_MMAP_CAPTURE_DURATION) % 4294967296 / 1000)
            &&& 0xFFFFFFFC = 0 := by
          rw [and_fffffffc_eq_zero _ hlt4]
          unfold PREDEFINED_MMAP_CAPTURE_DURATION
          omega
        refine ⟨by simp [hr, hz], ?_⟩
        intro hcall
        unfold proxy_open_capture_stream capture_open_apcall
        simp [hr, hz, hcall, adjust_mmap_period_count]
      · intro hge hlt
        have hnz : ((cfg.sample_rate * PREDEFINED_MMAP_CAPTURE_DURATION) % 4294967296 / 1000)
            &&& 0xFFFFFFFC ≠ 0 := by
          rw [Ne, and_fffffffc_eq_zero _ hlt4]
          unfold PREDEFINED_MMAP_CAPTURE_DURATION
          omega
        simp only [hr, if_true, ne_eq, not_false_eq_true]
        exact Nat.pos_of_ne_zero hnz

theorem mmap_capture_period_size_witness :
    ∃ s : audio_proxy_stream,
      proxy_create_capture_stream sampleDefs samplePlatform sample_stream_hw
        (initial_proxy sampleDefs) sampleDefs.ASTREAM_CAPTURE_MMAP 0
        { sample_config with sample_rate := 1000 } = some s ∧
      s.pcm = false ∧ s.stream_type = sampleDefs.ASTREAM_CAPTURE_MMAP ∧
      s.pcmconfig.period_size = 0 ∧
      proxy_open_capture_stream sampleDefs samplePlatform sample_stream_hw 1000
        (initial_proxy sampleDefs) s 0 = none := by
  obtain ⟨s, h1, h2, h3, h4, _⟩ :=
    (mmap_capture_period_size sampleDefs samplePlatform sample_stream_hw sample_stream_hw
      (initial_proxy sampleDefs) 0 { sample_config with sample_rate := 1000 } 1000 0
      (by decide) rfl).2
  exact ⟨s, h1, h2, h3, (h4 (by decide)).1, (h4 (by decide)).2 (by decide)⟩

/-! ## The zero fill of the MMAP buffer -/

theorem neg_frames_to_bytes (n k : Nat) (hB : 0 < n * k) (hB2 : n * k < 4294967296) :
    (4294967296 - n) * k % 4294967296 = 4294967296 - n * k := by
  have hk : 0 < k := Nat.pos_of_mul_pos_left hB
  have hn : n ≤ n * k := Nat.le_mul_of_pos_right n hk
  have hsum : (4294967296 - n) * k + n * k = 4294967296 * k := by
    rw [← Nat.add_mul]
    congr 1
    omega
  have hmod : ((4294967296 - n) * k + n * k) % 4294967296 = 0 := by
    rw [hsum]
    exact Nat.mul_mod_right _ _
  rw [Nat.add_mod] at hmod
  have h1 : (4294967296 - n) * k % 4294967296 < 4294967296 := Nat.mod_lt _ (by norm_num)
  have h2 : n * k % 4294967296 = n * k := Nat.mod_eq_of_lt hB2
  rw [h2] at hmod
  omega

/-- Claim C25: the number of bytes zeroed at the shared memory address of an
MMAP stream is the byte size of the mapped buffer only in the shared poll-fd
mode. In the exclusive mode `info->buffer_size_frames` is multiplied by -1
before the `memset`, and its size argument is computed from the negated value:
with `B` the byte size of the buffer, the fill is `2^32 - B` bytes long. Here
the negotiation succeeds (`pcm_mmap_begin` and `pcm_mmap_commit` do, and the
mapping is large enough) and `B` is between 1 and 2^31 - 1. -/
theorem mmap_zero_fill_size (K : Defs) (hw : stream_hw) (s : audio_proxy_stream)
    (hbegin : hw.pcm_mmap_begin = 0) (hcommit : ¬ hw.pcm_mmap_commit < 0)
    (hB : 0 < pcm_frames_to_bytes s.pcmconfig hw.pcm_get_buffer_size)
    (hB2 : pcm_frames_to_bytes s.pcmconfig hw.pcm_get_buffer_size < 2147483648)
    (hfit : hw.get_mmap_data_fd < 0 ∨
      pcm_frames_to_bytes s.pcmconfig hw.pcm_get_buffer_size ≤ hw.mmap_size % 4294967296) :
    (mmap_negotiation K hw s).2 = true ∧
    (hw.get_mmap_data_fd < 0 →
      mmap_buffer_size_frames hw = hw.pcm_get_buffer_size ∧
      (mmap_negotiation K hw s).1.calls = s.calls ++
        [.pcm_mmap_begin,
         .memset (pcm_frames_to_bytes s.pcmconfig hw.pcm_get_buffer_size),
         .pcm_mmap_commit K.MMAP_PERIOD_SIZE]) ∧
    (¬ hw.get_mmap_data_fd < 0 →
      mmap_buffer_size_frames hw = -(hw.pcm_get_buffer_size : Int) ∧
      (mmap_negotiation K hw s).1.calls = s.calls ++
        [.pcm_mmap_begin,
         .memset (4294967296 - pcm_frames_to_bytes s.pcmconfig hw.pcm_get_buffer_size),
         .pcm_mmap_commit K.MMAP_PERIOD_SIZE]) := by
  have hB' : 0 < hw.pcm_get_buffer_size *
      (s.pcmconfig.channels * (pcm_format_to_bits s.pcmconfig.format / 8)) := by
    rw [← Nat.mul_assoc]; exact hB
  have hB2' : hw.pcm_get_buffer_size *
      (s.pcmconfig.channels * (pcm_format_to_bits s.pcmconfig.format / 8)) < 2147483648 := by
    rw [← Nat.mul_assoc]; exact hB2
  have hk : 0 < s.pcmconfig.channels * (pcm_format_to_bits s.pcmconfig.format / 8) :=
    Nat.pos_of_mul_pos_left hB'
  have hn0 : 0 < hw.pcm_get_buffer_size := Nat.pos_of_mul_pos_right hB'
  have hn : hw.pcm_get_buffer_size < 2147483648 :=
    lt_of_le_of_lt (Nat.le_mul_of_pos_right _ hk) hB2'
  have hBm : pcm_frames_to_bytes s.pcmconfig hw.pcm_get_buffer_size % 4294967296 =
      pcm_frames_to_bytes s.pcmconfig hw.pcm_get_buffer_size := Nat.mod_eq_of_lt (by omega)
  have hnm : hw.pcm_get_buffer_size % 4294967296 = hw.pcm_get_buffer_size :=
    Nat.mod_eq_of_lt (by omega)
  have hcond : ¬ (¬ hw.get_mmap_data_fd < 0 ∧ hw.mmap_size % 4294967296 <
      pcm_frames_to_bytes (s.emit .pcm_mmap_begin).pcmconfig hw.pcm_get_buffer_size
        % 4294967296) := by
    have e : (s.emit .pcm_mmap_begin).pcmconfig = s.pcmconfig := rfl
    rw [e, hBm]
    rcases hfit with h | h
    · exact fun hc => hc.1 h
    · exact fun hc => absurd hc.2 (by omega)
  have hshared : hw.get_mmap_data_fd < 0 →
      mmap_buffer_size_frames hw = hw.pcm_get_buffer_size := by
    intro hfd
    unfold mmap_buffer_size_frames
    simp only []
    rw [if_pos hfd]
    unfold to_int32
    rw [hnm, if_pos hn]
  have hexcl : ¬ hw.get_mmap_data_fd < 0 →
      mmap_buffer_size_frames hw = -(hw.pcm_get_buffer_size : Int) := by
    intro hfd
    unfold mmap_buffer_size_frames
    simp only []
    rw [if_neg hfd]
    unfold to_int32 to_uint32
    rw [hnm, if_pos hn]
    have e : ((hw.pcm_get_buffer_size : Int) * -1 % 4294967296).toNat
        = 4294967296 - hw.pcm_get_buffer_size := by omega
    have e1 : (4294967296 - hw.pcm_get_buffer_size) % 4294967296
        = 4294967296 - hw.pcm_get_buffer_size := Nat.mod_eq_of_lt (by omega)
    have e2 : ¬ (4294967296 - hw.pcm_get_buffer_size < 2147483648) := by omega
    rw [e, e1, if_neg e2]
    omega
  unfold mmap_negotiation
  simp only []
  rw [if_pos hbegin, if_neg hcond, if_neg hcommit]
  refine ⟨rfl, ?_, ?_⟩
  · intro hfd
    refine ⟨hshared hfd, ?_⟩
    rw [hshared hfd]
    have e : to_uint32 (hw.pcm_get_buffer_size : Int) = hw.pcm_get_buffer_size := by
      unfold to_uint32; omega
    rw [e]
    have e2 : (s.emit .pcm_mmap_begin).pcmconfig = s.pcmconfig := rfl
    rw [e2, hBm]
    simp [audio_proxy_stream.emit]
  · intro hfd
    refine ⟨hexcl hfd, ?_⟩
    rw [hexcl hfd]
    have e : to_uint32 (-(hw.pcm_get_buffer_size : Int)) = 4294967296 - hw.pcm_get_buffer_size := by
      unfold to_uint32; omega
    rw [e]
    have e2 : (s.emit .pcm_mmap_begin).pcmconfig = s.pcmconfig := rfl
    have e3 : pcm_frames_to_bytes s.pcmconfig (4294967296 - hw.pcm_get_buffer_size) % 4294967296
        = 4294967296 - pcm_frames_to_bytes s.pcmconfig hw.pcm_get_buffer_size := by
      unfold pcm_frames_to_bytes
      rw [Nat.mul_assoc, Nat.mul_assoc]
      exact neg_frames_to_bytes _ _ hB' (by omega)
    rw [e2, e3]
    simp [audio_proxy_stream.emit]

theorem mmap_zero_fill_size_witness :
    pcm_frames_to_bytes sample_mmap_playback_stream.pcmconfig
      sample_stream_hw.pcm_get_buffer_size = 1536 ∧
    (mmap_negotiation sampleDefs sample_stream_hw sample_mmap_playback_stream).1.calls =
      sample_mmap_playback_stream.calls ++
        [.pcm_mmap_begin, .memset 4294965760, .pcm_mmap_commit 96] ∧
    (proxy_open_playback_stream sampleDefs sample_stream_hw 1000 (initial_proxy sampleDefs)
        sample_mmap_playback_stream 0).map (fun r => (r.1, r.2.calls.drop 1)) =
      some (0, [.pcm_mmap_begin, .memset 4294965760, .pcm_mmap_commit 96]) ∧
    ((proxy_create_capture_stream sampleDefs samplePlatform sample_stream_hw
        (initial_proxy sampleDefs) sampleDefs.ASTREAM_CAPTURE_MMAP 0 sample_config).bind
      (fun s => proxy_open_capture_stream sampleDefs samplePlatform sample_stream_hw 1000
        (initial_proxy sampleDefs) s 0)).map (fun r => (r.1, r.2.calls.drop 1)) =
      some (0, [.pcm_mmap_begin, .memset 4294965760, .pcm_mmap_commit 96]) :=
  ⟨by decide,
   ((mmap_zero_fill_size sampleDefs sample_stream_hw sample_mmap_playback_stream rfl
      (by decide) (by decide) (by decide) (Or.inr (by decide))).2.2 (by decide)).2,
   by decide, by decide⟩

/-! ## Silence in place of captured data -/

theorem capture_mute_data_iff (aproxy : audio_proxy) (s : audio_proxy_stream) :
    capture_mute_data aproxy s = true ↔
      s.sound_card = SOUND_CARD1 ∧
        (is_audiomode_incall aproxy = false ∨ s.cpcall_rec_skipcnt < 10) := by
  unfold capture_mute_data
  cases is_audiomode_incall aproxy <;> simp [and_comm]

theorem mute_read (K : Defs) (P : Platform) (env : capture_hw) (fuel : Nat)
    (aproxy : audio_proxy) (s : audio_proxy_stream) (bytes fr : Int)
    (hfr : capture_frames_request K P s bytes = some fr)
    (hcnt : -2147483648 ≤ s.cpcall_rec_skipcnt) (hcnt2 : s.cpcall_rec_skipcnt < 2147483647)
    (hframes : s.frames < 18446744073709551616)
    (hm : capture_mute_data aproxy s = true) :
    proxy_read_capture_buffer K P env fuel aproxy s bytes =
      some (bytes,
        { s with calls := s.calls ++ [.memset (to_uint64 bytes), .usleep 20000],
                 cpcall_rec_skipcnt := s.cpcall_rec_skipcnt + 1 }, []) := by
  unfold proxy_read_capture_buffer
  rw [hfr, Option.some_bind, if_pos hm]
  have e1 : to_int32 (to_uint32 (s.cpcall_rec_skipcnt + 1)) = s.cpcall_rec_skipcnt + 1 := by
    unfold to_int32 to_uint32
    split_ifs <;> omega
  have e2 : (s.frames + (0 : Int).toNat) % 18446744073709551616 = s.frames := by
    simp only [Int.toNat_zero, Nat.add_zero]
    exact Nat.mod_eq_of_lt hframes
  simp only [audio_proxy_stream.emit, e1, e2, CALLMIC_MUTE_DATA_SLEEP_DURATION,
    List.append_assoc, List.singleton_append]

theorem mute_reads_in_call (K : Defs) (P : Platform) (env : capture_hw) (fuel : Nat)
    (aproxy : audio_proxy) (bytes fr : Int) :
    ∀ (k : Nat) (s : audio_proxy_stream),
      capture_frames_request K P s bytes = some fr →
      s.sound_card = SOUND_CARD1 → 0 ≤ s.cpcall_rec_skipcnt →
      s.cpcall_rec_skipcnt + k ≤ 10 → s.frames < 18446744073709551616 →
      ∃ s' : audio_proxy_stream,
        proxy_read_capture_buffer_times K P env fuel aproxy bytes k s = some s' ∧
        s'.calls = s.calls ++
          (List.replicate k [stream_call.memset (to_uint64 bytes), .usleep 20000]).flatten ∧
        s'.cpcall_rec_skipcnt = s.cpcall_rec_skipcnt + k ∧
        s'.sound_card = SOUND_CARD1 ∧ s'.frames = s.frames := by
  intro k
  induction k with
  | zero =>
    intro s _ hc _ _ _
    exact ⟨s, rfl, by simp, by simp, hc, rfl⟩
  | succ k ih =>
    intro s hfr hc h0 h10 hf
    have hm : capture_mute_data aproxy s = true :=
      (capture_mute_data_iff aproxy s).mpr ⟨hc, Or.inr (by omega)⟩
    have hstep := mute_read K P env fuel aproxy s bytes fr hfr (by omega) (by omega) hf hm
    obtain ⟨s', h1, h2, h3, h4, h5⟩ := ih
      { s with calls := s.calls ++ [.memset (to_uint64 bytes), .usleep 20000],
               cpcall_rec_skipcnt := s.cpcall_rec_skipcnt + 1 }
      hfr hc (by show 0 ≤ s.cpcall_rec_skipcnt + 1; omega)
      (by show s.cpcall_rec_skipcnt + 1 + (k : Int) ≤ 10; push_cast at h10; omega) hf
    refine ⟨s', ?_, ?_, ?_, h4, h5⟩
    · unfold proxy_read_capture_buffer_times
      rw [hstep, Option.some_bind]
      exact h1
    · rw [h2]
      simp [List.replicate_succ]
    · rw [h3]
      push_cast
      show s.cpcall_rec_skipcnt + 1 + (k : Int) = s.cpcall_rec_skipcnt + (k + 1)
      omega

/-- Claim C24: `proxy_read_capture_buffer` hands out silence exactly when the
sound card of the stream is `SOUND_CARD1` and either the audio mode is not
in-call or the skip counter (reset when the handle is closed, one more at each
substituted read) is below 10. In that case the buffer is zero filled over the
requested byte count, the call returns that byte count, the skip counter grows
by one, the cumulative frame counter is unchanged and no pass of the read loop
runs; otherwise the read goes to the conversion pipeline. During a call, a
stream on `SOUND_CARD1` that starts with the counter at 0 gets silence for ten
reads, and the next read is not substituted; closing an open handle sets the
counter to 0. The frame size requested is not
zero, and the counters are within the range of their C types. -/
theorem silence_substitution (K : Defs) (P : Platform) (env : capture_hw) (hw : stream_hw)
    (fuel : Nat) (aproxy : audio_proxy) (s : audio_proxy_stream) (bytes fr : Int)
    (hfr : capture_frames_request K P s bytes = some fr)
    (hcnt : -2147483648 ≤ s.cpcall_rec_skipcnt) (hcnt2 : s.cpcall_rec_skipcnt < 2147483647)
    (hframes : s.frames < 18446744073709551616) :
    (capture_mute_data aproxy s = true ↔
      s.sound_card = SOUND_CARD1 ∧
        (is_audiomode_incall aproxy = false ∨ s.cpcall_rec_skipcnt < 10)) ∧
    (capture_mute_data aproxy s = true →
      ∃ s' : audio_proxy_stream,
        proxy_read_capture_buffer K P env fuel aproxy s bytes = some (bytes, s', []) ∧
        s'.calls = s.calls ++ [.memset (to_uint64 bytes), .usleep 20000] ∧
        s'.cpcall_rec_skipcnt = s.cpcall_rec_skipcnt + 1 ∧
        s'.frames = s.frames ∧ s'.pcm = s.pcm ∧ s'.sound_card = s.sound_card) ∧
    (capture_mute_data aproxy s = false →
      proxy_read_capture_buffer K P env fuel aproxy s bytes =
        (read_and_process_frames K P env fuel s fr).map fun r =>
          if r.1 < 0 then (r.1, r.2.1, r.2.2)
          else (bytes,
            { r.2.1 with frames := (r.2.1.frames + r.1.toNat) % 18446744073709551616 },
            r.2.2)) ∧
    (is_audiomode_incall aproxy = true → s.sound_card = SOUND_CARD1 →
      s.cpcall_rec_skipcnt = 0 →
      ∃ s' : audio_proxy_stream,
        proxy_read_capture_buffer_times K P env fuel aproxy bytes 10 s = some s' ∧
        s'.calls = s.calls ++
          (List.replicate 10 [stream_call.memset (to_uint64 bytes), .usleep 20000]).flatten ∧
        s'.cpcall_rec_skipcnt = 10 ∧ capture_mute_data aproxy s' = false) ∧
    (s.pcm = true → (proxy_close_capture_stream hw s).2.cpcall_rec_skipcnt = 0) := by
  refine ⟨capture_mute_data_iff aproxy s, ?_, ?_, ?_, ?_⟩
  · intro hm
    exact ⟨_, mute_read K P env fuel aproxy s bytes fr hfr hcnt hcnt2 hframes hm,
      rfl, rfl, rfl, rfl, rfl⟩
  · intro hm
    unfold proxy_read_capture_buffer
    rw [hfr, Option.some_bind, if_neg (by simp [hm])]
  · intro hcall hc h0
    obtain ⟨s', h1, h2, h3, h4, _⟩ := mute_reads_in_call K P env fuel aproxy bytes fr 10 s
      hfr hc (by omega) (by rw [h0]; norm_num) hframes
    have h10 : s'.cpcall_rec_skipcnt = 10 := by rw [h3, h0]; norm_num
    refine ⟨s', h1, h2, h10, ?_⟩
    rw [Bool.eq_false_iff, Ne, capture_mute_data_iff]
    rintro ⟨_, h | h⟩
    · rw [hcall] at h; cases h
    · omega
  · intro hp
    unfold proxy_close_capture_stream
    rw [if_pos hp]

theorem silence_substitution_witness :
    ∃ s' : audio_proxy_stream,
      proxy_read_capture_buffer sampleDefs samplePlatform sample_capture_hw 100
        (initial_proxy sampleDefs)
        { sample_primary_capture_stream with sound_card := SOUND_CARD1 } 3840 =
        some (3840, s', []) ∧
      s'.calls = sample_primary_capture_stream.calls ++ [.memset 3840, .usleep 20000] ∧
      s'.cpcall_rec_skipcnt = 1 ∧
      s'.frames = sample_primary_capture_stream.frames ∧
      s'.pcm = sample_primary_capture_stream.pcm ∧ s'.sound_card = SOUND_CARD1 :=
  (silence_substitution sampleDefs samplePlatform sample_capture_hw sample_stream_hw 100
    (initial_proxy sampleDefs)
    { sample_primary_capture_stream with sound_card := SOUND_CARD1 } 3840 960
    (by decide) (by decide) (by decide) (by decide)).2.1 (by decide)

/-! ## The sound card of a capture stream -/

theorem check_conversion_sound_card (P : Platform) (r : Int) (a : audio_proxy_stream) :
    (check_conversion P r a).sound_card = a.sound_card := by
  unfold check_conversion
  simp only [audio_proxy_stream.emit]
  split_ifs <;> rfl

theorem update_capture_pcmconfig_sound_card (K : Defs) (P : Platform)
    (a : audio_proxy_stream) :
    (update_capture_pcmconfig K P a).sound_card = a.sound_card := by
  unfold update_capture_pcmconfig
  simp only []
  split_ifs <;> rfl

theorem release_running_resampler_sound_card (a : audio_proxy_stream) :
    (release_running_resampler a).sound_card = a.sound_card := by
  unfold release_running_resampler
  simp only [audio_proxy_stream.emit]
  split_ifs <;> rfl

theorem mmap_negotiation_sound_card (K : Defs) (hw : stream_hw) (a : audio_proxy_stream) :
    (mmap_negotiation K hw a).1.sound_card = a.sound_card := by
  unfold mmap_negotiation
  simp only [audio_proxy_stream.emit]
  split_ifs <;> rfl

theorem proxy_close_capture_stream_sound_card (hw : stream_hw) (a : audio_proxy_stream) :
    (proxy_close_capture_stream hw a).2.sound_card = a.sound_card := by
  unfold proxy_close_capture_stream
  simp only [audio_proxy_stream.emit]
  split_ifs <;> rfl

theorem proxy_create_capture_stream_sound_card (K : Defs) (P : Platform) (hw : stream_hw)
    (aproxy : audio_proxy) (type usage : Nat) (cfg : audio_config) (s : audio_proxy_stream)
    (h : proxy_create_capture_stream K P hw aproxy type usage cfg = some s) :
    s.sound_card = SOUND_CARD0 ∨ s.sound_card = SOUND_CARD2 := by
  unfold proxy_create_capture_stream at h
  simp only [] at h
  split_ifs at h <;> cases h <;>
    simp only [check_conversion_sound_card, update_capture_pcmconfig_sound_card] <;>
    first
    | exact Or.inl rfl
    | exact Or.inr rfl

theorem capture_open_apcall_sound_card (K : Defs) (P : Platform) (hw : stream_hw)
    (aproxy : audio_proxy) (a : audio_proxy_stream)
    (h : a.sound_card = SOUND_CARD0 ∨ a.sound_card = SOUND_CARD2) :
    (capture_open_apcall K P hw aproxy a).sound_card = SOUND_CARD0 ∨
      (capture_open_apcall K P hw aproxy a).sound_card = SOUND_CARD2 := by
  unfold capture_open_apcall
  split_ifs
  · rw [check_conversion_sound_card]
    exact Or.inl rfl
  · exact h

theorem proxy_open_capture_stream_sound_card (K : Defs) (P : Platform) (hw : stream_hw)
    (fuel : Nat) (aproxy : audio_proxy) (s : audio_proxy_stream) (m : Int)
    (r : Int × audio_proxy_stream)
    (hs : s.sound_card = SOUND_CARD0 ∨ s.sound_card = SOUND_CARD2)
    (h : proxy_open_capture_stream K P hw fuel aproxy s m = some r) :
    r.2.sound_card = SOUND_CARD0 ∨ r.2.sound_card = SOUND_CARD2 := by
  have hb := capture_open_apcall_sound_card K P hw aproxy s hs
  unfold proxy_open_capture_stream at h
  simp only [] at h
  generalize capture_open_apcall K P hw aproxy s = b0 at h hb
  by_cases hp : b0.pcm = true
  · rw [if_neg (by simpa using hp)] at h
    cases h
    exact hb
  · rw [if_pos hp, Option.map_eq_some'] at h
    obtain ⟨a0, ha0, rfl⟩ := h
    have hcard : a0.sound_card = b0.sound_card := by
      split_ifs at ha0
      · rw [Option.map_eq_some'] at ha0
        obtain ⟨c, _, rfl⟩ := ha0
        rfl
      · cases ha0
        rfl
    rw [← hcard] at hb
    simp only [capture_err_open, capture_open_done]
    split_ifs <;>
      simp only [proxy_close_capture_stream_sound_card, mmap_negotiation_sound_card,
        audio_proxy_stream.emit] <;>
      exact hb

theorem proxy_reconfig_capture_usage_sound_card (K : Defs) (P : Platform) (hw : stream_hw)
    (aproxy : audio_proxy) (s : audio_proxy_stream) (type usage : Nat)
    (hs : s.sound_card = SOUND_CARD0 ∨ s.sound_card = SOUND_CARD2) :
    (proxy_reconfig_capture_usage K P hw aproxy s type usage).2.sound_card = SOUND_CARD0 ∨
      (proxy_reconfig_capture_usage K P hw aproxy s type usage).2.sound_card = SOUND_CARD2 := by
  unfold proxy_reconfig_capture_usage
  simp only []
  split_ifs <;>
    simp only [check_conversion_sound_card, release_running_resampler_sound_card,
      update_capture_pcmconfig_sound_card] <;>
    first
    | exact hs
    | exact Or.inl rfl
    | exact Or.inr rfl

theorem capture_calls_apply_sound_card (K : Defs) (P : Platform) :
    ∀ (calls : List capture_call) (s s' : audio_proxy_stream),
      (s.sound_card = SOUND_CARD0 ∨ s.sound_card = SOUND_CARD2) →
      capture_calls_apply K P calls s = some s' →
      s'.sound_card = SOUND_CARD0 ∨ s'.sound_card = SOUND_CARD2 := by
  intro calls
  induction calls with
  | nil =>
    intro s s' hs h
    cases h
    exact hs
  | cons c cs ih =>
    intro s s' hs h
    unfold capture_calls_apply at h
    rw [Option.bind_eq_some] at h
    obtain ⟨s1, h1, h2⟩ := h
    refine ih s1 s' ?_ h2
    cases c with
    | proxy_open_capture_stream hw fuel aproxy m =>
      simp only [capture_call.apply, Option.map_eq_some'] at h1
      obtain ⟨r, hr, rfl⟩ := h1
      exact proxy_open_capture_stream_sound_card K P hw fuel aproxy s m r hs hr
    | proxy_close_capture_stream hw =>
      simp only [capture_call.apply, Option.some.injEq] at h1
      rw [← h1, proxy_close_capture_stream_sound_card]
      exact hs
    | proxy_reconfig_capture_stream type cfg =>
      simp only [capture_call.apply, Option.some.injEq] at h1
      rw [← h1]
      exact hs
    | proxy_reconfig_capture_usage hw aproxy type usage =>
      simp only [capture_call.apply, Option.some.injEq] at h1
      rw [← h1]
      exact proxy_reconfig_capture_usage_sound_card K P hw aproxy s type usage hs

/-- Claim C27: a capture stream that `proxy_create_capture_stream` returned has,
after any sequence of `proxy_open_capture_stream`,
`proxy_close_capture_stream`, `proxy_reconfig_capture_stream` and
`proxy_reconfig_capture_usage` calls, the sound card `SOUND_CARD0` or
`SOUND_CARD2` and not `SOUND_CARD1`. The test for muted data of
`proxy_read_capture_buffer` is then false in every audio mode, and a read is
the result of `read_and_process_frames`. -/
theorem capture_sound_card_invariant (K : Defs) (P : Platform) (hw : stream_hw)
    (aproxy : audio_proxy) (type usage : Nat) (cfg : audio_config)
    (calls : List capture_call) (s s' : audio_proxy_stream)
    (hc : proxy_create_capture_stream K P hw aproxy type usage cfg = some s)
    (hr : capture_calls_apply K P calls s = some s') :
    (s'.sound_card = SOUND_CARD0 ∨ s'.sound_card = SOUND_CARD2) ∧
    s'.sound_card ≠ SOUND_CARD1 ∧
    ∀ (aproxy' : audio_proxy) (env : capture_hw) (fuel : Nat) (bytes : Int),
      capture_mute_data aproxy' s' = false ∧
      proxy_read_capture_buffer K P env fuel aproxy' s' bytes =
        (capture_frames_request K P s' bytes).bind fun fr =>
          (read_and_process_frames K P env fuel s' fr).map fun r =>
            if r.1 < 0 then (r.1, r.2.1, r.2.2)
            else (bytes,
              { r.2.1 with frames := (r.2.1.frames + r.1.toNat) % 18446744073709551616 },
              r.2.2) := by
  have hok := capture_calls_apply_sound_card K P calls s s'
    (proxy_create_capture_stream_sound_card K P hw aproxy type usage cfg s hc) hr
  have hne : s'.sound_card ≠ SOUND_CARD1 := by
    rcases hok with h | h <;> rw [h] <;> decide
  refine ⟨hok, hne, ?_⟩
  intro aproxy' env fuel bytes
  have hm : capture_mute_data aproxy' s' = false := by
    unfold capture_mute_data
    simp [hne]
  refine ⟨hm, ?_⟩
  unfold proxy_read_capture_buffer
  simp only [hm, Bool.false_eq_true, if_false]

theorem capture_sound_card_invariant_witness :
    ∃ s s' : audio_proxy_stream,
      proxy_create_capture_stream sampleDefs samplePlatform sample_stream_hw
        (initial_proxy sampleDefs) sampleDefs.ASTREAM_CAPTURE_PRIMARY 0 sample_config = some s ∧
      capture_calls_apply sampleDefs samplePlatform
        [.proxy_open_capture_stream sample_stream_hw 1000 (initial_proxy sampleDefs) 0,
         .proxy_close_capture_stream sample_stream_hw,
         .proxy_reconfig_capture_usage sample_stream_hw (initial_proxy sampleDefs)
           sampleDefs.ASTREAM_CAPTURE_CALL 0,
         .proxy_open_capture_stream sample_stream_hw 1000 (initial_proxy sampleDefs) 0] s
        = some s' ∧
      s.sound_card = SOUND_CARD0 ∧ s'.sound_card = SOUND_CARD2 ∧ s'.pcm = true ∧
      capture_mute_data (initial_proxy sampleDefs) s' = false :=
  ⟨_, _, rfl, rfl, rfl, rfl, rfl,
    ((capture_sound_card_invariant sampleDefs samplePlatform sample_stream_hw
      (initial_proxy sampleDefs) sampleDefs.ASTREAM_CAPTURE_PRIMARY 0 sample_config
      [.proxy_open_capture_stream sample_stream_hw 1000 (initial_proxy sampleDefs) 0,
       .proxy_close_capture_stream sample_stream_hw,
       .proxy_reconfig_capture_usage sample_stream_hw (initial_proxy sampleDefs)
         sampleDefs.ASTREAM_CAPTURE_CALL 0,
       .proxy_open_capture_stream sample_stream_hw 1000 (initial_proxy sampleDefs) 0]
      _ _ rfl rfl).2.2 (initial_proxy sampleDefs) sample_capture_hw 0 0).1⟩

/-! ## The mixer update thread -/

theorem proxy_set_mixercontrol_trace (hw : Hw) (a : audio_proxy) (type : erap_trigger)
    (value : Int) :
    ∃ ev : List Event, (proxy_set_mixercontrol hw a type value).trace = a.trace ++ ev ∧
      Event.pthread_create_mixer_update_loop ∉ ev ∧
      (proxy_set_mixercontrol hw a type value).mixer = a.mixer := by
  unfold proxy_set_mixercontrol
  simp only [audio_proxy.emit]
  cases type <;> simp only [] <;> split_ifs
  · exact ⟨[.rdlock, .mixer_ctl_set_value ABOX_MUTE_CONTROL_NAME value, .unlock],
      by simp, by simp, rfl⟩
  · exact ⟨[.rdlock, .unlock], by simp, by simp, rfl⟩
  · exact ⟨[.rdlock, .mixer_ctl_set_value ABOX_TICKLE_CONTROL_NAME value, .unlock],
      by simp, by simp, rfl⟩
  · exact ⟨[.rdlock, .unlock], by simp, by simp, rfl⟩

/-- Claim C28: `audio_route_missing_ctl` returns 0 for every route graph, so
`proxy_init_route` never makes the `pthread_create` call that starts
`mixer_update_loop`. It returns true exactly when `mixer_open` and
`audio_route_init` both succeed, and then the last call it makes is
`mixer_subscribe_events(mixer, 0)`, after the subscription, the route
initialisation and the initialisation of the lock. -/
theorem proxy_init_route_starts_no_thread {audio_route : Type} (K : Defs) (hw : Hw)
    (mixer_open_ok : Bool) (audio_route_init_ret : Option audio_route)
    (aproxy : audio_proxy) (path : CStr) :
    (∀ ar : audio_route, audio_route_missing_ctl ar = 0) ∧
    ((proxy_init_route K hw mixer_open_ok audio_route_init_ret aproxy path).1 = true ↔
      mixer_open_ok = true ∧ audio_route_init_ret.isSome = true) ∧
    ∃ ev : List Event,
      (proxy_init_route K hw mixer_open_ok audio_route_init_ret aproxy path).2.trace =
        aproxy.trace ++ ev ∧
      Event.pthread_create_mixer_update_loop ∉ ev ∧
      ((proxy_init_route K hw mixer_open_ok audio_route_init_ret aproxy path).1 = true →
        ∃ ev0 : List Event,
          ev = ev0 ++ [.mixer_subscribe_events 1, .audio_route_init path,
            .pthread_rwlock_init, .mixer_subscribe_events 0] ∧
          (proxy_init_route K hw mixer_open_ok audio_route_init_ret aproxy path).2.mixer = true ∧
          (proxy_init_route K hw mixer_open_ok audio_route_init_ret aproxy path).2.aroute
            = true) := by
  obtain ⟨ev, htr, hno, hmx⟩ := proxy_set_mixercontrol_trace hw
    { aproxy.emit .mixer_open with mixer := mixer_open_ok } .TICKLE_CONTROL ABOX_TICKLE_ON
  have htr2 : (proxy_set_mixercontrol hw { aproxy.emit .mixer_open with mixer := mixer_open_ok }
      .TICKLE_CONTROL ABOX_TICKLE_ON).trace = aproxy.trace ++ .mixer_open :: ev := by
    rw [htr]
    simp [audio_proxy.emit]
  have hmx2 : (proxy_set_mixercontrol hw { aproxy.emit .mixer_open with mixer := mixer_open_ok }
      .TICKLE_CONTROL ABOX_TICKLE_ON).mixer = mixer_open_ok := hmx
  unfold proxy_init_route
  simp only []
  generalize proxy_set_mixercontrol hw { aproxy.emit .mixer_open with mixer := mixer_open_ok }
      .TICKLE_CONTROL ABOX_TICKLE_ON = a1 at htr2 hmx2
  refine ⟨fun _ => rfl, ?_, ?_⟩
  · cases mixer_open_ok <;> cases audio_route_init_ret <;>
      simp [hmx2, audio_route_missing_ctl]
  · cases mixer_open_ok with
    | false =>
      refine ⟨.mixer_open :: ev, ?_, ?_, ?_⟩
      · simp [hmx2, htr2]
      · simpa using hno
      · simp [hmx2]
    | true =>
      cases audio_route_init_ret with
      | none =>
        refine ⟨.mixer_open :: ev ++ [.mixer_subscribe_events 1, .audio_route_init path,
          .mixer_subscribe_events 0, .mixer_close], ?_, ?_, ?_⟩
        · simp [hmx2, htr2, audio_proxy.emit]
        · simpa using hno
        · simp [hmx2]
      | some ar =>
        refine ⟨.mixer_open :: ev ++ [.mixer_subscribe_events 1, .audio_route_init path,
          .pthread_rwlock_init, .mixer_subscribe_events 0], ?_, ?_, ?_⟩
        · simp [hmx2, htr2, audio_proxy.emit, audio_route_missing_ctl]
        · simpa using hno
        · intro _
          exact ⟨.mixer_open :: ev, by simp,
            by simp [hmx2, audio_route_missing_ctl, audio_proxy.emit],
            by simp [hmx2, audio_route_missing_ctl, audio_proxy.emit]⟩

/-! ## Buffer provider pairs -/

theorem provider_pair_ok (K : Defs) (ro : Bool) (rd : pcm_read_result)
    (s : audio_proxy_stream) (n : Nat) (hs : provider_state_ok s)
    (hrd : rd.status = 0) (hro : ro = true) :
    (provider_pair K ro rd s n).1 = 0 ∧
    (provider_pair K ro rd s n).2.1.actual_read_status = 0 ∧
    (provider_pair K ro rd s n).2.2.frame_count =
      min n (if s.read_buf_frames = 0 then s.pcmconfig.period_size else s.read_buf_frames) ∧
    (provider_pair K ro rd s n).2.2.raw =
      some ((s.pcmconfig.period_size -
        (if s.read_buf_frames = 0 then s.pcmconfig.period_size else s.read_buf_frames))
          * s.pcmconfig.channels) ∧
    (provider_pair K ro rd s n).2.1.read_buf_frames =
      (if s.read_buf_frames = 0 then s.pcmconfig.period_size else s.read_buf_frames) -
        min n (if s.read_buf_frames = 0 then s.pcmconfig.period_size else s.read_buf_frames) ∧
    (provider_pair K ro rd s n).2.1.calls = s.calls ++
      (if s.read_buf_frames = 0 then
        [.pcm_read (pcm_frames_to_bytes s.pcm_handle_config s.pcmconfig.period_size
          % 4294967296)] else []) ∧
    (provider_pair K ro rd s n).2.1.pcmconfig = s.pcmconfig ∧
    (provider_pair K ro rd s n).2.1.pcm_handle_config = s.pcm_handle_config ∧
    (provider_pair K ro rd s n).2.1.resampler = s.resampler ∧
    provider_state_ok (provider_pair K ro rd s n).2.1 := by
  obtain ⟨hpcm, hper, hle, hst, hbuf⟩ := hs
  subst hro
  by_cases hz : s.read_buf_frames = 0
  · by_cases hgrow : s.actual_read_buf_size <
        pcm_frames_to_bytes s.pcm_handle_config s.pcmconfig.period_size % 4294967296
    · refine ⟨?_, ?_, ?_, ?_, ?_, ?_, ?_, ?_, ?_, ?_⟩
      · simp [provider_pair, get_next_buffer, release_buffer, hpcm, hz, hgrow, hrd]
      · simp [provider_pair, get_next_buffer, release_buffer, hpcm, hz, hgrow, hrd]
      · simp [provider_pair, get_next_buffer, release_buffer, hpcm, hz, hgrow, hrd]
        split_ifs <;> omega
      · simp [provider_pair, get_next_buffer, release_buffer, hpcm, hz, hgrow, hrd]
      · simp [provider_pair, get_next_buffer, release_buffer, hpcm, hz, hgrow, hrd]
        split_ifs <;> omega
      · simp [provider_pair, get_next_buffer, release_buffer, hpcm, hz, hgrow, hrd]
      · simp [provider_pair, get_next_buffer, release_buffer, hpcm, hz, hgrow, hrd]
      · simp [provider_pair, get_next_buffer, release_buffer, hpcm, hz, hgrow, hrd]
      · simp [provider_pair, get_next_buffer, release_buffer, hpcm, hz, hgrow, hrd]
      · simp [provider_state_ok, provider_pair, get_next_buffer, release_buffer, hpcm, hz,
          hgrow, hrd, hper]
    · have hsome : s.actual_read_buf.isSome = true := by
        rcases hbuf with h | h
        · exact h
        · exact absurd h hgrow
      obtain ⟨old, hold⟩ := Option.isSome_iff_exists.mp hsome
      refine ⟨?_, ?_, ?_, ?_, ?_, ?_, ?_, ?_, ?_, ?_⟩
      · simp [provider_pair, get_next_buffer, release_buffer, hpcm, hz, hgrow, hrd, hold]
      · simp [provider_pair, get_next_buffer, release_buffer, hpcm, hz, hgrow, hrd, hold]
      · simp [provider_pair, get_next_buffer, release_buffer, hpcm, hz, hgrow, hrd, hold]
        split_ifs <;> omega
      · simp [provider_pair, get_next_buffer, release_buffer, hpcm, hz, hgrow, hrd, hold]
      · simp [provider_pair, get_next_buffer, release_buffer, hpcm, hz, hgrow, hrd, hold]
        split_ifs <;> omega
      · simp [provider_pair, get_next_buffer, release_buffer, hpcm, hz, hgrow, hrd, hold]
      · simp [provider_pair, get_next_buffer, release_buffer, hpcm, hz, hgrow, hrd, hold]
      · simp [provider_pair, get_next_buffer, release_buffer, hpcm, hz, hgrow, hrd, hold]
      · simp [provider_pair, get_next_buffer, release_buffer, hpcm, hz, hgrow, hrd, hold]
      · simp [provider_state_ok, provider_pair, get_next_buffer, release_buffer, hpcm, hz,
          hgrow, hrd, hold, hper]
  · obtain ⟨h0, hsome⟩ := hst hz
    obtain ⟨old, hold⟩ := Option.isSome_iff_exists.mp hsome
    refine ⟨?_, ?_, ?_, ?_, ?_, ?_, ?_, ?_, ?_, ?_⟩
    · simp [provider_pair, get_next_buffer, release_buffer, hpcm, hz, h0, hold]
    · simp [provider_pair, get_next_buffer, release_buffer, hpcm, hz, h0, hold]
    · simp [provider_pair, get_next_buffer, release_buffer, hpcm, hz, h0, hold]
      split_ifs <;> omega
    · simp [provider_pair, get_next_buffer, release_buffer, hpcm, hz, h0, hold]
    · simp [provider_pair, get_next_buffer, release_buffer, hpcm, hz, h0, hold]
      split_ifs <;> omega
    · simp [provider_pair, get_next_buffer, release_buffer, hpcm, hz, h0, hold]
    · simp [provider_pair, get_next_buffer, release_buffer, hpcm, hz, h0, hold]
    · simp [provider_pair, get_next_buffer, release_buffer, hpcm, hz, h0, hold]
    · simp [provider_pair, get_next_buffer, release_buffer, hpcm, hz, h0, hold]
    · simp [provider_state_ok, provider_pair, get_next_buffer, release_buffer, hpcm, hz,
        hper, h0, hold]
      omega

/-- Claim C30, as amended: over every sequence of `get_next_buffer` /
`release_buffer` pairs on an open stream whose handle was opened with the
channel count the stream has now and with 16-bit samples, whose period fits
the `unsigned int` byte count, whose reads and allocations succeed, and that
starts with at most one period unconsumed, the count of unconsumed frames
stays within the period size. With `u` the unconsumed count at the call, or
the period size when the count is 0 and a new period is read, each pair hands
out `min(requested, u)` frames at the byte offset of frame `period_size - u`
of the period read (the `int16_t` cell offset `(period_size - u) * channels`),
inside the bytes of that period, and leaves `u` minus that many; `pcm_read` is
called exactly in the pairs that start with the count 0, and each pair starts
with the count the previous one left. So the blocks handed out follow each
other inside a period and a new period starts only when the previous one is
used up. -/
theorem provider_pairs_in_order (K : Defs) (env : capture_hw)
    (hrd : ∀ j, (env.pcm_read j).status = 0) (hro : ∀ j, env.realloc_ok j = true) :
    ∀ (reqs : List Nat) (i : Nat) (s : audio_proxy_stream), provider_state_ok s →
      s.pcm_handle_config.channels = s.pcmconfig.channels →
      s.pcm_handle_config.format = .PCM_FORMAT_S16_LE →
      pcm_frames_to_bytes s.pcm_handle_config s.pcmconfig.period_size < 4294967296 →
      provider_state_ok (provider_pairs K env i reqs s).2 ∧
      (provider_pairs K env i reqs s).2.pcmconfig = s.pcmconfig ∧
      (provider_pairs K env i reqs s).2.pcm_handle_config = s.pcm_handle_config ∧
      (provider_pairs K env i reqs s).2.read_buf_frames ≤ s.pcmconfig.period_size ∧
      (provider_pairs K env i reqs s).1.map (fun r => r.requested) = reqs ∧
      (∀ r ∈ (provider_pairs K env i reqs s).1,
        r.unconsumed_before ≤ s.pcmconfig.period_size ∧
        r.unconsumed_after ≤ s.pcmconfig.period_size ∧
        r.status = 0 ∧
        r.pcm_reads = (if r.unconsumed_before = 0 then 1 else 0) ∧
        r.buffer.frame_count = min r.requested
          (if r.unconsumed_before = 0 then s.pcmconfig.period_size else r.unconsumed_before) ∧
        r.buffer.raw = some ((s.pcmconfig.period_size -
          (if r.unconsumed_before = 0 then s.pcmconfig.period_size else r.unconsumed_before))
            * s.pcmconfig.channels) ∧
        r.unconsumed_after =
          (if r.unconsumed_before = 0 then s.pcmconfig.period_size else r.unconsumed_before)
            - r.buffer.frame_count ∧
        r.buffer.raw.map (fun c => c * 2) =
          some (pcm_frames_to_bytes s.pcm_handle_config (s.pcmconfig.period_size -
            (if r.unconsumed_before = 0 then s.pcmconfig.period_size
              else r.unconsumed_before))) ∧
        pcm_frames_to_bytes s.pcm_handle_config (s.pcmconfig.period_size -
            (if r.unconsumed_before = 0 then s.pcmconfig.period_size
              else r.unconsumed_before)) +
          pcm_frames_to_bytes s.pcm_handle_config r.buffer.frame_count ≤
            pcm_frames_to_bytes s.pcm_handle_config s.pcmconfig.period_size % 4294967296) ∧
      (∀ r ∈ (provider_pairs K env i reqs s).1.head?,
        r.unconsumed_before = s.read_buf_frames) ∧
      List.Chain' (fun a b => b.unconsumed_before = a.unconsumed_after)
        (provider_pairs K env i reqs s).1 := by
  intro reqs
  induction reqs with
  | nil =>
    intro i s hs _ _ _
    refine ⟨hs, rfl, rfl, hs.2.2.1, rfl, ?_, ?_, List.chain'_nil⟩
    · intro r hr
      simp [provider_pairs] at hr
    · intro r hr
      simp [provider_pairs] at hr
  | cons n ns ih =>
    intro i s hs hch hfmt hfit
    obtain ⟨p1, p2, p3, p4, p5, p6, p7, p8, p9, p10⟩ :=
      provider_pair_ok K (env.realloc_ok i) (env.pcm_read i) s n hs (hrd i) (hro i)
    obtain ⟨q1, q2, q3, q4, q5, q6, q7, q8⟩ := ih (i + 1)
      (provider_pair K (env.realloc_ok i) (env.pcm_read i) s n).2.1 p10
      (by rw [p7, p8]; exact hch) (by rw [p8]; exact hfmt) (by rw [p7, p8]; exact hfit)
    rw [p7] at q2 q4 q6
    rw [p8] at q3 q6
    have hle := hs.2.2.1
    have hper := hs.2.1
    unfold provider_pairs
    simp only []
    refine ⟨q1, q2, q3, q4, ?_, ?_, ?_, ?_⟩
    · rw [List.map_cons, q5]
    · intro r hr
      rw [List.mem_cons] at hr
      rcases hr with hr | hr
      · subst hr
        simp only []
        refine ⟨hle, ?_, p1, ?_, p3, p4, ?_, ?_, ?_⟩
        · rw [p5]
          split_ifs <;> omega
        · rw [p6]
          split_ifs <;> simp
        · rw [p5, p3]
        · rw [p4]
          simp [pcm_frames_to_bytes, hfmt, hch, pcm_format_to_bits]
        · rw [p3, Nat.mod_eq_of_lt hfit]
          unfold pcm_frames_to_bytes
          rw [← Nat.add_mul, ← Nat.add_mul]
          apply Nat.mul_le_mul_right
          apply Nat.mul_le_mul_right
          split_ifs <;> omega
      · exact q6 r hr
    · intro r hr
      simp only [List.head?_cons, Option.mem_def, Option.some.injEq] at hr
      subst hr
      rfl
    · rw [List.chain'_cons']
      refine ⟨?_, q8⟩
      intro y hy
      exact q7 y hy

theorem provider_pairs_in_order_witness :
    provider_state_ok sample_fm_capture_stream ∧
    provider_state_ok
      (provider_pairs sampleDefs sample_capture_hw 0 [3, 3, 4] sample_fm_capture_stream).2 ∧
    (provider_pairs sampleDefs sample_capture_hw 0 [3, 3, 4] sample_fm_capture_stream).1 =
      [{ requested := 3, unconsumed_before := 0, unconsumed_after := 1, pcm_reads := 1,
         status := 0, buffer := { raw := some 0, frame_count := 3 } },
       { requested := 3, unconsumed_before := 1, unconsumed_after := 0, pcm_reads := 0,
         status := 0, buffer := { raw := some 6, frame_count := 1 } },
       { requested := 4, unconsumed_before := 0, unconsumed_after := 0, pcm_reads := 1,
         status := 0, buffer := { raw := some 0, frame_count := 4 } }] :=
  ⟨by decide,
   (provider_pairs_in_order sampleDefs sample_capture_hw (fun _ => rfl) (fun _ => rfl)
     [3, 3, 4] 0 sample_fm_capture_stream (by decide) (by decide) (by decide) (by decide)).1,
   by decide⟩

/-- Claim C30, counterexample: a stream whose handle was opened with two
channels and whose channel count `proxy_set_stream_channel` then set to 1, with
a period of 4 frames. The first pair reads a period of 16 bytes and hands out
3 frames; the second pair hands out the last frame at `int16_t` cell 3, which
is byte 6 of the period, while frame 3 of the period read starts at byte 12:
the block does not start at frame offset `period_size - unconsumed` of the
period. -/
theorem provider_offset_uses_the_stream_channels :
    (proxy_set_stream_channel sample_fm_capture_stream 1 true).pcm_handle_config.channels = 2 ∧
    (proxy_set_stream_channel sample_fm_capture_stream 1 true).pcmconfig.channels = 1 ∧
    (provider_pairs sampleDefs sample_capture_hw 0 [3, 3]
        (proxy_set_stream_channel sample_fm_capture_stream 1 true)).1 =
      [{ requested := 3, unconsumed_before := 0, unconsumed_after := 1, pcm_reads := 1,
         status := 0, buffer := { raw := some 0, frame_count := 3 } },
       { requested := 3, unconsumed_before := 1, unconsumed_after := 0, pcm_reads := 0,
         status := 0, buffer := { raw := some 3, frame_count := 1 } }] ∧
    (provider_pair sampleDefs true (sample_capture_hw.pcm_read 0)
        (proxy_set_stream_channel sample_fm_capture_stream 1 true) 3).2.1.calls =
      [.pcm_read 16] ∧
    pcm_frames_to_bytes
      (proxy_set_stream_channel sample_fm_capture_stream 1 true).pcm_handle_config 3 = 12 := by
  refine ⟨by decide, by decide, by decide, by decide, by decide⟩

/-! ## The read loop without a resampler -/

theorem get_next_buffer_resampler (K : Defs) (ro : Bool) (rd : pcm_read_result)
    (s : audio_proxy_stream) (b : resampler_buffer) :
    (get_next_buffer K ro rd s b).2.1.resampler = s.resampler := by
  unfold get_next_buffer
  simp only []
  by_cases hp : s.pcm = true
  · rw [if_pos hp]
    by_cases hz : s.read_buf_frames = 0
    · rw [if_pos hz]
      split
      · by_cases hst : rd.status = 0
        · rw [if_neg (by simpa using hst)]
          simp only []
          split_ifs <;> rfl
        · rw [if_pos hst]
          simp only []
          split_ifs <;> rfl
      · simp only []
        split_ifs <;> rfl
    · rw [if_neg hz]
  · rw [if_neg hp]

theorem provider_pair_resampler (K : Defs) (ro : Bool) (rd : pcm_read_result)
    (s : audio_proxy_stream) (n : Nat) :
    (provider_pair K ro rd s n).2.1.resampler = s.resampler :=
  get_next_buffer_resampler K ro rd s { raw := none, frame_count := n }

theorem read_frames_pass_none (K : Defs) (env : capture_hw) (i : Nat) (s : audio_proxy_stream)
    (n : Nat) (h : s.resampler = none) :
    read_frames_pass K env i s n =
      ((provider_pair K (env.realloc_ok i) (env.pcm_read i) s n).2.1,
        if (provider_pair K (env.realloc_ok i) (env.pcm_read i) s n).2.2.raw.isSome
        then (provider_pair K (env.realloc_ok i) (env.pcm_read i) s n).2.2.frame_count else n,
        (provider_pair K (env.realloc_ok i) (env.pcm_read i) s n).1) := by
  unfold read_frames_pass
  rw [h]
  rfl

theorem read_frames_env (K : Defs) (env env' : capture_hw) (F : Int)
    (h1 : env'.realloc_ok = env.realloc_ok) (h2 : env'.pcm_read = env.pcm_read) :
    ∀ (fuel i : Nat) (s : audio_proxy_stream) (wr : Int) (log : List Int),
      s.resampler = none →
      read_frames K env' F fuel i s wr log = read_frames K env F fuel i s wr log := by
  intro fuel
  induction fuel with
  | zero => intro i s wr log _; rfl
  | succ fuel ih =>
    intro i s wr log h
    unfold read_frames
    rw [read_frames_pass_none K env i s _ h, read_frames_pass_none K env' i s _ h, h1, h2]
    simp only []
    rw [ih _ _ _ _ ((provider_pair_resampler K _ _ s _).trans h)]

theorem read_frames_all_ok (K : Defs) (env : capture_hw) (F : Int) (hF : F < 2147483648)
    (hrd : ∀ j, (env.pcm_read j).status = 0) (hro : ∀ j, env.realloc_ok j = true) :
    ∀ (fuel i : Nat) (s : audio_proxy_stream) (wr : Int) (log : List Int),
      s.resampler = none → provider_state_ok s → 0 ≤ wr → wr ≤ F →
      (F - wr).toNat < fuel → (∀ x ∈ log, x = 0) →
      ∃ (s' : audio_proxy_stream) (log' : List Int),
        read_frames K env F fuel i s wr log = some (F, s', log') ∧
        (∀ x ∈ log', x = 0) ∧ provider_state_ok s' := by
  intro fuel
  induction fuel with
  | zero => intro i s wr log _ _ _ _ h; exact absurd h (by omega)
  | succ fuel ih =>
    intro i s wr log hres hs h0 h1 hfuel hlog
    unfold read_frames
    by_cases hlt : wr < F
    · rw [if_pos hlt, read_frames_pass_none K env i s _ hres]
      obtain ⟨p1, p2, p3, p4, p5, p6, p7, p8, p9, p10⟩ :=
        provider_pair_ok K (env.realloc_ok i) (env.pcm_read i) s (F - wr).toNat hs
          (hrd i) (hro i)
      simp only []
      rw [if_neg (by simpa using p2), p4, p3]
      simp only [Option.isSome_some, if_true]
      have hper := hs.2.1
      have hle := hs.2.2.1
      have hpos : 0 < min (F - wr).toNat
          (if s.read_buf_frames = 0 then s.pcmconfig.period_size else s.read_buf_frames) := by
        split_ifs <;> omega
      have hmle : min (F - wr).toNat
          (if s.read_buf_frames = 0 then s.pcmconfig.period_size else s.read_buf_frames)
          ≤ (F - wr).toNat := Nat.min_le_left _ _
      generalize min (F - wr).toNat
        (if s.read_buf_frames = 0 then s.pcmconfig.period_size else s.read_buf_frames) = m
        at hpos hmle
      have e : to_int32 (to_uint32 (wr + (m : Int))) = wr + (m : Int) := by
        unfold to_int32 to_uint32
        split_ifs <;> omega
      rw [e, p1]
      exact ih (i + 1) _ (wr + (m : Int)) (log ++ [0]) (p9.trans hres) p10 (by omega) (by omega)
        (by omega)
        (by
          intro x hx
          rw [List.mem_append] at hx
          rcases hx with hx | hx
          · exact hlog x hx
          · simpa using hx)
    · rw [if_neg hlt]
      have : wr = F := by omega
      subst this
      exact ⟨s, log, rfl, hlog, hs⟩

/-- Claim C29, as amended: for a capture stream without a resampler and with a
period size greater than zero, `read_frames` returns for every frame count `n`
from 0 to `INT_MAX`, within `n + 1` passes of its loop; the value is `n` when
every pass ends with the read status 0, and the status of the last pass
otherwise. Every pass ends with status 0 when the handle is open, every
`pcm_read` and every allocation of the read buffer succeeds, and the stream
starts with at most one period unconsumed and with status 0 and a read buffer
whenever frames are unconsumed. -/
theorem read_frames_returns (K : Defs) (env : capture_hw) (s : audio_proxy_stream)
    (n : Int) (fuel : Nat) (hres : s.resampler = none) (hper : 0 < s.pcmconfig.period_size)
    (hn0 : 0 ≤ n) (hn : n < 2147483648) (hfuel : n.toNat < fuel) :
    ∃ (ret : Int) (s' : audio_proxy_stream) (log : List Int),
      read_frames K env n fuel 0 s 0 [] = some (ret, s', log) ∧
      ((∀ st ∈ log, st = 0) → ret = n) ∧
      (∀ st ∈ log, st ≠ 0 → ret = st) ∧
      ((∀ j, (env.pcm_read j).status = 0) → (∀ j, env.realloc_ok j = true) →
        provider_state_ok s → ret = n ∧ ∀ st ∈ log, st = 0) := by
  have hspec := read_frames_spec K
    { env with resample_from_provider := fun _ a k =>
        { read_buf_frames := a.read_buf_frames,
          actual_read_buf_size := a.actual_read_buf_size,
          actual_read_buf := a.actual_read_buf,
          actual_read_status := 0,
          frames_rd := k } }
    n hn (fun _ _ _ => ⟨le_refl _, fun h _ => h⟩) fuel 0 s 0 [] (le_refl _) hn0
    (fun _ => hper) (by simpa using hfuel) (by simp)
  rw [read_frames_env K env
    { env with resample_from_provider := fun _ a k =>
        { read_buf_frames := a.read_buf_frames,
          actual_read_buf_size := a.actual_read_buf_size,
          actual_read_buf := a.actual_read_buf,
          actual_read_status := 0,
          frames_rd := k } } n rfl rfl fuel 0 s 0 [] hres] at hspec
  obtain ⟨ret, s', log, h1, _, h3, h4⟩ := hspec
  refine ⟨ret, s', log, h1, h3, fun st hst hne => (h4 st hst hne).2, ?_⟩
  intro hrd hro hs
  obtain ⟨s2, log2, g1, g2, _⟩ := read_frames_all_ok K env n hn hrd hro fuel 0 s 0 [] hres hs
    (le_refl _) hn0 (by simpa using hfuel) (by simp)
  rw [g1] at h1
  cases h1
  exact ⟨rfl, g2⟩

theorem read_frames_returns_witness :
    (∃ (ret : Int) (s' : audio_proxy_stream) (log : List Int),
      read_frames sampleDefs sample_capture_hw 10 11 0 sample_fm_capture_stream 0 []
        = some (ret, s', log) ∧
      ((∀ st ∈ log, st = 0) → ret = 10) ∧
      (∀ st ∈ log, st ≠ 0 → ret = st) ∧
      ((∀ j, (sample_capture_hw.pcm_read j).status = 0) →
        (∀ j, sample_capture_hw.realloc_ok j = true) →
        provider_state_ok sample_fm_capture_stream → ret = 10 ∧ ∀ st ∈ log, st = 0)) ∧
    (read_frames sampleDefs sample_capture_hw 10 11 0 sample_fm_capture_stream 0 []).map
      (fun r => (r.1, r.2.1.read_buf_frames, r.2.2)) = some (10, 2, [0, 0, 0]) ∧
    (read_frames sampleDefs sample_capture_hw_failing 10 11 0 sample_fm_capture_stream 0 []).map
      (fun r => (r.1, r.2.2)) = some (-5, [0, -5]) :=
  ⟨read_frames_returns sampleDefs sample_capture_hw sample_fm_capture_stream 10 11 rfl
    (by decide) (by decide) (by decide) (by decide), by decide, by decide⟩

/-- Claim C29, counterexample: an open stream without a resampler and with a
period of 4 frames, asked for 10 frames when the allocation of the read buffer
fails. No `pcm_read` call is made, so no hardware read fails, and `read_frames`
returns `-ENOMEM` (-12) after one pass and not 10. -/
theorem read_frames_allocation_failure :
    sample_fm_capture_stream.pcm = true ∧ sample_fm_capture_stream.resampler = none ∧
    sample_fm_capture_stream.pcmconfig.period_size = 4 ∧
    (read_frames sampleDefs { sample_capture_hw with realloc_ok := fun _ => false } 10 11 0
        sample_fm_capture_stream 0 []).map (fun r => (r.1, r.2.1.calls, r.2.2)) =
      some (-12, [], [-12]) := by
  refine ⟨rfl, rfl, rfl, by decide⟩

end AudioProxy
